import Mathlib

/-! # Directus3D deferred renderer: frame collection, draw-order sort, resolution

A shallow embedding of `Runtime/Rendering/Renderer.cpp` (and of the constructor in
`Runtime/Rendering/Deferred/GBuffer.cpp`) together with theorems about it.

Conventions of the embedding

* A raw or shared pointer that the code tests against `nullptr` is an `Option`;
  `none` is the null pointer.  A `weak_ptr` is an `Option` as well, `none` being
  an expired reference, so that `lock()` is the identity.
* Dereferencing a null pointer has no defined result: a function that may do so
  returns an `Option`, and `none` is that outcome.
* `int` values are `Int`, resource identifiers are `Nat`; the conversion
  `(unsigned long long)` and the shifts that follow it are taken modulo `2^64`.
* A `float` is represented by the rational number it denotes; the conversion of
  an `int` to `float` rounds to a 24-bit significand.
-/

namespace Directus

/-! ## Scene data reached by the renderer -/

/-- Shader permutation (`ShaderVariation`); only its resource identifier is read. -/
structure ShaderVariation where
  resourceID : Nat := 0
deriving DecidableEq, Repr

/-- Values of `Cull_Mode`. -/
inductive CullMode where
  | Cull_None
  | Cull_Back
  | Cull_Front
deriving DecidableEq, Repr

/-- Material: `GetResourceID()`, `GetShader()` (a `weak_ptr`), `GetOpacity()` and
`GetCullMode()`. -/
structure Material where
  resourceID : Nat := 0
  shader : Option ShaderVariation := none
  opacity : ℚ := 1
  cullMode : CullMode := CullMode.Cull_Back
deriving DecidableEq, Repr

/-- Geometry owner (`Model`). -/
structure Model where
  resourceID : Nat := 0
deriving DecidableEq, Repr

/-- The `Renderable` component: `Geometry_Model()`, `Material_Ref()`,
`GetCastShadows()`, `Geometry_IndexCount()`, `Geometry_IndexOffset()`,
`Geometry_VertexOffset()`, and the answer of the frame's camera to
`IsInViewFrustrum(renderable)`. -/
structure Renderable where
  geometryModel : Option Model := none
  material : Option Material := none
  castShadows : Bool := true
  indexCount : Nat := 0
  indexOffset : Nat := 0
  vertexOffset : Nat := 0
  inViewFrustrum : Bool := true
deriving DecidableEq, Repr

/-- Values of `LightType`. -/
inductive LightType where
  | LightType_Directional
  | LightType_Point
  | LightType_Spot
deriving DecidableEq, Repr

/-- The `Light` component; `id` stands for the identity of the object.  Beside
`GetLightType()`, `GetCastShadows()` and `ShadowMap_GetCount()` it carries what the
gizmo pass asks about its position: the answer of the frame's camera to
`IsInViewFrustrum` and the distance to the camera. -/
structure Light where
  id : Nat := 0
  lightType : LightType := LightType.LightType_Point
  castShadows : Bool := false
  shadowMapCount : Nat := 3
  inViewFrustrum : Bool := true
  distance : ℚ := 1
deriving DecidableEq, Repr

/-- The `Skybox` component. -/
structure Skybox where
  id : Nat := 0
deriving DecidableEq, Repr

/-- The `LineRenderer` component. -/
structure LineRenderer where
  id : Nat := 0
deriving DecidableEq, Repr

/-- A `Vector4` of four floats. -/
structure Vector4 where
  x : ℚ := 0
  y : ℚ := 0
  z : ℚ := 0
  w : ℚ := 0
deriving DecidableEq, Repr

/-- A `Vector3` of three floats. -/
structure Vector3 where
  x : ℚ := 0
  y : ℚ := 0
  z : ℚ := 0
deriving DecidableEq, Repr

/-- The `Camera` component with its `GetClearColor()` and the position of its
transform. -/
structure Camera where
  id : Nat := 0
  clearColor : Vector4 := {}
  position : Vector3 := {}
deriving DecidableEq, Repr

/-- A scene actor with the components the renderer asks for
(`GetRenderable_PtrRaw`, `GetComponent<Light>`, `GetComponent<Skybox>`,
`GetComponent<LineRenderer>`, `GetComponent<Camera>`); `id` is the identity of
the object behind an `Actor*`. -/
structure Actor where
  id : Nat := 0
  renderable : Option Renderable := none
  light : Option Light := none
  skybox : Option Skybox := none
  lineRenderer : Option LineRenderer := none
  camera : Option Camera := none
deriving DecidableEq, Repr

/-! ## The comparator of `Renderables_Sort` -/

/-- Conversion to `unsigned long long`. -/
def toULL (n : Nat) : Nat := n % 2 ^ 64

/-- Left shift of an `unsigned long long`. -/
def shlULL (n k : Nat) : Nat := (n <<< k) % 2 ^ 64

/-- The composite key built in the lambda of `Renderables_Sort`:
`((ull)model << 48) | ((ull)shader << 32) | ((ull)material << 16)`. -/
def compositeKey (keyModel keyShader keyMaterial : Nat) : Nat :=
  shlULL (toULL keyModel) 48 ||| shlULL (toULL keyShader) 32 ||| shlULL (toULL keyMaterial) 16

/-- The lambda handed to `std::sort` in `Renderer::Renderables_Sort`.
`none` is the dereference of the null pointer returned by `GetShader().lock()`
when the material has no live shader. -/
def comparator (a b : Actor) : Option Bool :=
  match a.renderable, b.renderable with
  | some a_renderable, some b_renderable =>
    match a_renderable.geometryModel, b_renderable.geometryModel with
    | some a_geometryModel, some b_geometryModel =>
      match a_renderable.material, b_renderable.material with
      | some a_material, some b_material =>
        match a_material.shader, b_material.shader with
        | some a_shader, some b_shader =>
          let a_key := compositeKey a_geometryModel.resourceID a_shader.resourceID
            a_material.resourceID
          let b_key := compositeKey b_geometryModel.resourceID b_shader.resourceID
            b_material.resourceID
          some (decide (a_key < b_key))
        | _, _ => none
      | _, _ => some false
    | _, _ => some false
  | _, _ => some false

/-! ## `std::sort`

The standard fixes the contract of `std::sort`, not its algorithm.  The model is
the insertion sort that libstdc++ and the MSVC library both run on a short
range: every element in turn is moved to the front when the comparator puts it
before the first element, and is otherwise shifted left past each predecessor
the comparator puts it before.  The sorted prefix is kept in reverse. -/

/-- The unguarded linear insertion: `val` moves left while `comp val prev`. -/
def unguardedLinearInsert {α : Type} (comp : α → α → Option Bool) (val : α) :
    List α → Option (List α)
  | [] => some [val]
  | prev :: rest =>
    match comp val prev with
    | none => none
    | some true => (unguardedLinearInsert comp val rest).map (fun r => prev :: r)
    | some false => some (val :: prev :: rest)

/-- One step of the insertion sort on the reversed sorted prefix. -/
def insertionStep {α : Type} (comp : α → α → Option Bool) (sortedRev : List α) (val : α) :
    Option (List α) :=
  match sortedRev.getLast? with
  | none => some [val]
  | some first =>
    match comp val first with
    | none => none
    | some true => some (sortedRev ++ [val])
    | some false => unguardedLinearInsert comp val sortedRev

/-- The loop of the insertion sort. -/
def insertionLoop {α : Type} (comp : α → α → Option Bool) :
    List α → List α → Option (List α)
  | sortedRev, [] => some sortedRev.reverse
  | sortedRev, val :: rest =>
    match insertionStep comp sortedRev val with
    | none => none
    | some sortedRev1 => insertionLoop comp sortedRev1 rest

/-- Model of `std::sort(first, last, comp)`. -/
def stdSort {α : Type} (comp : α → α → Option Bool) (l : List α) : Option (List α) :=
  insertionLoop comp [] l

/-- The body of `Renderer::Renderables_Sort` with the comparator as a parameter. -/
def Renderables_SortBy (comp : Actor → Actor → Option Bool) (renderables : List Actor) :
    Option (List Actor) :=
  if renderables.length ≤ 1 then some renderables else stdSort comp renderables

/-- The function `Renderer::Renderables_Sort`. -/
def Renderables_Sort (renderables : List Actor) : Option (List Actor) :=
  Renderables_SortBy comparator renderables

/-- Whether the actor has a renderable component, a geometry model, a material and
a live shader: the case in which the comparator reaches the key comparison. -/
def isValid (a : Actor) : Bool :=
  match a.renderable with
  | some r =>
    match r.geometryModel, r.material with
    | some _, some m => m.shader.isSome
    | _, _ => false
  | none => false

/-- The (model, shader, material) identifiers of an actor, `(0, 0, 0)` where one is
missing. -/
def idTriple (a : Actor) : Nat × Nat × Nat :=
  match a.renderable with
  | some r =>
    match r.geometryModel, r.material with
    | some g, some m =>
      match m.shader with
      | some s => (g.resourceID, s.resourceID, m.resourceID)
      | none => (0, 0, 0)
    | _, _ => (0, 0, 0)
  | none => (0, 0, 0)

/-- The composite key the comparator computes for an actor. -/
def keyOf (a : Actor) : Nat :=
  compositeKey (idTriple a).1 (idTriple a).2.1 (idTriple a).2.2

/-- Neither actor is ordered before the other by the comparator. -/
def incomparable (a b : Actor) : Prop :=
  comparator a b = some false ∧ comparator b a = some false

/-! ## Renderer state -/

/-- Values of `Texture_Format` used for render targets. -/
inductive Texture_Format where
  | Texture_Format_R8G8B8A8_UNORM
  | Texture_Format_R16G16B16A16_FLOAT
  | Texture_Format_R32G32_FLOAT
deriving DecidableEq, Repr

/-- A `D3D11_RenderTexture` as constructed from `(rhi, width, height, depth, format)`;
`id` is the identity of the allocated object. -/
structure D3D11_RenderTexture where
  id : Nat
  width : Int
  height : Int
  depth : Bool
  format : Texture_Format
deriving DecidableEq, Repr

/-- The `GBuffer`: the four entries of `m_renderTargets`. -/
structure GBuffer where
  GBuffer_Target_Albedo : D3D11_RenderTexture
  GBuffer_Target_Normal : D3D11_RenderTexture
  GBuffer_Target_Specular : D3D11_RenderTexture
  GBuffer_Target_Depth : D3D11_RenderTexture
deriving DecidableEq, Repr

/-- The full-screen quad (`Rectangle`) after `Create(x, y, width, height)`. -/
structure Rectangle where
  x : ℚ
  y : ℚ
  width : ℚ
  height : ℚ
deriving DecidableEq

/-- A `Vector2` of two floats. -/
structure Vector2 where
  x : ℚ
  y : ℚ
deriving DecidableEq

/-- The part of the `Settings` singleton the renderer reads and writes. -/
structure Settings where
  m_resolution : Vector2
deriving DecidableEq

/-! ## Conversions between `int` and `float` -/

/-- The number of low bits an integer magnitude loses when it is brought into a
24-bit significand: the number of halvings that take it below `2^24`. -/
def excessBits : Nat → Nat → Nat
  | 0, _ => 0
  | fuel + 1, a => if a < 2 ^ 24 then 0 else 1 + excessBits fuel (a / 2)

/-- Rounding of a magnitude to a multiple of `2^e`, to the nearest one and on a
tie to the one with an even quotient. -/
def roundToBits (a e : Nat) : Nat :=
  let q := a / 2 ^ e
  let r := a % 2 ^ e
  let up := decide (2 ^ e < 2 * r) || (decide (2 * r = 2 ^ e) && decide (q % 2 = 1))
  (if up then q + 1 else q) * 2 ^ e

/-- The integer denoted by `(float)n` for an `int` (any `|n| < 2^88`): the nearest
number with a 24-bit significand, ties to the even significand.  It is `n` itself
when `|n| < 2^24`. -/
def roundToFloat (n : Int) : Int :=
  Int.sign n * (roundToBits n.natAbs (excessBits 64 n.natAbs) : Int)

/-- The value of `(float)n`. -/
def floatOfInt (n : Int) : ℚ := (roundToFloat n : ℚ)

/-- The value of `int(n * 0.5f)` for an `int` `n`: the product of the float
`(float)n` with `0.5f` is exact, and the conversion to `int` truncates toward
zero. -/
def halfOfInt (n : Int) : Int :=
  Int.tdiv (roundToFloat n) 2

/-! ## The grid (`Runtime/Rendering/Grid.cpp`) -/

/-- A vertex with position and colour (`RHI_Vertex_PosCol`). -/
structure RHI_Vertex_PosCol where
  position : Vector3
  color : Vector4
deriving DecidableEq

/-- The members of `Grid` that `BuildGrid` fills: the vertices and indices handed to
`CreateBuffers`, and `m_indexCount`. -/
structure Grid where
  m_terrainHeight : Int
  m_terrainWidth : Int
  vertices : List RHI_Vertex_PosCol
  indices : List Nat
  m_indexCount : Nat
deriving DecidableEq

/-- The values of `k` in `for (int k = lo; k < hi; k++)`. -/
def intRange (lo hi : Int) : List Int :=
  (List.range (hi - lo).toNat).map (fun (k : Nat) => lo + (k : Int))

/-- The white vertex at `((float)x, 0.0f, (float)z)`. -/
def gridVertex (x z : Int) : RHI_Vertex_PosCol :=
  { position := ⟨floatOfInt x, 0, floatOfInt z⟩, color := ⟨1, 1, 1, 1⟩ }

/-- The eight vertices that the body of the inner loop of `BuildGrid` appends for
the cell `(i, j)`. -/
def cellVertices (i j : Int) : List RHI_Vertex_PosCol :=
  [ gridVertex i (j + 1), gridVertex (i + 1) (j + 1),
    gridVertex (i + 1) (j + 1), gridVertex (i + 1) j,
    gridVertex (i + 1) j, gridVertex i j,
    gridVertex i j, gridVertex i (j + 1) ]

/-- The function `Grid::BuildGrid`, on the terrain size set by the constructor. -/
def BuildGrid (m_terrainHeight m_terrainWidth : Int) : Grid :=
  let halfSizeW := halfOfInt m_terrainWidth
  let halfSizeH := halfOfInt m_terrainHeight
  let vertices := (intRange (-halfSizeH) halfSizeH).flatMap (fun j =>
    (intRange (-halfSizeW) halfSizeW).flatMap (fun i => cellVertices i j))
  let indices := List.range vertices.length
  { m_terrainHeight := m_terrainHeight
    m_terrainWidth := m_terrainWidth
    vertices := vertices
    indices := indices
    m_indexCount := indices.length }

/-- The constructor `Grid::Grid`. -/
def Grid.new : Grid := BuildGrid 200 200

/-- The segments of a line list: consecutive pairs of vertex positions. -/
def lineList : List RHI_Vertex_PosCol → List (Vector3 × Vector3)
  | a :: b :: rest => (a.position, b.position) :: lineList rest
  | _ => []

/-- The value of `(int)x` for a float `x`: truncation toward zero; there is none
when the truncated value is not an `int`. -/
def intOfFloat (x : ℚ) : Option Int :=
  if -2 ^ 31 ≤ Int.tdiv x.num x.den ∧ Int.tdiv x.num x.den < 2 ^ 31 then
    some (Int.tdiv x.num x.den)
  else none

/-- The matrix `Matrix::CreateScale(s) * Matrix::CreateTranslation(t)`, kept as the
pair of `s` and `t`. -/
structure ScaleTranslation where
  scale : ℚ
  translation : Vector3
deriving DecidableEq

/-- The local `gridSpacing` of `Grid::ComputeWorldMatrix`. -/
def gridSpacing : ℚ := 1

/-- The function `Grid::ComputeWorldMatrix` on the position of the camera
transform. -/
def ComputeWorldMatrix (cameraPosition : Vector3) : Option ScaleTranslation :=
  match intOfFloat (cameraPosition.x / gridSpacing),
      intOfFloat (cameraPosition.z / gridSpacing) with
  | some tx, some tz =>
    some { scale := gridSpacing
           translation := ⟨floatOfInt tx * gridSpacing, 0, floatOfInt tz * gridSpacing⟩ }
  | _, _ => none

/-- The integer part of `x` is a float.  It holds for every float `x`: the integer
part of a number with a 24-bit significand has a 24-bit significand. -/
def integerPartIsFloat (x : ℚ) : Prop :=
  roundToFloat (Int.tdiv x.num x.den) = Int.tdiv x.num x.den

/-! ## The graphics device

The calls that reach the device, directly through `m_rhi` or through a GPU object
(render texture, G-buffer, shader, vertex buffer), are recorded in the order in
which they are made.  The contents of the constant buffers (matrices, vectors) are
not recorded. -/

/-- Values of `PrimitiveTopology_Mode`. -/
inductive PrimitiveTopology where
  | PrimitiveTopology_TriangleList
  | PrimitiveTopology_LineList
deriving DecidableEq, Repr

/-- The samplers created by `Initialize`. -/
inductive Sampler where
  | m_samplerPointWrapAlways
  | m_samplerPointClampAlways
  | m_samplerPointClampGreater
  | m_samplerLinearClampGreater
  | m_samplerLinearWrapAlways
  | m_samplerBilinearWrapAlways
  | m_samplerAnisotropicWrapAlways
deriving DecidableEq, Repr

/-- The shaders created by `Initialize`. -/
inductive Shader where
  | m_shaderLight
  | m_shaderLine
  | m_shaderLightDepth
  | m_shaderGrid
  | m_shaderFont
  | m_shaderTexture
  | m_shaderFXAA
  | m_shaderSharpening
  | m_shaderChromaticAberration
  | m_shaderBlurBox
  | m_shaderBlurGaussianH
  | m_shaderBlurGaussianV
  | m_shaderBloom_Bright
  | m_shaderBloom_BlurBlend
  | m_shaderCorrection
  | m_shaderTransformationGizmo
  | m_shaderShadowing
deriving DecidableEq, Repr

/-- The names given to `EventBegin`. -/
inductive EventName where
  | Pass_DepthDirectionalLight
  | Pass_ShadowMap (index : Nat)
  | Pass_GBuffer
  | Pass_PreLight
  | Pass_Light
  | Pass_PostLight
  | Pass_Correction
  | Pass_FXAA
  | Pass_Sharpening
  | Pass_ChromaticAberration
  | Pass_Bloom
  | Pass_Blur
  | Pass_Shadowing
  | Pass_DebugGBuffer
  | Pass_Debug
  | Lines
  | Grid
  | Gizmos
  | Lights
deriving DecidableEq, Repr

/-- What a texture slot can be bound to: the shader resource view of a render
texture, the noise map, a shadow map of a light, the skybox, the gizmo icon of a
light type, the font atlas, the textures of a material. -/
inductive ShaderResource where
  | renderTexture (id : Nat)
  | noiseMap
  | shadowMap (light : Nat) (index : Nat)
  | skybox (id : Nat)
  | gizmoTexture (lightType : LightType)
  | font
  | material (id : Nat)
deriving DecidableEq, Repr

/-- A call received by the device or by a GPU object. -/
inductive Command where
  | EventBegin (name : EventName)
  | EventEnd
  | Clear (color : Vector4)
  | Present
  | EnableDepth (enable : Bool)
  | EnableAlphaBlending (enable : Bool)
  | SetCullMode (mode : CullMode)
  | Set_PrimitiveTopology (topology : PrimitiveTopology)
  | Bind_Sampler (slot : Nat) (sampler : Sampler)
  | Bind_Texture (slot : Nat) (texture : Option ShaderResource)
  | Bind_Textures (textures : List (Option ShaderResource))
  | Bind_BackBufferAsRenderTarget
  | SetBackBufferViewport
  | Bind_RenderTargets (targets : List Nat) (depth : Nat)
  | SetViewport (target : Nat)
  | ClearRenderTargetView (target : Nat) (color : Vector4)
  | ClearDepthStencilView (target : Nat)
  | DrawIndexed (indexCount indexOffset vertexOffset : Nat)
  | Draw (vertexCount : Nat)
  | RenderTexture_SetAsRenderTarget (target : Nat)
  | RenderTexture_Clear (target : Nat) (color : Vector4)
  | ShadowMap_SetRenderTarget (light : Nat) (index : Nat)
  | Geometry_Bind (model : Nat)
  | Shader_Bind (shader : Shader)
  | Shader_Bind_Buffer (shader : Shader)
  | LightShader_UpdateMatrixBuffer
  | LightShader_UpdateMiscBuffer (lights : List Nat)
  | ShaderVariation_Bind (shader : Nat)
  | ShaderVariation_Bind_PerFrameBuffer (shader : Nat)
  | ShaderVariation_Bind_PerMaterialBuffer (shader : Nat) (material : Nat)
  | ShaderVariation_Bind_PerObjectBuffer (shader : Nat) (actor : Nat)
  | Rectangle_SetBuffer
  | Grid_SetBuffer
  | GizmoRect_Create
  | GizmoRect_SetBuffer
  | Font_SetText
  | Font_SetVertexAndIndexBuffers
  | LineRenderer_SetBuffer
deriving DecidableEq, Repr

/-- The graphics device (`RHI`) of the context: `IsInitialized()` and the calls it
has received. -/
structure RHI where
  initialized : Bool
  commands : List Command
deriving DecidableEq

/-- What `Initialize` creates beside the render targets: the font, the grid, the
samplers, the shaders and the textures.  They are created together, so one
reference stands for all of them; `lightShaderCompiled` is
`m_shaderLight->IsCompiled()`. -/
structure FrameResources where
  m_grid : Grid
  lightShaderCompiled : Bool
deriving DecidableEq

/-- Values returned by collaborators whose code is not part of the renderer: the
index counts of the full-screen quad and of the font, whether the light shader
compiles, the number of line vertices that the physics debug draw hands over when
it is dirty (`0` otherwise), the number of those of the picking ray, and the
number of those of one bounding box. -/
structure External where
  quadIndexCount : Nat := 6
  fontIndexCount : Nat := 0
  lightShaderCompiles : Bool := true
  physicsLineVertices : Nat := 0
  pickingRayVertices : Nat := 2
  boundingBoxVertices : Nat := 24
deriving DecidableEq

/-! ## The renderer -/

/-- The members of `Renderer` together with the `Settings` singleton, the device of
the context and the values of the collaborators.  `m_rhi` tells whether the member
of this name points to the device (`false` is `nullptr`).  `allocated` counts the
render textures constructed so far and supplies the identity of the next one. -/
structure Renderer where
  settings : Settings
  rhi : RHI := { initialized := false, commands := [] }
  external : External := {}
  m_rhi : Bool := false
  m_resources : Option FrameResources := none
  m_currentlyBoundGeometry : Nat := 0
  m_currentlyBoundShader : Nat := 0
  m_currentlyBoundMaterial : Nat := 0
  allocated : Nat
  m_gbuffer : Option GBuffer
  m_quad : Option Rectangle
  m_renderTexPing : Option D3D11_RenderTexture
  m_renderTexPing2 : Option D3D11_RenderTexture
  m_renderTexPong : Option D3D11_RenderTexture
  m_renderTexShadowing : Option D3D11_RenderTexture
  m_renderables : List Actor
  m_lights : List Light
  m_directionalLight : Option Light
  m_skybox : Option Skybox
  m_lineRenderer : Option LineRenderer
  m_camera : Option Camera
  m_flags : Nat
deriving DecidableEq

/-! ## Render targets and resolution -/

/-- The constructor `GBuffer::GBuffer(rhi, width, height)`; `n` is the number of
render textures allocated before it. -/
def GBuffer.create (n : Nat) (width height : Int) : GBuffer :=
  { GBuffer_Target_Albedo :=
      ⟨n, width, height, false, Texture_Format.Texture_Format_R8G8B8A8_UNORM⟩
    GBuffer_Target_Normal :=
      ⟨n + 1, width, height, false, Texture_Format.Texture_Format_R8G8B8A8_UNORM⟩
    GBuffer_Target_Specular :=
      ⟨n + 2, width, height, false, Texture_Format.Texture_Format_R8G8B8A8_UNORM⟩
    GBuffer_Target_Depth :=
      ⟨n + 3, width, height, true, Texture_Format.Texture_Format_R32G32_FLOAT⟩ }

/-- The function `Renderer::RenderTargets_Create`. -/
def RenderTargets_Create (s : Renderer) (width height : Int) : Renderer :=
  { s with
    allocated := s.allocated + 8
    m_gbuffer := some (GBuffer.create s.allocated width height)
    m_quad := some ⟨0, 0, floatOfInt width, floatOfInt height⟩
    m_renderTexPing := some ⟨s.allocated + 4, width, height, false,
      Texture_Format.Texture_Format_R16G16B16A16_FLOAT⟩
    m_renderTexPing2 := some ⟨s.allocated + 5, width, height, false,
      Texture_Format.Texture_Format_R16G16B16A16_FLOAT⟩
    m_renderTexPong := some ⟨s.allocated + 6, width, height, false,
      Texture_Format.Texture_Format_R16G16B16A16_FLOAT⟩
    m_renderTexShadowing := some ⟨s.allocated + 7,
      halfOfInt width, halfOfInt height, false, Texture_Format.Texture_Format_R32G32_FLOAT⟩ }

/-- The function `Renderer::SetResolution`.  The two log calls are not modelled. -/
def SetResolution (s : Renderer) (width height : Int) : Renderer :=
  if s.settings.m_resolution.x = floatOfInt width ∧
      s.settings.m_resolution.y = floatOfInt height then s
  else if width ≤ 0 ∨ height ≤ 0 then s
  else
    let width1 := width - (if Int.tmod width 2 ≠ 0 then 1 else 0)
    let height1 := height - (if Int.tmod height 2 ≠ 0 then 1 else 0)
    RenderTargets_Create
      { s with settings := { m_resolution := ⟨floatOfInt width1, floatOfInt height1⟩ } }
      width1 height1

/-! ## Frame collection -/

/-- The function `Renderer::Clear`. -/
def Clear (s : Renderer) : Renderer :=
  { s with
    m_renderables := []
    m_lights := []
    m_directionalLight := none
    m_skybox := none
    m_lineRenderer := none
    m_camera := none }

/-- The body of the loop of `Renderables_Acquire` for one weak actor reference. -/
def acquireActor (s : Renderer) (renderable : Option Actor) : Renderer :=
  match renderable with
  | none => s
  | some actor =>
    let s1 := { s with m_renderables := s.m_renderables ++ [actor] }
    let s2 :=
      match actor.light with
      | some light =>
        { s1 with
          m_lights := s1.m_lights ++ [light]
          m_directionalLight :=
            if light.lightType = LightType.LightType_Directional then some light
            else s1.m_directionalLight }
      | none => s1
    let s3 :=
      match actor.skybox with
      | some skybox => { s2 with m_skybox := some skybox, m_lineRenderer := actor.lineRenderer }
      | none => s2
    match actor.camera with
    | some camera => { s3 with m_camera := some camera }
    | none => s3

/-- The function `Renderer::Renderables_Acquire`. -/
def Renderables_Acquire (s : Renderer) (renderablesVec : List (Option Actor)) :
    Option Renderer :=
  let s1 := renderablesVec.foldl acquireActor (Clear s)
  (Renderables_Sort s1.m_renderables).map (fun sorted => { s1 with m_renderables := sorted })

/-- The live actors of a sequence of weak references, in order. -/
def liveActors (renderablesVec : List (Option Actor)) : List Actor :=
  renderablesVec.filterMap id

/-- Whether the actor has a renderable component with a geometry model and a
material whose shader is missing or expired. -/
def missingShader (a : Actor) : Bool :=
  match a.renderable with
  | some r =>
    match r.geometryModel, r.material with
    | some _, some m => m.shader.isNone
    | _, _ => false
  | none => false

/-- The per-frame members of the renderer: renderables, lights, directional light,
skybox, line renderer, camera. -/
def frameOf (s : Renderer) :
    List Actor × List Light × Option Light × Option Skybox × Option LineRenderer ×
      Option Camera :=
  (s.m_renderables, s.m_lights, s.m_directionalLight, s.m_skybox, s.m_lineRenderer, s.m_camera)

/-- The lights of the live actors that carry a light component, in input order. -/
def lightsOf (renderablesVec : List (Option Actor)) : List Light :=
  (liveActors renderablesVec).filterMap (fun a => a.light)

/-- The light of the last live actor whose light is directional, if there is one. -/
def lastDirectionalLight (renderablesVec : List (Option Actor)) : Option Light :=
  ((lightsOf renderablesVec).filter
    (fun x => decide (x.lightType = LightType.LightType_Directional))).getLast?

/-- The sequence without its expired references. -/
def removeExpired (renderablesVec : List (Option Actor)) : List (Option Actor) :=
  renderablesVec.filter (fun r => r.isSome)

/-! ## Concrete scenes -/

/-- An actor with a renderable component whose model, shader and material carry
the given resource identifiers. -/
def meshActor (id keyModel keyShader keyMaterial : Nat) : Actor :=
  { id := id
    renderable := some
      { geometryModel := some { resourceID := keyModel }
        material := some
          { resourceID := keyMaterial, shader := some { resourceID := keyShader } } } }

/-- An actor that carries a camera only. -/
def cameraActor (id : Nat) : Actor :=
  { id := id, camera := some { id := id } }

/-- An actor that carries a light only. -/
def lightActor (id : Nat) (lightType : LightType) : Actor :=
  { id := id, light := some { id := id, lightType := lightType } }

/-- An actor whose material has no live shader. -/
def shaderlessActor (id keyModel keyMaterial : Nat) : Actor :=
  { id := id
    renderable := some
      { geometryModel := some { resourceID := keyModel }
        material := some { resourceID := keyMaterial, shader := none } } }

/-- A renderer before `Initialize`, with the given stored resolution. -/
def blankRenderer (x y : ℚ) : Renderer :=
  { settings := { m_resolution := ⟨x, y⟩ }
    allocated := 0
    m_gbuffer := none
    m_quad := none
    m_renderTexPing := none
    m_renderTexPing2 := none
    m_renderTexPong := none
    m_renderTexShadowing := none
    m_renderables := []
    m_lights := []
    m_directionalLight := none
    m_skybox := none
    m_lineRenderer := none
    m_camera := none
    m_flags := 0 }

/-- The render textures the renderer holds: the four of the G-buffer, then ping,
ping2, pong and shadowing. -/
def renderTargets (s : Renderer) : List D3D11_RenderTexture :=
  (match s.m_gbuffer with
    | some g => [g.GBuffer_Target_Albedo, g.GBuffer_Target_Normal, g.GBuffer_Target_Specular,
        g.GBuffer_Target_Depth]
    | none => []) ++
  [s.m_renderTexPing, s.m_renderTexPing2, s.m_renderTexPong, s.m_renderTexShadowing].filterMap id

/-- Lexicographic order on identifier triples. -/
def tripleLt (a b : Nat × Nat × Nat) : Bool :=
  decide (a.1 < b.1) || (decide (a.1 = b.1) &&
    (decide (a.2.1 < b.2.1) || (decide (a.2.1 = b.2.1) && decide (a.2.2 < b.2.2))))

/-! ## Render flags -/

/-- Modelled from the spec: the values of `RenderMode`, declared in `Renderer.h`,
which is not among the sources.  The spec calls them "an OR-combinable bitmask" of
flags "checked independently": each is one bit of its own. -/
def Render_Albedo : Nat := 1 <<< 0

/-- Modelled from the spec: a value of `RenderMode` (see `Render_Albedo`). -/
def Render_Normal : Nat := 1 <<< 1

/-- Modelled from the spec: a value of `RenderMode` (see `Render_Albedo`). -/
def Render_Specular : Nat := 1 <<< 2

/-- Modelled from the spec: a value of `RenderMode` (see `Render_Albedo`). -/
def Render_Depth : Nat := 1 <<< 3

/-- Modelled from the spec: a value of `RenderMode` (see `Render_Albedo`). -/
def Render_Physics : Nat := 1 <<< 4

/-- Modelled from the spec: a value of `RenderMode` (see `Render_Albedo`). -/
def Render_AABB : Nat := 1 <<< 5

/-- Modelled from the spec: a value of `RenderMode` (see `Render_Albedo`). -/
def Render_PickingRay : Nat := 1 <<< 6

/-- Modelled from the spec: a value of `RenderMode` (see `Render_Albedo`). -/
def Render_SceneGrid : Nat := 1 <<< 7

/-- Modelled from the spec: a value of `RenderMode` (see `Render_Albedo`). -/
def Render_PerformanceMetrics : Nat := 1 <<< 8

/-- Modelled from the spec: a value of `RenderMode` (see `Render_Albedo`). -/
def Render_Light : Nat := 1 <<< 9

/-- Modelled from the spec: a value of `RenderMode` (see `Render_Albedo`). -/
def Render_Bloom : Nat := 1 <<< 10

/-- Modelled from the spec: a value of `RenderMode` (see `Render_Albedo`). -/
def Render_FXAA : Nat := 1 <<< 11

/-- Modelled from the spec: a value of `RenderMode` (see `Render_Albedo`). -/
def Render_Sharpening : Nat := 1 <<< 12

/-- Modelled from the spec: a value of `RenderMode` (see `Render_Albedo`). -/
def Render_ChromaticAberration : Nat := 1 <<< 13

/-- Modelled from the spec: a value of `RenderMode` (see `Render_Albedo`). -/
def Render_Correction : Nat := 1 <<< 14

/-- The test `m_flags & flag`, which is also what `RenderFlags_IsSet(flag)` returns. -/
def RenderFlags_IsSet (s : Renderer) (flag : Nat) : Bool :=
  (s.m_flags &&& flag) != 0

/-! ## Passes -/

/-- The state after the device has received `commands`. -/
def emit (s : Renderer) (commands : List Command) : Renderer :=
  { s with rhi := { s.rhi with commands := s.rhi.commands ++ commands } }

/-- The function `Renderer::GetClearColor`. -/
def GetClearColor (s : Renderer) : Vector4 :=
  match s.m_camera with
  | some camera => camera.clearColor
  | none => {}

/-- The function `Renderer::GetFrame`. -/
def GetFrame (s : Renderer) : Option ShaderResource :=
  s.m_renderTexPong.map (fun t => ShaderResource.renderTexture t.id)

/-- The calls made by `Renderer::SetRenderTarget(renderTarget, clear)`. -/
def SetRenderTarget (s : Renderer) (renderTarget : Option D3D11_RenderTexture)
    (clear : Bool) : List Command :=
  match renderTarget with
  | some renderTexture =>
    [Command.RenderTexture_SetAsRenderTarget renderTexture.id] ++
      (if clear then [Command.RenderTexture_Clear renderTexture.id (GetClearColor s)] else [])
  | none =>
    [Command.Bind_BackBufferAsRenderTarget, Command.SetBackBufferViewport] ++
      (if clear then [Command.Clear (GetClearColor s)] else [])

/-- The body of the inner loop of `Pass_DepthDirectionalLight` for one actor: the
value of `m_currentlyBoundGeometry` after it and the calls it makes. -/
def depthActor (bound : Nat) (actor : Actor) : Nat × List Command :=
  match actor.renderable with
  | none => (bound, [])
  | some obj_renderable =>
    match obj_renderable.material with
    | none => (bound, [])
    | some obj_material =>
      match obj_renderable.geometryModel with
      | none => (bound, [])
      | some obj_geometry =>
        let bind : Nat × List Command :=
          if bound ≠ obj_geometry.resourceID then
            (obj_geometry.resourceID,
              [Command.Geometry_Bind obj_geometry.resourceID,
                Command.Set_PrimitiveTopology PrimitiveTopology.PrimitiveTopology_TriangleList])
          else (bound, [])
        if !obj_renderable.castShadows then bind
        else if obj_material.opacity < 1 then bind
        else
          (bind.1, bind.2 ++
            [Command.Shader_Bind_Buffer Shader.m_shaderLightDepth,
              Command.DrawIndexed obj_renderable.indexCount obj_renderable.indexOffset
                obj_renderable.vertexOffset])

/-- The inner loop of `Pass_DepthDirectionalLight` over `m_renderables`. -/
def depthActors : Nat → List Actor → Nat × List Command
  | bound, [] => (bound, [])
  | bound, actor :: rest =>
    ((depthActors (depthActor bound actor).1 rest).1,
      (depthActor bound actor).2 ++ (depthActors (depthActor bound actor).1 rest).2)

/-- The outer loop of `Pass_DepthDirectionalLight` over the shadow maps `i`. -/
def depthCascades (light : Light) (renderables : List Actor) :
    Nat → List Nat → Nat × List Command
  | bound, [] => (bound, [])
  | bound, i :: rest =>
    ((depthCascades light renderables (depthActors bound renderables).1 rest).1,
      [Command.ShadowMap_SetRenderTarget light.id i,
        Command.EventBegin (EventName.Pass_ShadowMap i)] ++
      (depthActors bound renderables).2 ++ [Command.EventEnd] ++
      (depthCascades light renderables (depthActors bound renderables).1 rest).2)

/-- The function `Renderer::Pass_DepthDirectionalLight`. -/
def Pass_DepthDirectionalLight (s : Renderer) (light : Option Light) : Option Renderer :=
  match light with
  | none => some s
  | some light =>
    if !light.castShadows then some s
    else if !(s.m_rhi && s.m_resources.isSome) then none
    else
      some (emit { s with m_currentlyBoundGeometry := 0 }
        ([Command.EventBegin EventName.Pass_DepthDirectionalLight, Command.EnableDepth true,
            Command.Shader_Bind Shader.m_shaderLightDepth] ++
          (depthCascades light s.m_renderables s.m_currentlyBoundGeometry
            (List.range light.shadowMapCount)).2 ++
          [Command.EnableDepth false, Command.EventEnd]))

/-- The calls made by `GBuffer::SetAsRenderTarget`; the device context exists once
the device is initialised. -/
def GBuffer.SetAsRenderTarget (g : GBuffer) (rhi : RHI) : List Command :=
  if !rhi.initialized then []
  else
    [Command.Bind_RenderTargets
        [g.GBuffer_Target_Albedo.id, g.GBuffer_Target_Normal.id, g.GBuffer_Target_Specular.id,
          g.GBuffer_Target_Depth.id] g.GBuffer_Target_Depth.id,
      Command.SetViewport g.GBuffer_Target_Albedo.id]

/-- The calls made by `GBuffer::Clear`. -/
def GBuffer.Clear (g : GBuffer) (rhi : RHI) : List Command :=
  if !rhi.initialized then []
  else
    [g.GBuffer_Target_Albedo, g.GBuffer_Target_Normal, g.GBuffer_Target_Specular,
      g.GBuffer_Target_Depth].map (fun renderTarget =>
        if !renderTarget.depth then
          Command.ClearRenderTargetView renderTarget.id { x := 0, y := 0, z := 0, w := 1 }
        else Command.ClearDepthStencilView renderTarget.id)

/-- The three memoized identifiers `m_currentlyBoundGeometry`,
`m_currentlyBoundShader`, `m_currentlyBoundMaterial`. -/
structure BoundState where
  geometry : Nat
  shader : Nat
  material : Nat
deriving DecidableEq

/-- The body of the loop of `Pass_GBuffer` for one actor: the memoized identifiers
after it and the calls it makes. -/
def gbufferActor (bound : BoundState) (actor : Actor) : BoundState × List Command :=
  match actor.renderable with
  | none => (bound, [])
  | some obj_renderable =>
    match obj_renderable.material with
    | none => (bound, [])
    | some obj_material =>
      match obj_renderable.geometryModel, obj_material.shader with
      | some obj_geometry, some obj_shader =>
        if obj_material.opacity < 1 then (bound, [])
        else if !obj_renderable.inViewFrustrum then (bound, [])
        else
          ({ geometry := obj_geometry.resourceID
             shader := obj_shader.resourceID
             material := obj_material.resourceID },
            [Command.SetCullMode obj_material.cullMode] ++
            (if bound.geometry ≠ obj_geometry.resourceID then
              [Command.Geometry_Bind obj_geometry.resourceID] else []) ++
            (if bound.shader ≠ obj_shader.resourceID then
              [Command.ShaderVariation_Bind obj_shader.resourceID,
                Command.ShaderVariation_Bind_PerFrameBuffer obj_shader.resourceID] else []) ++
            (if bound.material ≠ obj_material.resourceID then
              [Command.ShaderVariation_Bind_PerMaterialBuffer obj_shader.resourceID
                  obj_material.resourceID,
                Command.Bind_Textures [some (ShaderResource.material obj_material.resourceID)]]
              else []) ++
            [Command.ShaderVariation_Bind_PerObjectBuffer obj_shader.resourceID actor.id,
              Command.DrawIndexed obj_renderable.indexCount obj_renderable.indexOffset
                obj_renderable.vertexOffset])
      | _, _ => (bound, [])

/-- The loop of `Pass_GBuffer` over `m_renderables`. -/
def gbufferActors : BoundState → List Actor → BoundState × List Command
  | bound, [] => (bound, [])
  | bound, actor :: rest =>
    ((gbufferActors (gbufferActor bound actor).1 rest).1,
      (gbufferActor bound actor).2 ++ (gbufferActors (gbufferActor bound actor).1 rest).2)

/-- The function `Renderer::Pass_GBuffer`.  It is called under `if (m_camera)` only
and asks the camera about every opaque renderable: it is given a result only when
the camera is there. -/
def Pass_GBuffer (s : Renderer) : Option Renderer :=
  if !s.m_rhi then some s
  else
    match s.m_gbuffer, s.m_resources, s.m_camera with
    | some g, some _, some _ =>
      some (emit
        { s with
          m_currentlyBoundGeometry := 0
          m_currentlyBoundShader := 0
          m_currentlyBoundMaterial := 0 }
        ([Command.EventBegin EventName.Pass_GBuffer] ++ g.SetAsRenderTarget s.rhi ++
          g.Clear s.rhi ++
          [Command.Bind_Sampler 0 Sampler.m_samplerAnisotropicWrapAlways] ++
          (gbufferActors
            { geometry := s.m_currentlyBoundGeometry
              shader := s.m_currentlyBoundShader
              material := s.m_currentlyBoundMaterial } s.m_renderables).2 ++
          [Command.EventEnd]))
    | _, _, _ => none

/-- The calls of a full-screen pass that binds `shader`, one sampler and the texture
`inTexture` at slot `0` and draws the quad into `outTexture`: the common body of
`Pass_Correction`, `Pass_FXAA`, `Pass_Sharpening`, `Pass_ChromaticAberration` and
`Pass_Blur` after their `EventBegin`. -/
def fullScreenDraw (s : Renderer) (shader : Shader) (inTexture : ShaderResource)
    (outTexture : Option D3D11_RenderTexture) : List Command :=
  SetRenderTarget s outTexture false ++
    [Command.Shader_Bind shader, Command.Shader_Bind_Buffer shader,
      Command.Bind_Sampler 0 Sampler.m_samplerLinearWrapAlways,
      Command.Bind_Texture 0 (some inTexture),
      Command.DrawIndexed s.external.quadIndexCount 0 0]

/-- The calls made by `Renderer::Pass_Correction`. -/
def Pass_Correction (s : Renderer) (inTexture : ShaderResource)
    (outTexture : Option D3D11_RenderTexture) : List Command :=
  [Command.EventBegin EventName.Pass_Correction] ++
    fullScreenDraw s Shader.m_shaderCorrection inTexture outTexture ++ [Command.EventEnd]

/-- The calls made by `Renderer::Pass_FXAA`. -/
def Pass_FXAA (s : Renderer) (inTexture : ShaderResource)
    (outTexture : Option D3D11_RenderTexture) : List Command :=
  [Command.EventBegin EventName.Pass_FXAA] ++
    fullScreenDraw s Shader.m_shaderFXAA inTexture outTexture ++ [Command.EventEnd]

/-- The calls made by `Renderer::Pass_Sharpening`. -/
def Pass_Sharpening (s : Renderer) (inTexture : ShaderResource)
    (outTexture : Option D3D11_RenderTexture) : List Command :=
  [Command.EventBegin EventName.Pass_Sharpening] ++
    fullScreenDraw s Shader.m_shaderSharpening inTexture outTexture ++ [Command.EventEnd]

/-- The calls made by `Renderer::Pass_ChromaticAberration`. -/
def Pass_ChromaticAberration (s : Renderer) (inTexture : ShaderResource)
    (outTexture : Option D3D11_RenderTexture) : List Command :=
  [Command.EventBegin EventName.Pass_ChromaticAberration] ++
    fullScreenDraw s Shader.m_shaderChromaticAberration inTexture outTexture ++
    [Command.EventEnd]

/-- The calls made by `Renderer::Pass_Blur`. -/
def Pass_Blur (s : Renderer) (texture : ShaderResource)
    (renderTarget : Option D3D11_RenderTexture) : List Command :=
  [Command.EventBegin EventName.Pass_Blur] ++
    fullScreenDraw s Shader.m_shaderBlurBox texture renderTarget ++ [Command.EventEnd]

/-- The calls made by `Renderer::Pass_Bloom` on three render textures that are all
there: bright pass, horizontal and vertical Gaussian blur, additive blending. -/
def Pass_Bloom (s : Renderer) (inSourceTexture inTextureSpare outTexture : D3D11_RenderTexture) :
    List Command :=
  [Command.EventBegin EventName.Pass_Bloom] ++
    fullScreenDraw s Shader.m_shaderBloom_Bright
      (ShaderResource.renderTexture inSourceTexture.id) (some inTextureSpare) ++
    fullScreenDraw s Shader.m_shaderBlurGaussianH
      (ShaderResource.renderTexture inTextureSpare.id) (some outTexture) ++
    fullScreenDraw s Shader.m_shaderBlurGaussianV
      (ShaderResource.renderTexture outTexture.id) (some inTextureSpare) ++
    SetRenderTarget s (some outTexture) false ++
    [Command.Shader_Bind Shader.m_shaderBloom_BlurBlend,
      Command.Shader_Bind_Buffer Shader.m_shaderBloom_BlurBlend,
      Command.Bind_Sampler 0 Sampler.m_samplerLinearWrapAlways,
      Command.Bind_Texture 0 (some (ShaderResource.renderTexture inSourceTexture.id)),
      Command.Bind_Texture 1 (some (ShaderResource.renderTexture inTextureSpare.id)),
      Command.DrawIndexed s.external.quadIndexCount 0 0,
      Command.EventEnd]

/-- The calls made by `Renderer::Pass_Shadowing`. -/
def Pass_Shadowing (s : Renderer)
    (inTextureNormal inTextureDepth inTextureNormalNoise : ShaderResource)
    (inDirectionalLight : Option Light) (outRenderTexture : Option D3D11_RenderTexture) :
    List Command :=
  match inDirectionalLight with
  | none => []
  | some light =>
    [Command.EventBegin EventName.Pass_Shadowing] ++
      SetRenderTarget s outRenderTexture false ++
      [Command.Shader_Bind Shader.m_shaderShadowing,
        Command.Shader_Bind_Buffer Shader.m_shaderShadowing,
        Command.Bind_Sampler 0 Sampler.m_samplerPointClampGreater,
        Command.Bind_Sampler 1 Sampler.m_samplerLinearClampGreater,
        Command.Bind_Textures
          [some inTextureNormal, some inTextureDepth, some inTextureNormalNoise,
            some (ShaderResource.shadowMap light.id 0),
            some (ShaderResource.shadowMap light.id 1),
            some (ShaderResource.shadowMap light.id 2)],
        Command.DrawIndexed s.external.quadIndexCount 0 0,
        Command.EventEnd]

/-- The function `Renderer::Pass_PreLight`. -/
def Pass_PreLight (s : Renderer)
    (inTextureNormal inTextureDepth inTextureNormalNoise : ShaderResource)
    (inRenderTexure outRenderTextureShadowing : Option D3D11_RenderTexture) :
    Option Renderer :=
  if !(s.m_rhi && s.m_resources.isSome && s.m_quad.isSome) then none
  else
    match inRenderTexure with
    | none => none
    | some renderTexture =>
      some (emit s
        ([Command.EventBegin EventName.Pass_PreLight, Command.Rectangle_SetBuffer,
            Command.Set_PrimitiveTopology PrimitiveTopology.PrimitiveTopology_TriangleList,
            Command.SetCullMode CullMode.Cull_Back] ++
          Pass_Shadowing s inTextureNormal inTextureDepth inTextureNormalNoise
            s.m_directionalLight inRenderTexure ++
          Pass_Blur s (ShaderResource.renderTexture renderTexture.id)
            outRenderTextureShadowing ++
          [Command.EventEnd]))

/-- The function `Renderer::Pass_Light`. -/
def Pass_Light (s : Renderer) (inTextureShadowing : ShaderResource)
    (outRenderTexture : Option D3D11_RenderTexture) : Option Renderer :=
  match s.m_resources with
  | none => none
  | some resources =>
    if !resources.lightShaderCompiled then some s
    else
      match s.m_gbuffer, s.m_renderTexPong with
      | some g, some pong =>
        if !(s.m_rhi && s.m_quad.isSome) then none
        else
          some (emit s
            ([Command.EventBegin EventName.Pass_Light, Command.EnableDepth false] ++
              SetRenderTarget s outRenderTexture false ++
              [Command.Shader_Bind Shader.m_shaderLight,
                Command.LightShader_UpdateMatrixBuffer,
                Command.LightShader_UpdateMiscBuffer (s.m_lights.map (fun light => light.id)),
                Command.Bind_Sampler 0 Sampler.m_samplerAnisotropicWrapAlways,
                Command.Bind_Textures
                  [some (ShaderResource.renderTexture g.GBuffer_Target_Albedo.id),
                    some (ShaderResource.renderTexture g.GBuffer_Target_Normal.id),
                    some (ShaderResource.renderTexture g.GBuffer_Target_Depth.id),
                    some (ShaderResource.renderTexture g.GBuffer_Target_Specular.id),
                    some inTextureShadowing,
                    some (ShaderResource.renderTexture pong.id),
                    s.m_skybox.map (fun skybox => ShaderResource.skybox skybox.id)],
                Command.DrawIndexed s.external.quadIndexCount 0 0,
                Command.EventEnd]))
      | _, _ => none

/-- The lambda `SwapTargets` of `Pass_PostLight`: it exchanges `outRenderTexture` and
`inRenderTexture1`, which are references to the members `m_renderTexPong` and
`m_renderTexPing`.  (Its flag `swaped` is written and never read.) -/
def SwapTargets (s : Renderer) : Renderer :=
  { s with m_renderTexPong := s.m_renderTexPing, m_renderTexPing := s.m_renderTexPong }

/-- The block `// BLOOM` of `Pass_PostLight`. -/
def PostLight_Bloom (s : Renderer) : Option Renderer :=
  if RenderFlags_IsSet s Render_Bloom then
    match s.m_renderTexPing, s.m_renderTexPing2, s.m_renderTexPong with
    | some inRenderTexture1, some inRenderTexture2, some outRenderTexture =>
      some (SwapTargets
        (emit s (Pass_Bloom s inRenderTexture1 inRenderTexture2 outRenderTexture)))
    | _, _, _ => none
  else some s

/-- The block `// CORRECTION` of `Pass_PostLight`. -/
def PostLight_Correction (s : Renderer) : Option Renderer :=
  if RenderFlags_IsSet s Render_Correction then
    match s.m_renderTexPing with
    | some inRenderTexture1 =>
      some (SwapTargets (emit s
        (Pass_Correction s (ShaderResource.renderTexture inRenderTexture1.id)
          s.m_renderTexPong)))
    | none => none
  else some s

/-- The block `// FXAA` of `Pass_PostLight`. -/
def PostLight_FXAA (s : Renderer) : Option Renderer :=
  if RenderFlags_IsSet s Render_FXAA then
    match s.m_renderTexPing with
    | some inRenderTexture1 =>
      some (SwapTargets (emit s
        (Pass_FXAA s (ShaderResource.renderTexture inRenderTexture1.id) s.m_renderTexPong)))
    | none => none
  else some s

/-- The block `// CHROMATIC ABERRATION` of `Pass_PostLight`. -/
def PostLight_ChromaticAberration (s : Renderer) : Option Renderer :=
  if RenderFlags_IsSet s Render_ChromaticAberration then
    match s.m_renderTexPing with
    | some inRenderTexture1 =>
      some (SwapTargets (emit s
        (Pass_ChromaticAberration s (ShaderResource.renderTexture inRenderTexture1.id)
          s.m_renderTexPong)))
    | none => none
  else some s

/-- The block `// SHARPENING` of `Pass_PostLight`; it does not swap. -/
def PostLight_Sharpening (s : Renderer) : Option Renderer :=
  if RenderFlags_IsSet s Render_Sharpening then
    match s.m_renderTexPing with
    | some inRenderTexture1 =>
      some (emit s
        (Pass_Sharpening s (ShaderResource.renderTexture inRenderTexture1.id)
          s.m_renderTexPong))
    | none => none
  else some s

/-- Values of `GBuffer_Texture_Type` other than `GBuffer_Target_Unknown`. -/
inductive GBuffer_Texture_Type where
  | GBuffer_Target_Albedo
  | GBuffer_Target_Normal
  | GBuffer_Target_Specular
  | GBuffer_Target_Depth
deriving DecidableEq, Repr

/-- The function `GBuffer::GetShaderResource`. -/
def GBuffer.GetShaderResource (g : GBuffer) (type : GBuffer_Texture_Type) : ShaderResource :=
  match type with
  | GBuffer_Texture_Type.GBuffer_Target_Albedo =>
    ShaderResource.renderTexture g.GBuffer_Target_Albedo.id
  | GBuffer_Texture_Type.GBuffer_Target_Normal =>
    ShaderResource.renderTexture g.GBuffer_Target_Normal.id
  | GBuffer_Texture_Type.GBuffer_Target_Specular =>
    ShaderResource.renderTexture g.GBuffer_Target_Specular.id
  | GBuffer_Texture_Type.GBuffer_Target_Depth =>
    ShaderResource.renderTexture g.GBuffer_Target_Depth.id

/-- The G-buffer channel chosen by `Pass_DebugGBuffer`: the last one, in the order
albedo, normal, specular, depth, whose flag is set; `none` is
`GBuffer_Target_Unknown`. -/
def debugTextureType (s : Renderer) : Option GBuffer_Texture_Type :=
  let texType0 : Option GBuffer_Texture_Type := none
  let texType1 := if RenderFlags_IsSet s Render_Albedo then
    some GBuffer_Texture_Type.GBuffer_Target_Albedo else texType0
  let texType2 := if RenderFlags_IsSet s Render_Normal then
    some GBuffer_Texture_Type.GBuffer_Target_Normal else texType1
  let texType3 := if RenderFlags_IsSet s Render_Specular then
    some GBuffer_Texture_Type.GBuffer_Target_Specular else texType2
  if RenderFlags_IsSet s Render_Depth then some GBuffer_Texture_Type.GBuffer_Target_Depth
  else texType3

/-- The function `Renderer::Pass_DebugGBuffer`. -/
def Pass_DebugGBuffer (s : Renderer) : Option Renderer :=
  if !s.m_rhi then none
  else
    match debugTextureType s with
    | none =>
      some (emit s [Command.EventBegin EventName.Pass_DebugGBuffer, Command.EventEnd])
    | some texType =>
      match s.m_gbuffer with
      | none => none
      | some g =>
        if !(s.m_resources.isSome && s.m_quad.isSome) then none
        else
          some (emit s
            [Command.EventBegin EventName.Pass_DebugGBuffer,
              Command.Shader_Bind Shader.m_shaderTexture,
              Command.Shader_Bind_Buffer Shader.m_shaderTexture,
              Command.Bind_Sampler 0 Sampler.m_samplerLinearWrapAlways,
              Command.Bind_Texture 0 (some (g.GetShaderResource texType)),
              Command.DrawIndexed s.external.quadIndexCount 0 0,
              Command.EventEnd])

/-- The constant `GIZMO_MAX_SIZE`. -/
def GIZMO_MAX_SIZE : ℚ := 5

/-- The constant `GIZMO_MIN_SIZE`. -/
def GIZMO_MIN_SIZE : ℚ := 1 / 10

/-- The function `Clamp(x, a, b)` of the math library. -/
def Clamp (x a b : ℚ) : ℚ :=
  if x < a then a else if b < x then b else x

/-- The scale of the gizmo of a light: `Clamp(GIZMO_MAX_SIZE / distance, …)`; the
quotient by the distance `0` is infinite and clamps to the maximum. -/
def gizmoScale (light : Light) : ℚ :=
  if light.distance = 0 then GIZMO_MAX_SIZE
  else Clamp (GIZMO_MAX_SIZE / light.distance) GIZMO_MIN_SIZE GIZMO_MAX_SIZE

/-- The body of the loop over `m_lights` in `Pass_Debug`. -/
def lightGizmo (s : Renderer) (light : Light) : List Command :=
  if !light.inViewFrustrum then []
  else if gizmoScale light = GIZMO_MIN_SIZE then []
  else
    [Command.GizmoRect_Create, Command.GizmoRect_SetBuffer,
      Command.Shader_Bind Shader.m_shaderTexture,
      Command.Shader_Bind_Buffer Shader.m_shaderTexture,
      Command.Set_PrimitiveTopology PrimitiveTopology.PrimitiveTopology_TriangleList,
      Command.Bind_Sampler 0 Sampler.m_samplerLinearWrapAlways,
      Command.Bind_Texture 0 (some (ShaderResource.gizmoTexture light.lightType)),
      Command.DrawIndexed s.external.quadIndexCount 0 0]

/-- The number of vertices in the line renderer after the block `PRIMITIVES` of
`Pass_Debug` has cleared and refilled it. -/
def debugLineVertices (s : Renderer) : Nat :=
  (if RenderFlags_IsSet s Render_Physics then s.external.physicsLineVertices else 0) +
  (if RenderFlags_IsSet s Render_PickingRay then s.external.pickingRayVertices else 0) +
  (if RenderFlags_IsSet s Render_AABB then
    s.external.boundingBoxVertices *
      (s.m_renderables.filter (fun actor => actor.renderable.isSome)).length
    else 0)

/-- The calls of the block `PRIMITIVES` of `Pass_Debug`. -/
def debugLines (s : Renderer) (g : GBuffer) : List Command :=
  match s.m_lineRenderer with
  | none => []
  | some _ =>
    if debugLineVertices s ≠ 0 then
      [Command.EventBegin EventName.Lines, Command.LineRenderer_SetBuffer,
        Command.Shader_Bind Shader.m_shaderLine, Command.Shader_Bind_Buffer Shader.m_shaderLine,
        Command.Set_PrimitiveTopology PrimitiveTopology.PrimitiveTopology_LineList,
        Command.Bind_Sampler 0 Sampler.m_samplerLinearWrapAlways,
        Command.Bind_Texture 0 (some (ShaderResource.renderTexture g.GBuffer_Target_Depth.id)),
        Command.Draw (debugLineVertices s), Command.EventEnd]
    else []

/-- The calls of the block `// Grid` of `Pass_Debug`. -/
def debugGrid (s : Renderer) (g : GBuffer) (resources : FrameResources) : List Command :=
  if RenderFlags_IsSet s Render_SceneGrid then
    [Command.EventBegin EventName.Grid, Command.Grid_SetBuffer,
      Command.Shader_Bind Shader.m_shaderGrid, Command.Shader_Bind_Buffer Shader.m_shaderGrid,
      Command.Set_PrimitiveTopology PrimitiveTopology.PrimitiveTopology_LineList,
      Command.Bind_Sampler 0 Sampler.m_samplerAnisotropicWrapAlways,
      Command.Bind_Texture 0 (some (ShaderResource.renderTexture g.GBuffer_Target_Depth.id)),
      Command.DrawIndexed resources.m_grid.m_indexCount 0 0, Command.EventEnd]
  else []

/-- The calls of the block `// Light gizmo` of `Pass_Debug`. -/
def debugGizmos (s : Renderer) : List Command :=
  [Command.EventBegin EventName.Gizmos] ++
    (if RenderFlags_IsSet s Render_Light then
      [Command.EventBegin EventName.Lights] ++ s.m_lights.flatMap (lightGizmo s) ++
        [Command.EventEnd]
    else []) ++
    [Command.EventEnd]

/-- The calls of the block `// Performance metrics` of `Pass_Debug`. -/
def debugMetrics (s : Renderer) : List Command :=
  if RenderFlags_IsSet s Render_PerformanceMetrics then
    [Command.Font_SetText, Command.Font_SetVertexAndIndexBuffers,
      Command.Shader_Bind Shader.m_shaderFont, Command.Shader_Bind_Buffer Shader.m_shaderFont,
      Command.Set_PrimitiveTopology PrimitiveTopology.PrimitiveTopology_TriangleList,
      Command.Bind_Sampler 0 Sampler.m_samplerLinearWrapAlways,
      Command.Bind_Texture 0 (some ShaderResource.font),
      Command.DrawIndexed s.external.fontIndexCount 0 0]
  else []

/-- The function `Renderer::Pass_Debug`.  It is called under `if (m_camera)` only
and reads the camera in most of its blocks: it is given a result only when the
camera is there; with the scene grid on, the world matrix of the grid has to have
a value. -/
def Pass_Debug (s : Renderer) : Option Renderer :=
  match s.m_gbuffer, s.m_resources, s.m_camera with
  | some g, some resources, some camera =>
    if !(s.m_rhi && s.m_quad.isSome) then none
    else if RenderFlags_IsSet s Render_SceneGrid &&
        (ComputeWorldMatrix camera.position).isNone then none
    else
      some (emit s
        ([Command.EventBegin EventName.Pass_Debug] ++ debugLines s g ++
          [Command.EnableAlphaBlending true] ++ debugGrid s g resources ++ debugGizmos s ++
          debugMetrics s ++ [Command.EnableAlphaBlending false, Command.EventEnd]))
  | _, _, _ => none

/-- The function `Renderer::Pass_PostLight`; its three parameters are references to
the members `m_renderTexPing`, `m_renderTexPing2` and `m_renderTexPong`. -/
def Pass_PostLight (s : Renderer) : Option Renderer :=
  if !(s.m_rhi && s.m_resources.isSome && s.m_quad.isSome) then none
  else
    (PostLight_Bloom (emit s
      [Command.EventBegin EventName.Pass_PostLight, Command.Rectangle_SetBuffer,
        Command.Set_PrimitiveTopology PrimitiveTopology.PrimitiveTopology_TriangleList,
        Command.SetCullMode CullMode.Cull_Back])).bind fun s1 =>
    (PostLight_Correction s1).bind fun s2 =>
    (PostLight_FXAA s2).bind fun s3 =>
    (PostLight_ChromaticAberration s3).bind fun s4 =>
    (PostLight_Sharpening s4).bind fun s5 =>
    (Pass_DebugGBuffer s5).bind fun s6 =>
    (Pass_Debug s6).map fun s7 => emit s7 [Command.EventEnd]

/-- The function `Renderer::Render`.  The view and projection matrices and the near
and far planes it copies from the camera are not modelled. -/
def Render (s : Renderer) : Option Renderer :=
  if !s.m_rhi || !s.rhi.initialized then some s
  else
    match s.m_camera with
    | some camera =>
      if s.m_renderables.isEmpty then
        some (emit s [Command.Clear camera.clearColor, Command.Present])
      else
        (Pass_DepthDirectionalLight s s.m_directionalLight).bind fun s1 =>
        (Pass_GBuffer s1).bind fun s2 =>
        (match s2.m_gbuffer, s2.m_resources with
          | some g, some _ =>
            Pass_PreLight s2 (ShaderResource.renderTexture g.GBuffer_Target_Normal.id)
              (ShaderResource.renderTexture g.GBuffer_Target_Depth.id) ShaderResource.noiseMap
              s2.m_renderTexPing s2.m_renderTexShadowing
          | _, _ => none).bind fun s3 =>
        (match s3.m_renderTexShadowing with
          | some shadowing =>
            Pass_Light s3 (ShaderResource.renderTexture shadowing.id) s3.m_renderTexPing
          | none => none).bind fun s4 =>
        Pass_PostLight s4
    | none => some (emit s [Command.Clear { x := 0, y := 0, z := 0, w := 1 }])

/-- Modelled from the spec: `Settings::GetResolutionWidth()` and
`GetResolutionHeight()`, of the `Settings` class, which is not among the sources.
The resolution is stored as two floats and handed out as `int`. -/
def GetResolutionInt (x : ℚ) : Int :=
  Int.tdiv x.num x.den

/-- The function `Renderer::Initialize`: its return value and the state it leaves.
The log call is not modelled. -/
def Initialize (s : Renderer) : Bool × Renderer :=
  if !s.rhi.initialized then (false, { s with m_rhi := true })
  else
    (true,
      RenderTargets_Create
        { s with
          m_rhi := true
          m_resources := some
            { m_grid := Grid.new, lightShaderCompiled := s.external.lightShaderCompiles } }
        (GetResolutionInt s.settings.m_resolution.x)
        (GetResolutionInt s.settings.m_resolution.y))

/-! ## Reading the command list -/

/-- The calls the device has received since the state `before`. -/
def newCommands (before after : Renderer) : List Command :=
  after.rhi.commands.drop before.rhi.commands.length

/-- The name of an `EventBegin` call. -/
def eventOf : Command → Option EventName
  | Command.EventBegin name => some name
  | _ => none

/-- The names of the `EventBegin` calls of a command list, in order. -/
def eventBegins (commands : List Command) : List EventName :=
  commands.filterMap eventOf

/-- The events of the passes of `Render`, the two debug passes included. -/
def isPass : EventName → Bool
  | EventName.Pass_DepthDirectionalLight => true
  | EventName.Pass_GBuffer => true
  | EventName.Pass_PreLight => true
  | EventName.Pass_Light => true
  | EventName.Pass_PostLight => true
  | EventName.Pass_DebugGBuffer => true
  | EventName.Pass_Debug => true
  | _ => false

/-- The events of the five stages of the post-light chain. -/
def isStage : EventName → Bool
  | EventName.Pass_Bloom => true
  | EventName.Pass_Correction => true
  | EventName.Pass_FXAA => true
  | EventName.Pass_ChromaticAberration => true
  | EventName.Pass_Sharpening => true
  | _ => false

/-- The passes begun in a command list, in order. -/
def passBegins (commands : List Command) : List EventName :=
  (eventBegins commands).filter isPass

/-- The post-light stages begun in a command list, in order. -/
def stageBegins (commands : List Command) : List EventName :=
  (eventBegins commands).filter isStage

/-- Whether the call is a `Draw` or a `DrawIndexed`. -/
def isDraw : Command → Bool
  | Command.Draw _ => true
  | Command.DrawIndexed _ _ _ => true
  | _ => false

/-- The render texture a call makes the render target, if it does. -/
def targetOf : Command → Option Nat
  | Command.RenderTexture_SetAsRenderTarget target => some target
  | _ => none

/-- The render texture that is the render target after a command list: the one of
the last `SetAsRenderTarget`, which is where the last draws went. -/
def lastRenderTarget (commands : List Command) : Option Nat :=
  (commands.filterMap targetOf).getLast?

/-- Whether the call begins a stage of the post-light chain. -/
def beginsStage : Command → Bool
  | Command.EventBegin name => isStage name
  | _ => false

/-- The texture bound by the first `Bind_Texture` of a command list. -/
def firstTexture : List Command → Option (Option ShaderResource)
  | [] => none
  | Command.Bind_Texture _ texture :: _ => some texture
  | _ :: rest => firstTexture rest

/-- The texture read first by the first stage of the post-light chain that is begun
in a command list. -/
def firstStageInput (commands : List Command) : Option (Option ShaderResource) :=
  firstTexture (commands.dropWhile (fun c => !beginsStage c))

/-- The renderer is set up for rendering a frame: the device is initialised and
known to the renderer, the resources and the render targets of `Initialize` are
there, and with the scene grid on the camera is where the grid has a world
matrix. -/
def Ready (s : Renderer) : Bool :=
  s.m_rhi && s.rhi.initialized && s.m_resources.isSome && s.m_gbuffer.isSome &&
    s.m_quad.isSome && s.m_renderTexPing.isSome && s.m_renderTexPing2.isSome &&
    s.m_renderTexPong.isSome && s.m_renderTexShadowing.isSome &&
    (match s.m_camera with
      | some camera =>
        !RenderFlags_IsSet s Render_SceneGrid || (ComputeWorldMatrix camera.position).isSome
      | none => false)

/-- The state `t` differs from `s` at most in the command list of the device, in the
memoized bound identifiers and in the members `m_renderTexPing` and
`m_renderTexPong`. -/
def sameScene (s t : Renderer) : Prop :=
  t.settings = s.settings ∧ t.rhi.initialized = s.rhi.initialized ∧ t.external = s.external ∧
  t.m_rhi = s.m_rhi ∧ t.m_resources = s.m_resources ∧ t.allocated = s.allocated ∧
  t.m_gbuffer = s.m_gbuffer ∧ t.m_quad = s.m_quad ∧
  t.m_renderTexPing2 = s.m_renderTexPing2 ∧ t.m_renderTexShadowing = s.m_renderTexShadowing ∧
  t.m_renderables = s.m_renderables ∧ t.m_lights = s.m_lights ∧
  t.m_directionalLight = s.m_directionalLight ∧ t.m_skybox = s.m_skybox ∧
  t.m_lineRenderer = s.m_lineRenderer ∧ t.m_camera = s.m_camera ∧ t.m_flags = s.m_flags

/-- The state `t` differs from `s` at most in the command list of the device and in
the memoized bound identifiers. -/
def sameSetup (s t : Renderer) : Prop :=
  sameScene s t ∧ t.m_renderTexPing = s.m_renderTexPing ∧
    t.m_renderTexPong = s.m_renderTexPong

/-- A renderer after a successful `Initialize` at `1920 × 1080`, with the given
flags, renderable list, light list, directional light and camera. -/
def readyRenderer (flags : Nat) (renderables : List Actor) (lights : List Light)
    (directionalLight : Option Light) (camera : Option Camera) : Renderer :=
  { (Initialize
      { blankRenderer 1920 1080 with rhi := { initialized := true, commands := [] } }).2 with
    m_flags := flags
    m_renderables := renderables
    m_lights := lights
    m_directionalLight := directionalLight
    m_camera := camera }

/-- The render textures made the render target by a command list, in order. -/
def renderTargetCalls (commands : List Command) : List Nat :=
  commands.filterMap targetOf

/-- Whether the call begins or ends an event. -/
def isMark : Command → Bool
  | Command.EventBegin _ => true
  | Command.EventEnd => true
  | _ => false

/-- The number of events that are open after a command list, `depth` of them being
open before it. -/
def nesting : Nat → List Command → Nat
  | depth, [] => depth
  | depth, Command.EventBegin _ :: rest => nesting (depth + 1) rest
  | depth, Command.EventEnd :: rest => nesting (depth - 1) rest
  | depth, _ :: rest => nesting depth rest

/-- The events that a command list begins while no event is open, in order, `depth`
events being open before it. -/
def outerEvents : Nat → List Command → List EventName
  | _, [] => []
  | depth, Command.EventBegin name :: rest =>
    (if depth = 0 then [name] else []) ++ outerEvents (depth + 1) rest
  | depth, Command.EventEnd :: rest => outerEvents (depth - 1) rest
  | depth, _ :: rest => outerEvents depth rest

/-- The command list ends every event it begins, ends no other, and the events it
begins while none of its own is open are `events`. -/
def Bracketed (commands : List Command) (events : List EventName) : Prop :=
  ∀ depth, nesting depth commands = depth ∧
    outerEvents depth commands = if depth = 0 then events else []

/-- The five stages of the post-light chain with their render flags, in the order
Bloom, Correction, FXAA, Chromatic Aberration, Sharpening. -/
def stageTable : List (Nat × EventName) :=
  [(Render_Bloom, EventName.Pass_Bloom), (Render_Correction, EventName.Pass_Correction),
    (Render_FXAA, EventName.Pass_FXAA),
    (Render_ChromaticAberration, EventName.Pass_ChromaticAberration),
    (Render_Sharpening, EventName.Pass_Sharpening)]

/-- The events of the stages of `table` whose flag is set, in the order of the
table. -/
def enabledStages (s : Renderer) (table : List (Nat × EventName)) : List EventName :=
  (table.filter (fun stage => RenderFlags_IsSet s stage.1)).map (fun stage => stage.2)

/-- Whether the frame has a directional light that casts shadows. -/
def castsShadows (s : Renderer) : Bool :=
  match s.m_directionalLight with
  | some light => light.castShadows
  | none => false

/-- Whether `m_shaderLight->IsCompiled()` holds. -/
def lightCompiled (s : Renderer) : Bool :=
  match s.m_resources with
  | some resources => resources.lightShaderCompiled
  | none => false

/-- What a block of `Pass_PostLight` does for the stage `name` with the flag `flag`,
on a state whose three targets are there: with the flag off nothing; with the flag
on it makes the calls of one event `name`, which read the texture `m_renderTexPing`
first and render into `m_renderTexPong` last, and then exchanges these two members
if `swaps`. -/
def StageSpec (block : Renderer → Option Renderer) (flag : Nat) (name : EventName)
    (swaps : Bool) : Prop :=
  ∀ (t : Renderer) (a p b : D3D11_RenderTexture), t.m_renderTexPing = some a →
    t.m_renderTexPing2 = some p → t.m_renderTexPong = some b →
    ∃ t1 c, block t = some t1 ∧ sameScene t t1 ∧ t1.rhi.commands = t.rhi.commands ++ c ∧
      (if RenderFlags_IsSet t flag then
        (∃ rest, c = Command.EventBegin name :: rest) ∧ eventBegins c = [name] ∧
        Bracketed c [name] ∧
        firstTexture c = some (some (ShaderResource.renderTexture a.id)) ∧
        (renderTargetCalls c).getLast? = some b.id ∧
        t1.m_renderTexPing = some (if swaps then b else a) ∧
        t1.m_renderTexPong = some (if swaps then a else b)
      else c = [] ∧ t1.m_renderTexPing = some a ∧ t1.m_renderTexPong = some b)

/-- What holds in `Pass_PostLight` after the blocks of the stages `done`, on entry
to which the state was `s0` with the targets `a`, `p`, `b` as `m_renderTexPing`,
`m_renderTexPing2`, `m_renderTexPong`: the state is `t`, the blocks have made the
calls `acc`, and `onPong` tells whether the last render target is the one that is
in `m_renderTexPong`, not the one in `m_renderTexPing`. -/
def ChainInv (s0 : Renderer) (a p b : D3D11_RenderTexture) (done : List (Nat × EventName))
    (onPong : Bool) (t : Renderer) (acc : List Command) : Prop :=
  sameScene s0 t ∧ t.rhi.commands = s0.rhi.commands ++ acc ∧ t.m_renderTexPing2 = some p ∧
  eventBegins acc = enabledStages s0 done ∧ Bracketed acc (enabledStages s0 done) ∧
  (∃ x y, t.m_renderTexPing = some x ∧ t.m_renderTexPong = some y ∧
    ((x = a ∧ y = b) ∨ (x = b ∧ y = a)) ∧
    ((renderTargetCalls acc).getLast?).getD a.id = if onPong then y.id else x.id) ∧
  ((acc = [] ∧ t.m_renderTexPing = some a) ∨
    (∃ name rest, acc = Command.EventBegin name :: rest ∧ isStage name = true ∧
      firstTexture acc = some (some (ShaderResource.renderTexture a.id))))

/-- The textures of the first `Bind_Textures` call of a command list. -/
def firstTextures : List Command → Option (List (Option ShaderResource))
  | [] => none
  | Command.Bind_Textures textures :: _ => some textures
  | _ :: rest => firstTextures rest

/-- The texture that the light pass of a command list binds in slot `5`, where the
light shader expects the previous frame. -/
def previousFrameOf (commands : List Command) : Option ShaderResource :=
  match firstTextures
    (commands.dropWhile (fun c => c != Command.EventBegin EventName.Pass_Light)) with
  | some textures => (textures.get? 5).join
  | none => none

/-- A ready renderer with the given render flags whose frame holds a camera actor
and one mesh actor, and no light. -/
def frameWith (flags : Nat) : Renderer :=
  readyRenderer flags [cameraActor 0, meshActor 1 1 1 1] [] none (some {})

/-- Whether the actor lacks a renderable component, a geometry model or a
material: the cases in which the comparator returns before it builds a key. -/
def lacksComponent (a : Actor) : Bool :=
  match a.renderable with
  | none => true
  | some r => r.geometryModel.isNone || r.material.isNone

/-- Whether `Pass_GBuffer` is to draw the actor, in the words of the spec: it has a
renderable component, a material, a geometry model and a shader, the opacity of the
material is not below `1`, and the renderable lies inside the frustum of the
camera. -/
def drawnInGBuffer (actor : Actor) : Bool :=
  match actor.renderable with
  | none => false
  | some renderable =>
    match renderable.material, renderable.geometryModel with
    | some material, some _ =>
      material.shader.isSome && !decide (material.opacity < 1) && renderable.inViewFrustrum
    | _, _ => false

/-- The `DrawIndexed` call for the geometry of an actor. -/
def drawCallOf (actor : Actor) : Command :=
  match actor.renderable with
  | some renderable =>
    Command.DrawIndexed renderable.indexCount renderable.indexOffset renderable.vertexOffset
  | none => Command.DrawIndexed 0 0 0

/-- The actor of a `Bind_PerObjectBuffer` call, which gets the world transform of
the actor that is drawn next. -/
def objectOf : Command → Option Nat
  | Command.ShaderVariation_Bind_PerObjectBuffer _ actor => some actor
  | _ => none

/-- What is bound on the device for the draws of `Pass_GBuffer`: the geometry, the
shader, and the material together with the shader whose per-material buffer has
received it; `none` is whatever was bound before the pass. -/
structure Bindings where
  geometry : Option Nat := none
  shader : Option Nat := none
  material : Option (Nat × Nat) := none
deriving DecidableEq, Repr

/-- The effect of one call on what is bound. -/
def bindStep (d : Bindings) : Command → Bindings
  | Command.Geometry_Bind model => { d with geometry := some model }
  | Command.ShaderVariation_Bind shader => { d with shader := some shader }
  | Command.ShaderVariation_Bind_PerMaterialBuffer shader material =>
    { d with material := some (shader, material) }
  | _ => d

/-- What is bound on the device at each `DrawIndexed` of a command list, in order,
`d` being bound before it. -/
def bindingsAtDraws : Bindings → List Command → List Bindings
  | _, [] => []
  | d, Command.DrawIndexed _ _ _ :: rest => d :: bindingsAtDraws d rest
  | d, c :: rest => bindingsAtDraws (bindStep d c) rest

/-- The geometry, shader and material of an actor as bindings. -/
def bindingsOf (actor : Actor) : Bindings :=
  match actor.renderable with
  | some renderable =>
    match renderable.geometryModel, renderable.material with
    | some geometry, some material =>
      match material.shader with
      | some shader =>
        { geometry := some geometry.resourceID
          shader := some shader.resourceID
          material := some (shader.resourceID, material.resourceID) }
      | none => {}
    | _, _ => {}
  | none => {}

/-- The pass that binds all three before every draw: the body of the loop of
`Pass_GBuffer` without the three comparisons with the memoized identifiers. -/
def gbufferActorBindAll (actor : Actor) : List Command :=
  match actor.renderable with
  | none => []
  | some obj_renderable =>
    match obj_renderable.material with
    | none => []
    | some obj_material =>
      match obj_renderable.geometryModel, obj_material.shader with
      | some obj_geometry, some obj_shader =>
        if obj_material.opacity < 1 then []
        else if !obj_renderable.inViewFrustrum then []
        else
          [Command.SetCullMode obj_material.cullMode,
            Command.Geometry_Bind obj_geometry.resourceID,
            Command.ShaderVariation_Bind obj_shader.resourceID,
            Command.ShaderVariation_Bind_PerFrameBuffer obj_shader.resourceID,
            Command.ShaderVariation_Bind_PerMaterialBuffer obj_shader.resourceID
              obj_material.resourceID,
            Command.Bind_Textures [some (ShaderResource.material obj_material.resourceID)],
            Command.ShaderVariation_Bind_PerObjectBuffer obj_shader.resourceID actor.id,
            Command.DrawIndexed obj_renderable.indexCount obj_renderable.indexOffset
              obj_renderable.vertexOffset]
      | _, _ => []

/-- The material of an actor, if it has one. -/
def materialOf (actor : Actor) : Option Material :=
  match actor.renderable with
  | some renderable => renderable.material
  | none => none

/-- Resources of the actors of a list that `Pass_GBuffer` draws have identifiers
other than `0`, the value that stands for "none bound". -/
def nonzeroIDs (actors : List Actor) : Prop :=
  ∀ actor ∈ actors, drawnInGBuffer actor = true →
    (bindingsOf actor).geometry ≠ some 0 ∧ (bindingsOf actor).shader ≠ some 0 ∧
    (materialOf actor).map (fun material => material.resourceID) ≠ some 0

/-- Distinct materials of the actors of a list have distinct identifiers.  (Geometry
models and shaders are their identifiers in this embedding.) -/
def distinctIDs (actors : List Actor) : Prop :=
  ∀ a ∈ actors, ∀ b ∈ actors,
    (materialOf a).map (fun material => material.resourceID) =
      (materialOf b).map (fun material => material.resourceID) →
    materialOf a = materialOf b

/-- Whether the identifiers are other than `0` can be computed. -/
instance (actors : List Actor) : Decidable (nonzeroIDs actors) := by
  unfold nonzeroIDs
  infer_instance

/-- Whether distinct materials have distinct identifiers can be computed. -/
instance (actors : List Actor) : Decidable (distinctIDs actors) := by
  unfold distinctIDs
  infer_instance

/-- The memoized identifiers are all `0`, "none bound". -/
def cacheClear (s : Renderer) : Prop :=
  s.m_currentlyBoundGeometry = 0 ∧ s.m_currentlyBoundShader = 0 ∧
    s.m_currentlyBoundMaterial = 0

/-- Whether the memoized identifiers are all `0` can be computed. -/
instance (s : Renderer) : Decidable (cacheClear s) := by
  unfold cacheClear
  infer_instance

/-- The memoized identifiers `bound` tell what is bound on the device: an
identifier other than `0` is the one of the resource bound, and the material bound
is one of an actor of the list, bound in the buffer of its own shader. -/
def Tracks (actors : List Actor) (bound : BoundState) (d : Bindings) : Prop :=
  (bound.geometry ≠ 0 → d.geometry = some bound.geometry) ∧
  (bound.shader ≠ 0 → d.shader = some bound.shader) ∧
  (bound.material ≠ 0 →
    ∃ m sh, (∃ a ∈ actors, materialOf a = some m) ∧ m.resourceID = bound.material ∧
      m.shader = some sh ∧ d.material = some (sh.resourceID, m.resourceID))

/-- What comes in between two frames: the render flags, which the editor sets, and
the actors of the scene that `Renderables_Acquire` is handed. -/
structure FrameInput where
  flags : Nat
  actors : List (Option Actor)

/-- One frame: the flags are set, `Renderables_Acquire` collects the actors and
`Render` draws them. -/
def renderFrame (s : Renderer) (frame : FrameInput) : Option Renderer :=
  (Renderables_Acquire { s with m_flags := frame.flags } frame.actors).bind Render

/-- A sequence of frames, one after the other. -/
def renderFrames : Renderer → List FrameInput → Option Renderer
  | s, [] => some s
  | s, frame :: rest => (renderFrame s frame).bind (fun s1 => renderFrames s1 rest)

/-- The state `t` has the memoized identifiers of `s`. -/
def sameCache (s t : Renderer) : Prop :=
  t.m_currentlyBoundGeometry = s.m_currentlyBoundGeometry ∧
  t.m_currentlyBoundShader = s.m_currentlyBoundShader ∧
  t.m_currentlyBoundMaterial = s.m_currentlyBoundMaterial

/-- An actor that carries a directional light which casts shadows. -/
def sunActor (id : Nat) : Actor :=
  { id := id
    light := some
      { id := id, lightType := LightType.LightType_Directional, castShadows := true } }

/-- The calls of a command list from the first `EventBegin` of the event `name` on. -/
def fromEvent (name : EventName) (commands : List Command) : List Command :=
  commands.dropWhile (fun c => c != Command.EventBegin name)

/-- The calls of a command list before the first `EventBegin` of the event `name`. -/
def beforeEvent (name : EventName) (commands : List Command) : List Command :=
  commands.takeWhile (fun c => c != Command.EventBegin name)

/-- The render texture that `Pass_Shadowing` renders into in a command list, if the
list has the event of that pass. -/
def shadowingOutput (commands : List Command) : Option Nat :=
  (renderTargetCalls (fromEvent EventName.Pass_Shadowing commands)).head?

/-- The texture that the box blur of a command list reads. -/
def blurInput (commands : List Command) : Option (Option ShaderResource) :=
  firstTexture (fromEvent EventName.Pass_Blur commands)

/-- The render texture that the box blur of a command list renders into. -/
def blurOutput (commands : List Command) : Option Nat :=
  (renderTargetCalls (fromEvent EventName.Pass_Blur commands)).head?

/-- A ready renderer whose frame holds a camera actor, one mesh actor and a
directional light that casts shadows. -/
def sunFrame (flags : Nat) : Renderer :=
  readyRenderer flags [cameraActor 0, meshActor 1 1 1 1]
    [{ id := 2, lightType := LightType.LightType_Directional, castShadows := true }]
    (some { id := 2, lightType := LightType.LightType_Directional, castShadows := true })
    (some {})

/-- What one stage of the post-light chain reads and writes: the event of the stage,
the texture it binds first and the render texture it renders into last. -/
structure StageTransfer where
  /-- The event of the stage. -/
  name : EventName
  /-- The texture the stage binds first. -/
  input : Option ShaderResource
  /-- The render texture the stage renders into last. -/
  output : Option Nat
deriving DecidableEq, Repr

/-- The calls of a command list before its first `EventEnd`. -/
def eventBody (commands : List Command) : List Command :=
  commands.takeWhile (fun c => c != Command.EventEnd)

/-- For every post-light stage begun in a command list, in order: what the stage
reads first and renders into last between its `EventBegin` and the next
`EventEnd`. -/
def stageTransfers : List Command → List StageTransfer
  | [] => []
  | Command.EventBegin name :: rest =>
    (if isStage name then
      [{ name := name, input := (firstTexture (eventBody rest)).join,
         output := lastRenderTarget (eventBody rest) }]
    else []) ++ stageTransfers rest
  | _ :: rest => stageTransfers rest

/-- Whether `SwapTargets` is called after the stage: after every stage but
`Pass_Sharpening`. -/
def swapsAfter (name : EventName) : Bool :=
  name != EventName.Pass_Sharpening

/-- The chain as the specification words it: a stage reads `source` and writes
`destination`, and the two are exchanged after every stage except the sharpening
stage. -/
def chainedTransfers (source destination : Nat) : List EventName → List StageTransfer
  | [] => []
  | name :: rest =>
    { name := name, input := some (ShaderResource.renderTexture source),
      output := some destination } ::
      (if swapsAfter name then chainedTransfers destination source rest
        else chainedTransfers source destination rest)

/-- The value `a` after an even number of exchanges of `a` and `b`, and `b` after an
odd number. -/
def alternate {α : Type} (a b : α) (n : Nat) : α :=
  if n % 2 = 0 then a else b

/-- The calls of the stage `name` of the post-light chain, as its block in
`Pass_PostLight` makes them with `a`, `p` and `b` in `m_renderTexPing`,
`m_renderTexPing2` and `m_renderTexPong`. -/
def stageCalls (s : Renderer) (a p b : D3D11_RenderTexture) : EventName → List Command
  | EventName.Pass_Bloom => Pass_Bloom s a p b
  | EventName.Pass_Correction =>
    Pass_Correction s (ShaderResource.renderTexture a.id) (some b)
  | EventName.Pass_FXAA => Pass_FXAA s (ShaderResource.renderTexture a.id) (some b)
  | EventName.Pass_ChromaticAberration =>
    Pass_ChromaticAberration s (ShaderResource.renderTexture a.id) (some b)
  | EventName.Pass_Sharpening =>
    Pass_Sharpening s (ShaderResource.renderTexture a.id) (some b)
  | _ => []

/-- The calls of the stages `names` run one after the other from the targets `a`,
`p`, `b`, the first and the last exchanged after every stage that swaps. -/
def chainCalls (s : Renderer) (p : D3D11_RenderTexture) :
    D3D11_RenderTexture → D3D11_RenderTexture → List EventName → List Command
  | _, _, [] => []
  | a, b, name :: rest =>
    stageCalls s a p b name ++
      (if swapsAfter name then chainCalls s p b a rest else chainCalls s p a b rest)

/-- The targets in `m_renderTexPing` and `m_renderTexPong` after the stages `names`
have run from `a` and `b`. -/
def chainTargets :
    D3D11_RenderTexture → D3D11_RenderTexture → List EventName →
      D3D11_RenderTexture × D3D11_RenderTexture
  | a, b, [] => (a, b)
  | a, b, name :: rest =>
    if swapsAfter name then chainTargets b a rest else chainTargets a b rest

/-- The state after the block of `Pass_PostLight` for the stage `name` with the flag
`flag`, on a state with `a`, `p`, `b` in the three members. -/
def afterStage (t : Renderer) (a p b : D3D11_RenderTexture) (flag : Nat)
    (name : EventName) : Renderer :=
  if RenderFlags_IsSet t flag then
    (if swapsAfter name then SwapTargets (emit t (stageCalls t a p b name))
      else emit t (stageCalls t a p b name))
  else t

/-- A full-resolution render texture of the renderer of `readyRenderer`, with the
identity `id`. -/
def fullTarget (id : Nat) : D3D11_RenderTexture :=
  { id := id, width := 1920, height := 1080, depth := false,
    format := Texture_Format.Texture_Format_R16G16B16A16_FLOAT }

/-- A ready renderer with the bloom, FXAA and sharpening flags set, whose frame holds
a camera actor and one mesh actor. -/
def chainFrame : Renderer :=
  frameWith (Render_Bloom ||| Render_FXAA ||| Render_Sharpening)

/-- What a draw call finds on the device: the event that is open, the render
texture that is the render target, and the textures that have been bound since the
render target was set. -/
structure DrawState where
  /-- The event begun last and not ended, if any. -/
  event : Option EventName
  /-- The render texture that is the render target, if one is. -/
  target : Option Nat
  /-- The textures bound since the render target was set, in the order bound. -/
  textures : List (Option ShaderResource)
deriving DecidableEq, Repr

/-- The effect of one call on what the next draw call finds. -/
def drawStep (st : DrawState) : Command → DrawState
  | Command.EventBegin name => { st with event := some name }
  | Command.EventEnd => { st with event := none }
  | Command.RenderTexture_SetAsRenderTarget target =>
    { st with target := some target, textures := [] }
  | Command.Bind_BackBufferAsRenderTarget => { st with target := none, textures := [] }
  | Command.Bind_RenderTargets _ _ => { st with target := none, textures := [] }
  | Command.ShadowMap_SetRenderTarget _ _ => { st with target := none, textures := [] }
  | Command.Bind_Texture _ texture => { st with textures := st.textures ++ [texture] }
  | Command.Bind_Textures textures => { st with textures := st.textures ++ textures }
  | _ => st

/-- What each draw call of a command list finds, in order, the device being as `st`
before the list. -/
def drawStates : DrawState → List Command → List DrawState
  | _, [] => []
  | st, c :: rest => (if isDraw c then [st] else []) ++ drawStates (drawStep st c) rest

/-- The device before a frame: no event is open and no render texture is the render
target. -/
def idleDevice : DrawState :=
  { event := none, target := none, textures := [] }

/-- Whether the event is one of the full-screen passes that read render textures:
the light pass and the five stages of the post-light chain. -/
def fullScreenPass : Option EventName → Bool
  | some EventName.Pass_Light => true
  | some name => isStage name
  | none => false

/-- Whether the draw call samples the render texture it renders into. -/
def samplesTarget (d : DrawState) : Bool :=
  match d.target with
  | some target => d.textures.contains (some (ShaderResource.renderTexture target))
  | none => false

/-- The draw calls of a command list that are made in a full-screen pass. -/
def fullScreenDraws (commands : List Command) : List DrawState :=
  (drawStates idleDevice commands).filter (fun d => fullScreenPass d.event)

/-- The identities of the render textures the renderer holds. -/
def targetIDs (s : Renderer) : List Nat :=
  (renderTargets s).map (fun texture => texture.id)

/-- The render textures the renderer holds are different objects. -/
def distinctTargets (s : Renderer) : Prop :=
  (targetIDs s).Nodup

instance (s : Renderer) : Decidable (distinctTargets s) := by
  unfold distinctTargets
  infer_instance

/-- The state after `Render` has been called once for each entry of `flags`, the
render flags being set to the entry before the call. -/
def renderWithFlags : Renderer → List Nat → Option Renderer
  | s, [] => some s
  | s, flag :: rest =>
    (Render { s with m_flags := flag }).bind (fun s1 => renderWithFlags s1 rest)

/-- No draw call of the command list that is made in a full-screen pass samples its
render target, and the list leaves no full-screen pass open, if none is open before
it. -/
def Clean (commands : List Command) : Prop :=
  ∀ st : DrawState, fullScreenPass st.event = false →
    (∀ d ∈ drawStates st commands, fullScreenPass d.event = true → samplesTarget d = false) ∧
    fullScreenPass (commands.foldl drawStep st).event = false

/-- The renderer is ready whatever the render flags are set to: it is ready with
the scene grid on, which is the one flag that readiness asks more for. -/
def readyWithAnyFlags (s : Renderer) : Bool :=
  Ready { s with m_flags := Render_SceneGrid }

/-! ## Theorems -/

/-- On two valid actors the comparator is the comparison of the composite keys. -/
theorem comparator_of_valid (a b : Actor) (ha : isValid a = true) (hb : isValid b = true) :
    comparator a b = some (decide (keyOf a < keyOf b)) := by
  obtain ⟨ida, ra, la, sa, la1, ca⟩ := a
  obtain ⟨idb, rb, lb, sb, lb1, cb⟩ := b
  cases ra with
  | none => simp [isValid] at ha
  | some ra =>
    cases rb with
    | none => simp [isValid] at hb
    | some rb =>
      obtain ⟨ga, ma⟩ := ra
      obtain ⟨gb, mb⟩ := rb
      cases ga <;> cases ma <;> simp [isValid] at ha
      cases gb <;> cases mb <;> simp [isValid] at hb
      rename_i ga ma gb mb
      obtain ⟨ima, sha⟩ := ma
      obtain ⟨imb, shb⟩ := mb
      cases sha <;> simp at ha
      cases shb <;> simp at hb
      simp [comparator, keyOf, idTriple]

/-- In a list ordered by `R`, every element is the last one or stands in `R` to it. -/
theorem rel_getLast_of_pairwise {α : Type} {R : α → α → Prop} :
    ∀ (l : List α) (z : α), l.Pairwise R → l.getLast? = some z → ∀ x ∈ l, x = z ∨ R x z := by
  intro l
  induction l with
  | nil => intro z _ h; simp at h
  | cons y ys ih =>
    intro z hp hl x hx
    cases ys with
    | nil =>
      simp at hl hx
      left; rw [hx, hl]
    | cons w ws =>
      rw [List.getLast?_cons_cons] at hl
      rw [List.pairwise_cons] at hp
      rcases List.mem_cons.mp hx with rfl | hx1
      · right
        exact hp.1 z (List.mem_of_getLast?_eq_some hl)
      · exact ih z hp.2 hl x hx1

section SortLemmas

variable {α : Type} (comp : α → α → Option Bool) (k : α → Nat) (P : α → Prop)

/-- The unguarded insertion into a descending prefix of elements on which the
comparator is the key comparison returns a descending rearrangement. -/
theorem unguardedLinearInsert_spec
    (hcomp : ∀ a b, P a → P b → comp a b = some (decide (k a < k b)))
    (val : α) (hval : P val) :
    ∀ (rev : List α), (∀ x ∈ rev, P x) → rev.Pairwise (fun x y => k y ≤ k x) →
      ∃ r, unguardedLinearInsert comp val rev = some r ∧ r.Perm (val :: rev) ∧
        r.Pairwise (fun x y => k y ≤ k x) := by
  intro rev
  induction rev with
  | nil => intro _ _; exact ⟨[val], rfl, List.Perm.refl _, List.pairwise_singleton _ _⟩
  | cons prev rest ih =>
    intro hP hs
    have hprev : P prev := hP prev (List.mem_cons_self _ _)
    have hrest : ∀ x ∈ rest, P x := fun x hx => hP x (List.mem_cons_of_mem _ hx)
    rw [List.pairwise_cons] at hs
    by_cases hlt : k val < k prev
    · obtain ⟨r, hr, hperm, hsorted⟩ := ih hrest hs.2
      refine ⟨prev :: r, ?_, ?_, ?_⟩
      · simp [unguardedLinearInsert, hcomp val prev hval hprev, hlt, hr]
      · exact (List.Perm.cons prev hperm).trans (List.Perm.swap val prev rest)
      · rw [List.pairwise_cons]
        refine ⟨?_, hsorted⟩
        intro y hy
        rcases List.mem_cons.mp (hperm.subset hy) with rfl | hy1
        · exact Nat.le_of_lt hlt
        · exact hs.1 y hy1
    · refine ⟨val :: prev :: rest, ?_, List.Perm.refl _, ?_⟩
      · simp [unguardedLinearInsert, hcomp val prev hval hprev, hlt]
      · rw [List.pairwise_cons]
        refine ⟨?_, List.pairwise_cons.mpr hs⟩
        intro y hy
        rcases List.mem_cons.mp hy with rfl | hy1
        · exact Nat.le_of_not_lt hlt
        · exact Nat.le_trans (hs.1 y hy1) (Nat.le_of_not_lt hlt)

/-- One insertion step keeps the reversed prefix descending and adds `val` to it. -/
theorem insertionStep_spec
    (hcomp : ∀ a b, P a → P b → comp a b = some (decide (k a < k b)))
    (val : α) (hval : P val) (rev : List α) (hP : ∀ x ∈ rev, P x)
    (hs : rev.Pairwise (fun x y => k y ≤ k x)) :
    ∃ r, insertionStep comp rev val = some r ∧ r.Perm (val :: rev) ∧
      r.Pairwise (fun x y => k y ≤ k x) := by
  cases hl : rev.getLast? with
  | none =>
    have hnil : rev = [] := List.getLast?_eq_none_iff.mp hl
    subst hnil
    exact ⟨[val], rfl, List.Perm.refl _, List.pairwise_singleton _ _⟩
  | some first =>
    have hfirst : P first := hP first (List.mem_of_getLast?_eq_some hl)
    by_cases hlt : k val < k first
    · refine ⟨rev ++ [val], ?_, ?_, ?_⟩
      · simp [insertionStep, hl, hcomp val first hval hfirst, hlt]
      · exact (List.perm_append_comm).trans (List.Perm.refl _)
      · rw [List.pairwise_append]
        refine ⟨hs, List.pairwise_singleton _ _, ?_⟩
        intro x hx y hy
        rw [List.mem_singleton] at hy
        subst hy
        rcases rel_getLast_of_pairwise rev first hs hl x hx with rfl | hle
        · exact Nat.le_of_lt hlt
        · exact Nat.le_trans (Nat.le_of_lt hlt) hle
    · obtain ⟨r, hr, hperm, hsorted⟩ :=
        unguardedLinearInsert_spec comp k P hcomp val hval rev hP hs
      refine ⟨r, ?_, hperm, hsorted⟩
      simp [insertionStep, hl, hcomp val first hval hfirst, hlt, hr]

/-- The insertion loop returns an ascending rearrangement of prefix and rest. -/
theorem insertionLoop_spec
    (hcomp : ∀ a b, P a → P b → comp a b = some (decide (k a < k b))) :
    ∀ (l rev : List α), (∀ x ∈ l, P x) → (∀ x ∈ rev, P x) →
      rev.Pairwise (fun x y => k y ≤ k x) →
      ∃ r, insertionLoop comp rev l = some r ∧ r.Perm (rev ++ l) ∧
        r.Pairwise (fun x y => k x ≤ k y) := by
  intro l
  induction l with
  | nil =>
    intro rev _ _ hs
    refine ⟨rev.reverse, rfl, ?_, ?_⟩
    · simp
    · exact List.pairwise_reverse.mpr hs
  | cons val rest ih =>
    intro rev hl hP hs
    have hval : P val := hl val (List.mem_cons_self _ _)
    obtain ⟨r1, hr1, hperm1, hs1⟩ := insertionStep_spec comp k P hcomp val hval rev hP hs
    have hP1 : ∀ x ∈ r1, P x := by
      intro x hx
      rcases List.mem_cons.mp (hperm1.subset hx) with rfl | hx1
      · exact hval
      · exact hP x hx1
    obtain ⟨r, hr, hperm, hsorted⟩ :=
      ih r1 (fun x hx => hl x (List.mem_cons_of_mem _ hx)) hP1 hs1
    refine ⟨r, ?_, ?_, hsorted⟩
    · simp [insertionLoop, hr1, hr]
    · refine hperm.trans ?_
      refine (List.Perm.append_right rest hperm1).trans ?_
      simpa using (List.perm_middle).symm

/-- On elements where the comparator is the key comparison, the sort returns an
ascending rearrangement of its input. -/
theorem stdSort_spec
    (hcomp : ∀ a b, P a → P b → comp a b = some (decide (k a < k b)))
    (l : List α) (hl : ∀ x ∈ l, P x) :
    ∃ r, stdSort comp l = some r ∧ r.Perm l ∧ r.Pairwise (fun x y => k x ≤ k y) := by
  obtain ⟨r, hr, hperm, hsorted⟩ :=
    insertionLoop_spec comp k P hcomp l [] hl (by simp) List.Pairwise.nil
  exact ⟨r, hr, by simpa using hperm, hsorted⟩

end SortLemmas

section SortTotal

variable {α : Type} (comp : α → α → Option Bool)

/-- Where the comparator has a result, the unguarded insertion returns a
rearrangement of the prefix with `val` added. -/
theorem unguardedLinearInsert_perm (val : α) :
    ∀ (rev : List α), (∀ x ∈ rev, comp val x ≠ none) →
      ∃ r, unguardedLinearInsert comp val rev = some r ∧ r.Perm (val :: rev) := by
  intro rev
  induction rev with
  | nil => intro _; exact ⟨[val], rfl, List.Perm.refl _⟩
  | cons prev rest ih =>
    intro hdef
    obtain ⟨r, hr, hperm⟩ := ih (fun x hx => hdef x (List.mem_cons_of_mem _ hx))
    have hprev := hdef prev (List.mem_cons_self _ _)
    cases hc : comp val prev with
    | none => exact absurd hc hprev
    | some b =>
      cases b with
      | true =>
        refine ⟨prev :: r, ?_, ?_⟩
        · simp [unguardedLinearInsert, hc, hr]
        · exact (List.Perm.cons prev hperm).trans (List.Perm.swap val prev rest)
      | false =>
        exact ⟨val :: prev :: rest, by simp [unguardedLinearInsert, hc], List.Perm.refl _⟩

/-- Where the comparator has a result, an insertion step returns a rearrangement
of the prefix with `val` added. -/
theorem insertionStep_perm (val : α) (rev : List α) (hdef : ∀ x ∈ rev, comp val x ≠ none) :
    ∃ r, insertionStep comp rev val = some r ∧ r.Perm (val :: rev) := by
  cases hl : rev.getLast? with
  | none => exact ⟨[val], by simp [insertionStep, hl], by
      rw [List.getLast?_eq_none_iff.mp hl]⟩
  | some first =>
    have hfirst := hdef first (List.mem_of_getLast?_eq_some hl)
    cases hc : comp val first with
    | none => exact absurd hc hfirst
    | some b =>
      cases b with
      | true =>
        exact ⟨rev ++ [val], by simp [insertionStep, hl, hc], List.perm_append_comm⟩
      | false =>
        obtain ⟨r, hr, hperm⟩ := unguardedLinearInsert_perm comp val rev hdef
        exact ⟨r, by simp [insertionStep, hl, hc, hr], hperm⟩

/-- Where the comparator has a result on every pair, the insertion loop returns a
rearrangement of prefix and rest. -/
theorem insertionLoop_perm :
    ∀ (l rev : List α), (∀ x ∈ rev ++ l, ∀ y ∈ rev ++ l, comp x y ≠ none) →
      ∃ r, insertionLoop comp rev l = some r ∧ r.Perm (rev ++ l) := by
  intro l
  induction l with
  | nil =>
    intro rev _
    exact ⟨rev.reverse, rfl, by simp⟩
  | cons val rest ih =>
    intro rev hdef
    have hval : val ∈ rev ++ val :: rest := by simp
    obtain ⟨r1, hr1, hperm1⟩ := insertionStep_perm comp val rev
      (fun x hx => hdef val hval x (List.mem_append_left _ hx))
    have hsub : ∀ x ∈ r1 ++ rest, x ∈ rev ++ val :: rest := by
      intro x hx
      rcases List.mem_append.mp hx with h1 | h2
      · rcases List.mem_cons.mp (hperm1.subset h1) with rfl | h3
        · exact hval
        · exact List.mem_append_left _ h3
      · exact List.mem_append_right _ (List.mem_cons_of_mem _ h2)
    obtain ⟨r, hr, hperm⟩ := ih r1 (fun x hx y hy => hdef x (hsub x hx) y (hsub y hy))
    refine ⟨r, by simp [insertionLoop, hr1, hr], ?_⟩
    refine hperm.trans ((List.Perm.append_right rest hperm1).trans ?_)
    simpa using (List.perm_middle).symm

/-- Where the comparator has a result on every pair of elements, the sort returns
a rearrangement of its input. -/
theorem stdSort_perm (l : List α) (hdef : ∀ x ∈ l, ∀ y ∈ l, comp x y ≠ none) :
    ∃ r, stdSort comp l = some r ∧ r.Perm l := by
  obtain ⟨r, hr, hperm⟩ := insertionLoop_perm comp l [] (by simpa using hdef)
  exact ⟨r, hr, by simpa using hperm⟩

end SortTotal

/-- The comparator has a result on two actors neither of which has a material
without shader. -/
theorem comparator_ne_none (a b : Actor) (ha : missingShader a = false)
    (hb : missingShader b = false) : comparator a b ≠ none := by
  obtain ⟨ida, ra, la, sa, la1, ca⟩ := a
  obtain ⟨idb, rb, lb, sb, lb1, cb⟩ := b
  cases ra with
  | none => simp [comparator]
  | some ra =>
    cases rb with
    | none => simp [comparator]
    | some rb =>
      obtain ⟨ga, ma⟩ := ra
      obtain ⟨gb, mb⟩ := rb
      cases ga <;> cases gb <;> cases ma <;> cases mb <;> simp [comparator]
      rename_i ga gb ma mb
      obtain ⟨ima, sha⟩ := ma
      obtain ⟨imb, shb⟩ := mb
      cases sha <;> cases shb <;> simp_all [missingShader]

/-- When no actor of the list has a material without shader, `Renderables_Sort`
returns a rearrangement of the list. -/
theorem Renderables_Sort_perm (renderables : List Actor)
    (hs : ∀ a ∈ renderables, missingShader a = false) :
    ∃ sorted, Renderables_Sort renderables = some sorted ∧ sorted.Perm renderables := by
  unfold Renderables_Sort Renderables_SortBy
  split
  · exact ⟨renderables, rfl, List.Perm.refl _⟩
  · exact stdSort_perm comparator renderables
      (fun x hx y hy => comparator_ne_none x y (hs x hx) (hs y hy))

/-! ### The draw-order sort -/

/-- C1: for every list of actors that all have a renderable component, a geometry
model, a material and a shader, `Renderables_Sort` returns a list that is a
permutation of the input and whose composite keys
`(model << 48) | (shader << 32) | (material << 16)` are in non-decreasing order. -/
theorem Renderables_Sort_perm_sorted (renderables : List Actor)
    (hvalid : ∀ a ∈ renderables, isValid a = true) :
    ∃ sorted, Renderables_Sort renderables = some sorted ∧ sorted.Perm renderables ∧
      sorted.Pairwise (fun a b => keyOf a ≤ keyOf b) := by
  unfold Renderables_Sort Renderables_SortBy
  split
  · rename_i hlen
    refine ⟨renderables, rfl, List.Perm.refl _, ?_⟩
    match renderables, hlen with
    | [], _ => exact List.Pairwise.nil
    | [a], _ => exact List.pairwise_singleton _ _
    | _ :: _ :: _, h => simp at h
  · exact stdSort_spec comparator keyOf (fun a => isValid a = true) comparator_of_valid
      renderables hvalid

/-- Witness of C1 on three actors given in descending key order. -/
theorem Renderables_Sort_perm_sorted_witness :
    (∀ a ∈ [meshActor 0 3 1 1, meshActor 1 2 1 1, meshActor 2 1 5 6], isValid a = true) ∧
    ∃ sorted,
      Renderables_Sort [meshActor 0 3 1 1, meshActor 1 2 1 1, meshActor 2 1 5 6] = some sorted ∧
      sorted.Perm [meshActor 0 3 1 1, meshActor 1 2 1 1, meshActor 2 1 5 6] ∧
      sorted.Pairwise (fun a b => keyOf a ≤ keyOf b) :=
  ⟨by decide, Renderables_Sort_perm_sorted _ (by decide)⟩

/-- C2 (failing input): the three valid actors with identifier triples
`(1, 0, 0)`, `(0, 65536, 0)`, `(1, 0, 0)` all receive the composite key `2^48`;
`Renderables_Sort` returns them in the given order, so the two actors that share
the triple `(1, 0, 0)` are separated by an actor with another triple. -/
theorem Renderables_Sort_separates_equal_triples :
    isValid (meshActor 0 1 0 0) = true ∧ isValid (meshActor 1 0 65536 0) = true ∧
    isValid (meshActor 2 1 0 0) = true ∧
    Renderables_Sort [meshActor 0 1 0 0, meshActor 1 0 65536 0, meshActor 2 1 0 0] =
      some [meshActor 0 1 0 0, meshActor 1 0 65536 0, meshActor 2 1 0 0] ∧
    idTriple (meshActor 0 1 0 0) = idTriple (meshActor 2 1 0 0) ∧
    idTriple (meshActor 1 0 65536 0) ≠ idTriple (meshActor 0 1 0 0) ∧
    keyOf (meshActor 1 0 65536 0) = keyOf (meshActor 0 1 0 0) := by
  decide

/-- In a list with non-decreasing keys, an actor standing between two actors with
the same key has that key as well: equal keys are contiguous. -/
theorem keyOf_between (l : List Actor) (hs : l.Pairwise (fun a b => keyOf a ≤ keyOf b))
    (i j k : Nat) (hij : i < j) (hjk : j < k) (hk : k < l.length)
    (heq : keyOf (l.get ⟨i, by omega⟩) = keyOf (l.get ⟨k, hk⟩)) :
    keyOf (l.get ⟨j, by omega⟩) = keyOf (l.get ⟨i, by omega⟩) := by
  rw [List.pairwise_iff_get] at hs
  have h1 := hs ⟨i, by omega⟩ ⟨j, by omega⟩ hij
  have h2 := hs ⟨j, by omega⟩ ⟨k, hk⟩ hjk
  omega

/-- C3: a list of at most one actor is returned unchanged by `Renderables_Sort`,
and so it is with any comparator in place of the lambda, also one that has no
result at all: the comparator is not evaluated. -/
theorem Renderables_Sort_short (renderables : List Actor) (hlen : renderables.length ≤ 1) :
    Renderables_Sort renderables = some renderables ∧
    ∀ comp : Actor → Actor → Option Bool,
      Renderables_SortBy comp renderables = some renderables := by
  have h : ∀ comp : Actor → Actor → Option Bool,
      Renderables_SortBy comp renderables = some renderables := by
    intro comp
    simp [Renderables_SortBy, hlen]
  exact ⟨h comparator, h⟩

/-- Witness of C3 on a single actor on which the comparator has no result. -/
theorem Renderables_Sort_short_witness :
    [shaderlessActor 0 1 1].length ≤ 1 ∧
    comparator (shaderlessActor 0 1 1) (shaderlessActor 0 1 1) = none ∧
    Renderables_Sort [shaderlessActor 0 1 1] = some [shaderlessActor 0 1 1] ∧
    ∀ comp : Actor → Actor → Option Bool,
      Renderables_SortBy comp [shaderlessActor 0 1 1] = some [shaderlessActor 0 1 1] :=
  ⟨by decide, by decide, Renderables_Sort_short [shaderlessActor 0 1 1] (by decide)⟩

/-- C4: on actors that have a renderable component, a geometry model, a material
and a shader the comparator is a strict weak ordering: irreflexive, transitive,
and with a transitive incomparability relation. -/
theorem comparator_strict_weak_ordering (a b c : Actor)
    (ha : isValid a = true) (hb : isValid b = true) (hc : isValid c = true) :
    comparator a a = some false ∧
    (comparator a b = some true → comparator b c = some true →
      comparator a c = some true) ∧
    (incomparable a b → incomparable b c → incomparable a c) := by
  unfold incomparable
  rw [comparator_of_valid a a ha ha, comparator_of_valid a b ha hb,
    comparator_of_valid b c hb hc, comparator_of_valid a c ha hc,
    comparator_of_valid b a hb ha, comparator_of_valid c b hc hb,
    comparator_of_valid c a hc ha]
  simp only [Option.some.injEq, decide_eq_true_eq, decide_eq_false_iff_not]
  refine ⟨Nat.lt_irrefl _, ?_, ?_⟩
  · intro h1 h2
    exact Nat.lt_trans h1 h2
  · intro h1 h2
    omega

/-- Witness of C4 on three actors with increasing keys. -/
theorem comparator_strict_weak_ordering_witness :
    isValid (meshActor 0 1 1 1) = true ∧ isValid (meshActor 1 2 1 1) = true ∧
    isValid (meshActor 2 3 5 6) = true ∧
    comparator (meshActor 0 1 1 1) (meshActor 1 2 1 1) = some true ∧
    comparator (meshActor 1 2 1 1) (meshActor 2 3 5 6) = some true ∧
    comparator (meshActor 0 1 1 1) (meshActor 0 1 1 1) = some false ∧
    (comparator (meshActor 0 1 1 1) (meshActor 1 2 1 1) = some true →
      comparator (meshActor 1 2 1 1) (meshActor 2 3 5 6) = some true →
      comparator (meshActor 0 1 1 1) (meshActor 2 3 5 6) = some true) ∧
    (incomparable (meshActor 0 1 1 1) (meshActor 1 2 1 1) →
      incomparable (meshActor 1 2 1 1) (meshActor 2 3 5 6) →
      incomparable (meshActor 0 1 1 1) (meshActor 2 3 5 6)) :=
  ⟨by decide, by decide, by decide, by decide, by decide,
    comparator_strict_weak_ordering (meshActor 0 1 1 1) (meshActor 1 2 1 1)
      (meshActor 2 3 5 6) (by decide) (by decide) (by decide)⟩

/-! ### Frame collection -/

/-- The last element of `a :: l` is the last element of `l`, or `a`. -/
theorem getLast?_cons_or {β : Type} (a : β) (l : List β) :
    (a :: l).getLast? = l.getLast?.or (some a) := by
  have h : a :: l = [a] ++ l := rfl
  rw [h, List.getLast?_append, List.getLast?_singleton]

/-- Reading an option that falls back on `some a`. -/
theorem getD_or_some {β : Type} (o : Option β) (a d : β) :
    (o.or (some a)).getD d = o.getD a := by
  cases o <;> rfl

/-- The state after the loop of `Renderables_Acquire`, in closed form. -/
theorem foldl_acquireActor (l : List (Option Actor)) :
    ∀ s : Renderer,
      (l.foldl acquireActor s).m_renderables = s.m_renderables ++ liveActors l ∧
      (l.foldl acquireActor s).m_lights = s.m_lights ++ lightsOf l ∧
      (l.foldl acquireActor s).m_directionalLight =
        (lastDirectionalLight l).or s.m_directionalLight ∧
      (l.foldl acquireActor s).m_skybox =
        (((liveActors l).filterMap (fun a => a.skybox)).getLast?).or s.m_skybox ∧
      (l.foldl acquireActor s).m_lineRenderer =
        ((((liveActors l).filter (fun a => a.skybox.isSome)).map
          (fun a => a.lineRenderer)).getLast?).getD s.m_lineRenderer ∧
      (l.foldl acquireActor s).m_camera =
        (((liveActors l).filterMap (fun a => a.camera)).getLast?).or s.m_camera := by
  unfold lastDirectionalLight lightsOf
  induction l with
  | nil => intro s; simp [liveActors]
  | cons x rest ih =>
    intro s
    rw [List.foldl_cons]
    obtain ⟨h1, h2, h3, h4, h5, h6⟩ := ih (acquireActor s x)
    rw [h1, h2, h3, h4, h5, h6]
    clear h1 h2 h3 h4 h5 h6 ih
    cases x with
    | none => simp [acquireActor, liveActors]
    | some actor =>
      obtain ⟨aid, ar, al, ask, alr, ac⟩ := actor
      refine ⟨?_, ?_, ?_, ?_, ?_, ?_⟩
      · cases al <;> cases ask <;> cases ac <;> simp [acquireActor, liveActors]
      · cases al <;> cases ask <;> cases ac <;> simp [acquireActor, liveActors]
      · cases al with
        | none => cases ask <;> cases ac <;> simp [acquireActor, liveActors]
        | some light =>
          by_cases hd : light.lightType = LightType.LightType_Directional
          · cases ask <;> cases ac <;>
              simp [acquireActor, liveActors, List.filter_cons, hd, getLast?_cons_or,
                Option.or_assoc]
          · cases ask <;> cases ac <;>
              simp [acquireActor, liveActors, List.filter_cons, hd]
      · cases al <;> cases ask <;> cases ac <;>
          simp [acquireActor, liveActors, getLast?_cons_or, Option.or_assoc]
      · cases al <;> cases ask <;> cases ac <;>
          simp [acquireActor, liveActors, List.filter_cons, getLast?_cons_or, getD_or_some]
      · cases al <;> cases ask <;> cases ac <;>
          simp [acquireActor, liveActors, getLast?_cons_or, Option.or_assoc]

/-- The per-frame members after `Renderables_Acquire`: the sorted live actors and
the lights, directional light, skybox, line renderer and camera collected by the
loop. -/
theorem Renderables_Acquire_frame (s : Renderer) (l : List (Option Actor)) :
    (Renderables_Acquire s l).map frameOf =
      (Renderables_Sort (liveActors l)).map (fun sorted =>
        (sorted, lightsOf l, lastDirectionalLight l,
          ((liveActors l).filterMap (fun a => a.skybox)).getLast?,
          ((((liveActors l).filter (fun a => a.skybox.isSome)).map
            (fun a => a.lineRenderer)).getLast?).getD none,
          ((liveActors l).filterMap (fun a => a.camera)).getLast?)) := by
  obtain ⟨h1, h2, h3, h4, h5, h6⟩ := foldl_acquireActor l (Clear s)
  have c1 : (Clear s).m_renderables = [] := rfl
  have c2 : (Clear s).m_lights = [] := rfl
  have c3 : (Clear s).m_directionalLight = none := rfl
  have c4 : (Clear s).m_skybox = none := rfl
  have c5 : (Clear s).m_lineRenderer = none := rfl
  have c6 : (Clear s).m_camera = none := rfl
  rw [c1, List.nil_append] at h1
  rw [c2, List.nil_append] at h2
  rw [c3, Option.or_none] at h3
  rw [c4, Option.or_none] at h4
  rw [c5] at h5
  rw [c6, Option.or_none] at h6
  simp only [Renderables_Acquire, Option.map_map, h1]
  congr 1
  funext sorted
  simp only [Function.comp, frameOf, h2, h3, h4, h5, h6]

/-- The loop of `Renderables_Acquire` passes over expired references. -/
theorem foldl_acquireActor_removeExpired (l : List (Option Actor)) :
    ∀ s : Renderer, l.foldl acquireActor s = (removeExpired l).foldl acquireActor s := by
  unfold removeExpired
  induction l with
  | nil => intro s; rfl
  | cons x rest ih =>
    intro s
    cases x with
    | none => simpa [acquireActor] using ih s
    | some actor => simpa using ih (acquireActor s (some actor))

/-- When the sort of the live actors has a result, `Renderables_Acquire` returns
the state after the loop with the sorted list as renderable list. -/
theorem Renderables_Acquire_eq_some (s : Renderer) (l : List (Option Actor))
    (sorted : List Actor) (h : Renderables_Sort (liveActors l) = some sorted) :
    Renderables_Acquire s l =
      some { l.foldl acquireActor (Clear s) with m_renderables := sorted } := by
  have h1 := (foldl_acquireActor l (Clear s)).1
  have c1 : (Clear s).m_renderables = [] := rfl
  rw [c1, List.nil_append] at h1
  simp only [Renderables_Acquire, h1, h, Option.map_some']

/-- C5 (counterexample): given a camera-only actor, a directional-light-only actor
and a mesh actor, the renderable list after `Renderables_Acquire` holds all three
actors, the camera-only actor (which has no renderable component) among them. -/
theorem Renderables_Acquire_keeps_actors_without_renderable :
    (Renderables_Acquire (blankRenderer 0 0)
      [some (cameraActor 0), some (lightActor 1 LightType.LightType_Directional),
        some (meshActor 2 1 1 1)]).map (fun s => s.m_renderables) =
      some [cameraActor 0, lightActor 1 LightType.LightType_Directional, meshActor 2 1 1 1] ∧
    (cameraActor 0).renderable = none ∧
    (lightActor 1 LightType.LightType_Directional).renderable = none := by
  decide

/-- C5 (amended): when no live actor has a material without shader,
`Renderables_Acquire` returns a state whose renderable list is a rearrangement of
all the live actors of the sequence, with or without a renderable component. -/
theorem Renderables_Acquire_renderables (s : Renderer) (l : List (Option Actor))
    (hs : ∀ a ∈ liveActors l, missingShader a = false) :
    ∃ s1, Renderables_Acquire s l = some s1 ∧ s1.m_renderables.Perm (liveActors l) := by
  obtain ⟨sorted, hsorted, hperm⟩ := Renderables_Sort_perm (liveActors l) hs
  exact ⟨_, Renderables_Acquire_eq_some s l sorted hsorted, hperm⟩

/-- Witness of the amended C5 on the scene of three actors with an expired
reference in front. -/
theorem Renderables_Acquire_renderables_witness :
    (∀ a ∈ liveActors [none, some (cameraActor 0),
        some (lightActor 1 LightType.LightType_Directional), some (meshActor 2 1 1 1)],
      missingShader a = false) ∧
    ∃ s1, Renderables_Acquire (blankRenderer 0 0) [none, some (cameraActor 0),
        some (lightActor 1 LightType.LightType_Directional), some (meshActor 2 1 1 1)] =
        some s1 ∧
      s1.m_renderables.Perm (liveActors [none, some (cameraActor 0),
        some (lightActor 1 LightType.LightType_Directional), some (meshActor 2 1 1 1)]) :=
  ⟨by decide, Renderables_Acquire_renderables _ _ (by decide)⟩

/-- C6: the per-frame members after `Renderables_Acquire` (renderable list, light
list, directional light, skybox, line renderer, camera) do not depend on the
prior state, and for the empty actor sequence the two lists are empty and the
four references are null. -/
theorem Renderables_Acquire_replaces_frame (s1 s2 : Renderer) (l : List (Option Actor)) :
    (Renderables_Acquire s1 l).map frameOf = (Renderables_Acquire s2 l).map frameOf ∧
    (Renderables_Acquire s1 []).map frameOf = some ([], [], none, none, none, none) := by
  refine ⟨?_, ?_⟩
  · rw [Renderables_Acquire_frame s1 l, Renderables_Acquire_frame s2 l]
  · rfl

/-- C7: for every actor sequence, every state that `Renderables_Acquire` returns
has as light list the lights of the live actors that carry one, in input order, and
as directional light the light of the last live actor with a directional light,
null when there is none.  The call returns exactly when the sort of the live actors
does, and it does whenever no live actor has a material without shader. -/
theorem Renderables_Acquire_lights (s : Renderer) (l : List (Option Actor)) :
    (∀ s1, Renderables_Acquire s l = some s1 →
      s1.m_lights = lightsOf l ∧ s1.m_directionalLight = lastDirectionalLight l) ∧
    (Renderables_Acquire s l).isSome = (Renderables_Sort (liveActors l)).isSome ∧
    ((∀ a ∈ liveActors l, missingShader a = false) →
      ∃ s1, Renderables_Acquire s l = some s1 ∧ s1.m_lights = lightsOf l ∧
        s1.m_directionalLight = lastDirectionalLight l) := by
  obtain ⟨h1, h2, h3, -⟩ := foldl_acquireActor l (Clear s)
  have c1 : (Clear s).m_renderables = [] := rfl
  have c2 : (Clear s).m_lights = [] := rfl
  have c3 : (Clear s).m_directionalLight = none := rfl
  rw [c1, List.nil_append] at h1
  rw [c2, List.nil_append] at h2
  rw [c3, Option.or_none] at h3
  have hall : ∀ s1, Renderables_Acquire s l = some s1 →
      s1.m_lights = lightsOf l ∧ s1.m_directionalLight = lastDirectionalLight l := by
    intro s1 h
    simp only [Renderables_Acquire] at h
    obtain ⟨sorted, -, e⟩ := Option.map_eq_some'.1 h
    rw [← e]
    exact ⟨h2, h3⟩
  refine ⟨hall, ?_, ?_⟩
  · simp only [Renderables_Acquire, h1, Option.isSome_map']
  · intro hs
    obtain ⟨sorted, hsorted, -⟩ := Renderables_Sort_perm (liveActors l) hs
    have e := Renderables_Acquire_eq_some s l sorted hsorted
    exact ⟨_, e, hall _ e⟩

/-- Witness of C7 on a sequence with two directional lights, a point light after
them, and an actor whose material has no shader: the call returns, with the three
lights in input order and the second directional light as the directional light. -/
theorem Renderables_Acquire_lights_witness :
    (∃ s1, Renderables_Acquire (blankRenderer 0 0)
        [some (lightActor 0 LightType.LightType_Directional), none,
          some (lightActor 1 LightType.LightType_Directional), some (shaderlessActor 2 1 1),
          some (lightActor 3 LightType.LightType_Point)] = some s1 ∧
      s1.m_lights =
        [{ id := 0, lightType := LightType.LightType_Directional },
          { id := 1, lightType := LightType.LightType_Directional },
          { id := 3, lightType := LightType.LightType_Point }] ∧
      s1.m_directionalLight = some { id := 1, lightType := LightType.LightType_Directional }) ∧
    (∀ a ∈ liveActors [some (lightActor 0 LightType.LightType_Directional), none,
        some (meshActor 2 1 1 1)], missingShader a = false) ∧
    ∃ s1, Renderables_Acquire (blankRenderer 0 0)
        [some (lightActor 0 LightType.LightType_Directional), none,
          some (meshActor 2 1 1 1)] = some s1 ∧
      s1.m_lights = lightsOf [some (lightActor 0 LightType.LightType_Directional), none,
        some (meshActor 2 1 1 1)] ∧
      s1.m_directionalLight = lastDirectionalLight
        [some (lightActor 0 LightType.LightType_Directional), none,
          some (meshActor 2 1 1 1)] :=
  ⟨(Option.isSome_iff_exists.1 (by decide)).elim fun s1 h =>
      ⟨s1, h, (Renderables_Acquire_lights _ _).1 s1 h⟩,
    by decide, (Renderables_Acquire_lights _ _).2.2 (by decide)⟩

/-- C8: `Renderables_Acquire` has the same outcome on a sequence of weak actor
references as on the sequence with its expired references removed, and the body of
its loop leaves the state as it is on an expired reference. -/
theorem Renderables_Acquire_skips_expired (s : Renderer) (l : List (Option Actor)) :
    Renderables_Acquire s l = Renderables_Acquire s (removeExpired l) ∧
    acquireActor s none = s := by
  refine ⟨?_, rfl⟩
  simp only [Renderables_Acquire, ← foldl_acquireActor_removeExpired l (Clear s)]

/-! ### Resolution -/

/-- A magnitude below `2^24` loses no bit. -/
theorem excessBits_of_lt (fuel a : Nat) (h : a < 2 ^ 24) : excessBits fuel a = 0 := by
  cases fuel with
  | zero => rfl
  | succ n =>
    unfold excessBits
    rw [if_pos h]

/-- Rounding to a multiple of `2^0` changes nothing. -/
theorem roundToBits_zero (a : Nat) : roundToBits a 0 = a := by
  simp [roundToBits, Nat.mod_one]

/-- Rounding to a multiple of `2^(e+1)` gives an even number. -/
theorem two_dvd_roundToBits_succ (a e : Nat) : 2 ∣ roundToBits a (e + 1) := by
  unfold roundToBits
  exact Dvd.dvd.mul_left (Dvd.intro_left (2 ^ e) rfl) _

/-- The conversion to `float` is exact on integers of magnitude below `2^24`. -/
theorem roundToFloat_of_lt (n : Int) (h : n.natAbs < 2 ^ 24) : roundToFloat n = n := by
  unfold roundToFloat
  rw [excessBits_of_lt 64 n.natAbs h, roundToBits_zero, Int.sign_mul_natAbs]

/-- The conversion to `float` of an even integer is an even integer. -/
theorem two_dvd_roundToFloat (n : Int) (h : 2 ∣ n) : 2 ∣ roundToFloat n := by
  unfold roundToFloat
  cases he : excessBits 64 n.natAbs with
  | zero => rw [roundToBits_zero, Int.sign_mul_natAbs]; exact h
  | succ e =>
    apply Dvd.dvd.mul_left
    exact Int.natCast_dvd_natCast.mpr (two_dvd_roundToBits_succ n.natAbs e)

/-- The decrement of `SetResolution` on a positive dimension removes its parity. -/
theorem decrement_eq (w : Int) (hw : 0 < w) :
    w - (if Int.tmod w 2 ≠ 0 then 1 else 0) = w - w % 2 := by
  rw [Int.tmod_eq_emod (Int.le_of_lt hw) (by decide)]
  rcases Int.emod_two_eq w with h | h <;> simp [h]

/-- The stored resolution after `SetResolution` on positive dimensions that are not
the stored ones already. -/
theorem SetResolution_of_new (s : Renderer) (w h : Int) (hw : 0 < w) (hh : 0 < h)
    (hnew : ¬ (s.settings.m_resolution.x = floatOfInt w ∧
      s.settings.m_resolution.y = floatOfInt h)) :
    SetResolution s w h =
      RenderTargets_Create
        { s with settings :=
            { m_resolution := ⟨floatOfInt (w - w % 2), floatOfInt (h - h % 2)⟩ } }
        (w - w % 2) (h - h % 2) := by
  have hvalid : ¬ (w ≤ 0 ∨ h ≤ 0) := by omega
  unfold SetResolution
  rw [if_neg hnew, if_neg hvalid]
  simp only [decrement_eq w hw, decrement_eq h hh]

/-- C9 (counterexample): from a state whose stored resolution is `3 × 3`,
`SetResolution(3, 3)` leaves the odd resolution `3 × 3` in place; and from the
resolution `0 × 0`, `SetResolution(33554435, 2)` stores the width `33554432`, which
is not the input decremented by 1. -/
theorem SetResolution_not_always_decremented :
    (SetResolution (blankRenderer 3 3) 3 3).settings.m_resolution = ⟨3, 3⟩ ∧
    (SetResolution (blankRenderer 0 0) 33554435 2).settings.m_resolution = ⟨33554432, 2⟩ := by
  decide

/-- C9 (amended): for positive `w` and `h`, `SetResolution(w, h)` changes nothing
when the stored resolution is `(w, h)` already; otherwise it stores the floats of
`w - w % 2` and `h - h % 2`, both of them even integers, which are `w - w % 2` and
`h - h % 2` themselves for dimensions below `2^24`. -/
theorem SetResolution_resolution (s : Renderer) (w h : Int) (hw : 0 < w) (hh : 0 < h) :
    ((s.settings.m_resolution.x = floatOfInt w ∧ s.settings.m_resolution.y = floatOfInt h) →
      SetResolution s w h = s) ∧
    (¬ (s.settings.m_resolution.x = floatOfInt w ∧ s.settings.m_resolution.y = floatOfInt h) →
      (SetResolution s w h).settings.m_resolution =
        ⟨floatOfInt (w - w % 2), floatOfInt (h - h % 2)⟩ ∧
      (∃ kx ky : Int, (SetResolution s w h).settings.m_resolution =
        ⟨((2 * kx : Int) : ℚ), ((2 * ky : Int) : ℚ)⟩) ∧
      (w < 2 ^ 24 → (SetResolution s w h).settings.m_resolution.x = ((w - w % 2 : Int) : ℚ)) ∧
      (h < 2 ^ 24 → (SetResolution s w h).settings.m_resolution.y = ((h - h % 2 : Int) : ℚ))) := by
  refine ⟨?_, ?_⟩
  · intro hsame
    unfold SetResolution
    rw [if_pos hsame]
  · intro hnew
    rw [SetResolution_of_new s w h hw hh hnew]
    have hx : (2 : Int) ∣ w - w % 2 := by omega
    have hy : (2 : Int) ∣ h - h % 2 := by omega
    obtain ⟨kx, hkx⟩ := two_dvd_roundToFloat _ hx
    obtain ⟨ky, hky⟩ := two_dvd_roundToFloat _ hy
    refine ⟨rfl, ⟨kx, ky, ?_⟩, ?_, ?_⟩
    · show (⟨floatOfInt (w - w % 2), floatOfInt (h - h % 2)⟩ : Vector2) = _
      unfold floatOfInt
      rw [hkx, hky]
    · intro hlt
      show floatOfInt (w - w % 2) = _
      unfold floatOfInt
      rw [roundToFloat_of_lt _ (by omega)]
    · intro hlt
      show floatOfInt (h - h % 2) = _
      unfold floatOfInt
      rw [roundToFloat_of_lt _ (by omega)]

/-- Witness of the amended C9: from the stored resolution `0 × 0`,
`SetResolution(1921, 1080)` stores `1920 × 1080`. -/
theorem SetResolution_resolution_witness :
    (0 : Int) < 1921 ∧ (0 : Int) < 1080 ∧
    (SetResolution (blankRenderer 0 0) 1921 1080).settings.m_resolution = ⟨1920, 1080⟩ :=
  ⟨by decide, by decide,
    ((SetResolution_resolution (blankRenderer 0 0) 1921 1080 (by decide) (by decide)).2
      (by decide)).1.trans (by decide)⟩

/-- C10: when `w ≤ 0` or `h ≤ 0`, `SetResolution(w, h)` returns the state it was
given: the stored resolution, the G-buffer, the ping, ping2, pong and shadowing
targets and the number of render textures allocated are all unchanged. -/
theorem SetResolution_invalid (s : Renderer) (w h : Int) (hinv : w ≤ 0 ∨ h ≤ 0) :
    SetResolution s w h = s ∧
    (SetResolution s w h).settings.m_resolution = s.settings.m_resolution ∧
    (SetResolution s w h).m_gbuffer = s.m_gbuffer ∧
    (SetResolution s w h).m_renderTexPing = s.m_renderTexPing ∧
    (SetResolution s w h).m_renderTexPing2 = s.m_renderTexPing2 ∧
    (SetResolution s w h).m_renderTexPong = s.m_renderTexPong ∧
    (SetResolution s w h).m_renderTexShadowing = s.m_renderTexShadowing ∧
    (SetResolution s w h).allocated = s.allocated := by
  have hs : SetResolution s w h = s := by
    unfold SetResolution
    by_cases hsame : s.settings.m_resolution.x = floatOfInt w ∧
        s.settings.m_resolution.y = floatOfInt h
    · rw [if_pos hsame]
    · rw [if_neg hsame, if_pos hinv]
  rw [hs]
  exact ⟨rfl, rfl, rfl, rfl, rfl, rfl, rfl, rfl⟩

/-- Witness of C10: with targets of `1920 × 1080` in place, `SetResolution(0, 720)`
returns the state unchanged. -/
theorem SetResolution_invalid_witness :
    ((0 : Int) ≤ 0 ∨ (720 : Int) ≤ 0) ∧
    SetResolution (RenderTargets_Create (blankRenderer 1920 1080) 1920 1080) 0 720 =
      RenderTargets_Create (blankRenderer 1920 1080) 1920 1080 :=
  ⟨by decide,
    (SetResolution_invalid (RenderTargets_Create (blankRenderer 1920 1080) 1920 1080) 0 720
      (by decide)).1⟩

/-- On even positive dimensions a second `SetResolution` with the same arguments
returns the state left by the first. -/
theorem SetResolution_twice_even (s : Renderer) (w h : Int) (hw : 0 < w) (hh : 0 < h)
    (hwe : w % 2 = 0) (hhe : h % 2 = 0) :
    SetResolution (SetResolution s w h) w h = SetResolution s w h := by
  have hguard : ∀ t : Renderer,
      (t.settings.m_resolution.x = floatOfInt w ∧ t.settings.m_resolution.y = floatOfInt h) →
      SetResolution t w h = t := by
    intro t ht
    unfold SetResolution
    rw [if_pos ht]
  by_cases hsame : s.settings.m_resolution.x = floatOfInt w ∧
      s.settings.m_resolution.y = floatOfInt h
  · rw [hguard s hsame, hguard s hsame]
  · apply hguard
    rw [SetResolution_of_new s w h hw hh hsame, hwe, hhe]
    simp [RenderTargets_Create]

/-- C11 (failing input): from the stored resolution `0 × 0`, the first
`SetResolution(3, 3)` stores `2 × 2` and allocates eight render textures; the
second `SetResolution(3, 3)` does not return at its guard and allocates eight
more, replacing every target by a new object. -/
theorem SetResolution_twice_odd_reallocates :
    (SetResolution (blankRenderer 0 0) 3 3).settings.m_resolution = ⟨2, 2⟩ ∧
    (SetResolution (blankRenderer 0 0) 3 3).allocated = 8 ∧
    (SetResolution (SetResolution (blankRenderer 0 0) 3 3) 3 3).settings.m_resolution =
      ⟨2, 2⟩ ∧
    (SetResolution (SetResolution (blankRenderer 0 0) 3 3) 3 3).allocated = 16 ∧
    (SetResolution (SetResolution (blankRenderer 0 0) 3 3) 3 3).m_renderTexPing ≠
      (SetResolution (blankRenderer 0 0) 3 3).m_renderTexPing ∧
    (SetResolution (SetResolution (blankRenderer 0 0) 3 3) 3 3).m_gbuffer ≠
      (SetResolution (blankRenderer 0 0) 3 3).m_gbuffer := by
  decide

/-- C12 (counterexample): after `RenderTargets_Create(1920, 1080)` the renderer holds
three full-resolution 16-bit-float targets, ping, ping2 and pong, which are three
different objects. -/
theorem RenderTargets_Create_three_float_targets :
    ((renderTargets (RenderTargets_Create (blankRenderer 0 0) 1920 1080)).filter
      (fun t => decide (t.format = Texture_Format.Texture_Format_R16G16B16A16_FLOAT ∧
        t.width = 1920 ∧ t.height = 1080))).length = 3 ∧
    (RenderTargets_Create (blankRenderer 0 0) 1920 1080).m_renderTexPing ≠
      (RenderTargets_Create (blankRenderer 0 0) 1920 1080).m_renderTexPing2 ∧
    (RenderTargets_Create (blankRenderer 0 0) 1920 1080).m_renderTexPing ≠
      (RenderTargets_Create (blankRenderer 0 0) 1920 1080).m_renderTexPong ∧
    (RenderTargets_Create (blankRenderer 0 0) 1920 1080).m_renderTexPing2 ≠
      (RenderTargets_Create (blankRenderer 0 0) 1920 1080).m_renderTexPong := by
  decide

/-- C12 (amended): `RenderTargets_Create(width, height)` replaces the targets by
eight newly allocated render textures: the G-buffer with albedo, normal and
specular in `R8G8B8A8_UNORM` without depth and depth in `R32G32_FLOAT` with depth,
all `width × height`; three `width × height` targets ping, ping2 and pong in
`R16G16B16A16_FLOAT` without depth; and the shadowing target in `R32G32_FLOAT`
without depth, of `int(width * 0.5f) × int(height * 0.5f)`, which is the half
rounded down for dimensions from `0` to below `2^24`. -/
theorem RenderTargets_Create_targets (s : Renderer) (width height : Int) :
    (RenderTargets_Create s width height).m_gbuffer = some
      { GBuffer_Target_Albedo := ⟨s.allocated, width, height, false,
          Texture_Format.Texture_Format_R8G8B8A8_UNORM⟩
        GBuffer_Target_Normal := ⟨s.allocated + 1, width, height, false,
          Texture_Format.Texture_Format_R8G8B8A8_UNORM⟩
        GBuffer_Target_Specular := ⟨s.allocated + 2, width, height, false,
          Texture_Format.Texture_Format_R8G8B8A8_UNORM⟩
        GBuffer_Target_Depth := ⟨s.allocated + 3, width, height, true,
          Texture_Format.Texture_Format_R32G32_FLOAT⟩ } ∧
    (RenderTargets_Create s width height).m_renderTexPing = some ⟨s.allocated + 4, width,
      height, false, Texture_Format.Texture_Format_R16G16B16A16_FLOAT⟩ ∧
    (RenderTargets_Create s width height).m_renderTexPing2 = some ⟨s.allocated + 5, width,
      height, false, Texture_Format.Texture_Format_R16G16B16A16_FLOAT⟩ ∧
    (RenderTargets_Create s width height).m_renderTexPong = some ⟨s.allocated + 6, width,
      height, false, Texture_Format.Texture_Format_R16G16B16A16_FLOAT⟩ ∧
    (RenderTargets_Create s width height).m_renderTexShadowing = some ⟨s.allocated + 7,
      halfOfInt width, halfOfInt height, false, Texture_Format.Texture_Format_R32G32_FLOAT⟩ ∧
    (renderTargets (RenderTargets_Create s width height)).map (fun t => t.id) =
      [s.allocated, s.allocated + 1, s.allocated + 2, s.allocated + 3, s.allocated + 4,
        s.allocated + 5, s.allocated + 6, s.allocated + 7] ∧
    (RenderTargets_Create s width height).allocated = s.allocated + 8 ∧
    (0 ≤ width → width < 2 ^ 24 → halfOfInt width = width / 2) ∧
    (0 ≤ height → height < 2 ^ 24 → halfOfInt height = height / 2) := by
  have hhalf : ∀ n : Int, 0 ≤ n → n < 2 ^ 24 → halfOfInt n = n / 2 := by
    intro n h0 h1
    unfold halfOfInt
    rw [roundToFloat_of_lt n (by omega), Int.tdiv_eq_ediv h0 (by decide)]
  exact ⟨rfl, rfl, rfl, rfl, rfl, rfl, rfl, hhalf width, hhalf height⟩

/-- Witness of the amended C12 at `1920 × 1080`: the shadowing target is
`960 × 540`. -/
theorem RenderTargets_Create_targets_witness :
    (0 : Int) ≤ 1920 ∧ (1920 : Int) < 2 ^ 24 ∧ (0 : Int) ≤ 1080 ∧ (1080 : Int) < 2 ^ 24 ∧
    (RenderTargets_Create (blankRenderer 0 0) 1920 1080).m_renderTexShadowing = some ⟨7,
      halfOfInt 1920, halfOfInt 1080, false, Texture_Format.Texture_Format_R32G32_FLOAT⟩ ∧
    halfOfInt 1920 = 1920 / 2 ∧ halfOfInt 1080 = 1080 / 2 :=
  ⟨by decide, by decide, by decide, by decide,
    (RenderTargets_Create_targets (blankRenderer 0 0) 1920 1080).2.2.2.2.1,
    (RenderTargets_Create_targets (blankRenderer 0 0) 1920 1080).2.2.2.2.2.2.2.1
      (by decide) (by decide),
    (RenderTargets_Create_targets (blankRenderer 0 0) 1920 1080).2.2.2.2.2.2.2.2
      (by decide) (by decide)⟩

/-! ### The composite key -/

/-- For identifiers below `2^16` the three fields of the key do not overlap: the key
is `model * 2^48 + shader * 2^32 + material * 2^16`. -/
theorem compositeKey_of_lt (m s t : Nat) (hm : m < 2 ^ 16) (hs : s < 2 ^ 16)
    (ht : t < 2 ^ 16) :
    compositeKey m s t = m * 2 ^ 48 + s * 2 ^ 32 + t * 2 ^ 16 := by
  have h1 : toULL m = m := Nat.mod_eq_of_lt (by omega)
  have h2 : toULL s = s := Nat.mod_eq_of_lt (by omega)
  have h3 : toULL t = t := Nat.mod_eq_of_lt (by omega)
  have e1 : shlULL m 48 = 2 ^ 48 * m := by
    unfold shlULL
    rw [Nat.shiftLeft_eq, Nat.mod_eq_of_lt (by omega), Nat.mul_comm]
  have e2 : shlULL s 32 = s * 2 ^ 32 := by
    unfold shlULL
    rw [Nat.shiftLeft_eq, Nat.mod_eq_of_lt (by omega)]
  have e3 : shlULL t 16 = t * 2 ^ 16 := by
    unfold shlULL
    rw [Nat.shiftLeft_eq, Nat.mod_eq_of_lt (by omega)]
  unfold compositeKey
  rw [h1, h2, h3, e1, e2, e3]
  have hb2 : s * 2 ^ 32 < 2 ^ 48 := by omega
  have hb3 : t * 2 ^ 16 < 2 ^ 32 := by omega
  rw [← Nat.mul_add_lt_is_or hb2 m]
  have hx : 2 ^ 48 * m + s * 2 ^ 32 = 2 ^ 32 * (2 ^ 16 * m + s) := by omega
  rw [hx, ← Nat.mul_add_lt_is_or hb3 (2 ^ 16 * m + s)]
  omega

/-- For identifiers below `2^16` the comparison of two keys is the lexicographic
comparison of the triples, and equal keys come from equal triples. -/
theorem compositeKey_lex_of_lt (m s t m1 s1 t1 : Nat)
    (hm : m < 2 ^ 16) (hs : s < 2 ^ 16) (ht : t < 2 ^ 16)
    (hm1 : m1 < 2 ^ 16) (hs1 : s1 < 2 ^ 16) (ht1 : t1 < 2 ^ 16) :
    (compositeKey m s t < compositeKey m1 s1 t1 ↔ tripleLt (m, s, t) (m1, s1, t1) = true) ∧
    (compositeKey m s t = compositeKey m1 s1 t1 → (m, s, t) = (m1, s1, t1)) := by
  rw [compositeKey_of_lt m s t hm hs ht, compositeKey_of_lt m1 s1 t1 hm1 hs1 ht1]
  simp only [tripleLt, Bool.or_eq_true, Bool.and_eq_true, decide_eq_true_eq, Prod.mk.injEq]
  constructor
  · constructor
    · intro h
      omega
    · intro h
      omega
  · intro h
    omega

/-- C20 (failing input): the triples `(1, 0, 0)` and `(0, 65536, 0)` are different and
have the same key `2^48`; the triple `(0, 131072, 0)` is lexicographically below
`(1, 0, 0)` but has the greater key; and the key of `(65536, 0, 0)` is `0`, the
model identifier being shifted out of bits 48 to 63. -/
theorem compositeKey_collision :
    compositeKey 1 0 0 = 2 ^ 48 ∧ compositeKey 0 65536 0 = 2 ^ 48 ∧
    ((1, 0, 0) : Nat × Nat × Nat) ≠ (0, 65536, 0) ∧
    tripleLt (0, 131072, 0) (1, 0, 0) = true ∧
    compositeKey 1 0 0 < compositeKey 0 131072 0 ∧
    compositeKey 65536 0 0 = 0 ∧
    comparator (meshActor 0 0 131072 0) (meshActor 1 1 0 0) = some false ∧
    comparator (meshActor 1 1 0 0) (meshActor 0 0 131072 0) = some true := by
  decide

/-! ### The grid -/

/-- The length of a concatenation of lists of one length `c`. -/
theorem length_flatMap_const {α β : Type} (f : α → List β) (c : Nat)
    (hc : ∀ a, (f a).length = c) : ∀ l : List α, (l.flatMap f).length = l.length * c := by
  intro l
  induction l with
  | nil => simp
  | cons a rest ih =>
    rw [List.flatMap_cons, List.length_append, ih, hc a, List.length_cons]
    rw [Nat.succ_mul, Nat.add_comm]

/-- In a concatenation of lists of one length `c`, the `k`-th block of `c` elements
is the list made from the `k`-th element. -/
theorem drop_take_flatMap_const {α β : Type} (f : α → List β) (c : Nat)
    (hc : ∀ a, (f a).length = c) :
    ∀ (l : List α) (k : Nat) (hk : k < l.length),
      ((l.flatMap f).drop (c * k)).take c = f (l.get ⟨k, hk⟩) := by
  intro l
  induction l with
  | nil => intro k hk; simp at hk
  | cons a rest ih =>
    intro k hk
    rw [List.flatMap_cons]
    cases k with
    | zero =>
      simp only [Nat.mul_zero, List.drop_zero]
      rw [← hc a, List.take_left]
      rfl
    | succ n =>
      have hlen : c * (n + 1) = (f a).length + c * n := by rw [hc a, Nat.mul_succ, Nat.add_comm]
      rw [hlen, ← List.drop_drop, List.drop_left]
      exact ih n (by simpa using hk)

/-- The number of iterations of `for (int k = lo; k < hi; k++)`. -/
theorem intRange_length (lo hi : Int) : (intRange lo hi).length = (hi - lo).toNat := by
  unfold intRange
  rw [List.length_map, List.length_range]

/-- The value of the loop variable in iteration `k`. -/
theorem intRange_get (lo hi : Int) (k : Nat) (hk : k < (intRange lo hi).length) :
    (intRange lo hi).get ⟨k, hk⟩ = lo + (k : Int) := by
  unfold intRange
  rw [List.get_eq_getElem, List.getElem_map, List.getElem_range]

/-- The position of a grid vertex with coordinates below `2^24` in magnitude. -/
theorem gridVertex_position (x z : Int) (hx : x.natAbs < 2 ^ 24) (hz : z.natAbs < 2 ^ 24) :
    (gridVertex x z).position = ⟨(x : ℚ), 0, (z : ℚ)⟩ := by
  simp only [gridVertex, floatOfInt, roundToFloat_of_lt x hx, roundToFloat_of_lt z hz]

/-- The vertex list of the grid of the constructor: rows `j` from `-100` to `99`,
cells `i` from `-100` to `99` in each. -/
theorem Grid_new_vertices_eq :
    Grid.new.vertices = (intRange (-100) 100).flatMap (fun j =>
      (intRange (-100) 100).flatMap (fun i => cellVertices i j)) := by
  have h : halfOfInt 200 = 100 := by decide
  simp only [Grid.new, BuildGrid, h]

/-- The eight vertices of the cell `(i, j)` stand at offset
`8 * ((j + 100) * 200 + (i + 100))` of the vertex list. -/
theorem Grid_new_cell (i j : Int) (hi0 : -100 ≤ i) (hi1 : i < 100) (hj0 : -100 ≤ j)
    (hj1 : j < 100) :
    (Grid.new.vertices.drop (8 * ((j + 100).toNat * 200 + (i + 100).toNat))).take 8 =
      cellVertices i j := by
  rw [Grid_new_vertices_eq]
  have hlen : (intRange (-100) 100).length = 200 := by rw [intRange_length]; rfl
  have hinner : ∀ j : Int,
      ((intRange (-100) 100).flatMap (fun i => cellVertices i j)).length = 1600 := by
    intro j
    rw [length_flatMap_const (fun i => cellVertices i j) 8 (fun _ => rfl), hlen]
  have hjk : (j + 100).toNat < (intRange (-100) 100).length := by rw [hlen]; omega
  have hik : (i + 100).toNat < (intRange (-100) 100).length := by rw [hlen]; omega
  have hrow := drop_take_flatMap_const
    (fun j => (intRange (-100) 100).flatMap (fun i => cellVertices i j)) 1600 hinner
    (intRange (-100) 100) (j + 100).toNat hjk
  have hcell := drop_take_flatMap_const (fun i => cellVertices i j) 8 (fun _ => rfl)
    (intRange (-100) 100) (i + 100).toNat hik
  rw [intRange_get] at hrow hcell
  have hj : (-100 : Int) + ((j + 100).toNat : Int) = j := by omega
  have hi : (-100 : Int) + ((i + 100).toNat : Int) = i := by omega
  rw [hj] at hrow
  rw [hi] at hcell
  have hsplit : 8 * ((j + 100).toNat * 200 + (i + 100).toNat) =
      1600 * (j + 100).toNat + 8 * (i + 100).toNat := by omega
  rw [hsplit, ← List.drop_drop, ← hcell, ← hrow, List.drop_take, List.take_take]
  congr 1
  omega

/-- The index list built by `BuildGrid` counts up from `0` through the vertices. -/
theorem BuildGrid_indices (h w : Int) :
    (BuildGrid h w).indices = List.range (BuildGrid h w).vertices.length := rfl

/-- The index count stored by `BuildGrid` is the length of the index list. -/
theorem BuildGrid_indexCount (h w : Int) :
    (BuildGrid h w).m_indexCount = (BuildGrid h w).indices.length := rfl

/-- C18: the grid built by the constructor has `200 * 200 * 8 = 320000` vertices;
its index list is `0, 1, …, 319999` and `m_indexCount` is `320000`; and for every
cell `(i, j)` with `-100 ≤ i, j < 100` the vertex list holds the eight vertices of
the cell as one block, which as a line list is the four edges of the square
`[i, i+1] × [j, j+1]` in the plane `y = 0`, each edge starting where the previous
one ends and the last one ending where the first starts. -/
theorem Grid_new_spec :
    Grid.new.vertices.length = 320000 ∧
    Grid.new.indices = List.range 320000 ∧
    Grid.new.m_indexCount = 320000 ∧
    ∀ i j : Int, -100 ≤ i → i < 100 → -100 ≤ j → j < 100 →
      (Grid.new.vertices.drop (8 * ((j + 100).toNat * 200 + (i + 100).toNat))).take 8 =
        cellVertices i j ∧
      lineList (cellVertices i j) =
        [ (⟨(i : ℚ), 0, ((j + 1 : Int) : ℚ)⟩, ⟨((i + 1 : Int) : ℚ), 0, ((j + 1 : Int) : ℚ)⟩),
          (⟨((i + 1 : Int) : ℚ), 0, ((j + 1 : Int) : ℚ)⟩, ⟨((i + 1 : Int) : ℚ), 0, (j : ℚ)⟩),
          (⟨((i + 1 : Int) : ℚ), 0, (j : ℚ)⟩, ⟨(i : ℚ), 0, (j : ℚ)⟩),
          (⟨(i : ℚ), 0, (j : ℚ)⟩, ⟨(i : ℚ), 0, ((j + 1 : Int) : ℚ)⟩) ] := by
  have hlen : Grid.new.vertices.length = 320000 := by
    rw [Grid_new_vertices_eq,
      length_flatMap_const
        (fun j => (intRange (-100) 100).flatMap (fun i => cellVertices i j)) 1600
        (fun j => by
          rw [length_flatMap_const (fun i => cellVertices i j) 8 (fun _ => rfl),
            intRange_length]
          rfl),
      intRange_length]
    rfl
  have hidx : Grid.new.indices = List.range Grid.new.vertices.length :=
    BuildGrid_indices 200 200
  have hcount : Grid.new.m_indexCount = Grid.new.indices.length :=
    BuildGrid_indexCount 200 200
  refine ⟨hlen, by rw [hidx, hlen], by rw [hcount, hidx, List.length_range, hlen], ?_⟩
  intro i j hi0 hi1 hj0 hj1
  refine ⟨Grid_new_cell i j hi0 hi1 hj0 hj1, ?_⟩
  simp only [lineList, cellVertices]
  rw [gridVertex_position i (j + 1) (by omega) (by omega),
    gridVertex_position (i + 1) (j + 1) (by omega) (by omega),
    gridVertex_position (i + 1) j (by omega) (by omega),
    gridVertex_position i j (by omega) (by omega)]

/-- Witness of C18 at the cell `(-100, 99)`, the first cell of the last row. -/
theorem Grid_new_spec_witness :
    (-100 : Int) ≤ -100 ∧ (-100 : Int) < 100 ∧ (-100 : Int) ≤ 99 ∧ (99 : Int) < 100 ∧
    (Grid.new.vertices.drop (8 * (((99 : Int) + 100).toNat * 200 +
      ((-100 : Int) + 100).toNat))).take 8 = cellVertices (-100) 99 ∧
    lineList (cellVertices (-100) 99) =
      [ (⟨((-100 : Int) : ℚ), 0, (((99 : Int) + 1 : Int) : ℚ)⟩,
          ⟨(((-100 : Int) + 1 : Int) : ℚ), 0, (((99 : Int) + 1 : Int) : ℚ)⟩),
        (⟨(((-100 : Int) + 1 : Int) : ℚ), 0, (((99 : Int) + 1 : Int) : ℚ)⟩,
          ⟨(((-100 : Int) + 1 : Int) : ℚ), 0, ((99 : Int) : ℚ)⟩),
        (⟨(((-100 : Int) + 1 : Int) : ℚ), 0, ((99 : Int) : ℚ)⟩,
          ⟨((-100 : Int) : ℚ), 0, ((99 : Int) : ℚ)⟩),
        (⟨((-100 : Int) : ℚ), 0, ((99 : Int) : ℚ)⟩,
          ⟨((-100 : Int) : ℚ), 0, (((99 : Int) + 1 : Int) : ℚ)⟩) ] :=
  ⟨by decide, by decide, by decide, by decide,
    Grid_new_spec.2.2.2 (-100) 99 (by decide) (by decide) (by decide) (by decide)⟩

/-! ### The world matrix of the grid -/

/-- The remainder of the truncating division by a positive `d` is above `-d`. -/
theorem neg_lt_tmod (a d : Int) (hd : 0 < d) : -d < Int.tmod a d := by
  match a, d, hd with
  | Int.ofNat m, d, hd =>
    exact lt_of_lt_of_le (by omega) (Int.tmod_nonneg d (Int.ofNat_nonneg m))
  | Int.negSucc m, Int.ofNat n, hd =>
    have hd1 : (0 : Int) < (n : Int) := hd
    have hn : 0 < n := by omega
    have hlt : (m + 1) % n < n := Nat.mod_lt _ hn
    show -(n : Int) < -(((m + 1) % n : Nat) : Int)
    omega
  | Int.negSucc m, Int.negSucc n, hd => exact absurd hd (by simp [Int.negSucc_lt_zero])

/-- The remainder of the truncating division by a positive `d` is below `d` in
magnitude. -/
theorem abs_tmod_lt (a d : Int) (hd : 0 < d) : |Int.tmod a d| < d := by
  rw [abs_lt]
  exact ⟨neg_lt_tmod a d hd, Int.tmod_lt_of_pos a hd⟩

/-- Quotient and remainder of the truncating division by a positive number have the
sign of the dividend. -/
theorem tdiv_tmod_sign (a d : Int) (hd : 0 < d) :
    (0 ≤ a → 0 ≤ Int.tdiv a d ∧ 0 ≤ Int.tmod a d) ∧
    (a ≤ 0 → Int.tdiv a d ≤ 0 ∧ Int.tmod a d ≤ 0) := by
  match a, d, hd with
  | Int.ofNat m, d, hd =>
    refine ⟨fun _ => ⟨Int.tdiv_nonneg (Int.ofNat_nonneg m) (Int.le_of_lt hd),
      Int.tmod_nonneg d (Int.ofNat_nonneg m)⟩, ?_⟩
    intro h
    have hm : m = 0 := by
      have h1 : (m : Int) ≤ 0 := h
      omega
    subst hm
    simp
  | Int.negSucc m, Int.ofNat n, hd =>
    refine ⟨fun h => absurd h (by simp [Int.negSucc_lt_zero]), fun _ => ⟨?_, ?_⟩⟩
    · show -(((m + 1) / n : Nat) : Int) ≤ 0
      exact Int.neg_nonpos_of_nonneg (Int.ofNat_nonneg _)
    · show -(((m + 1) % n : Nat) : Int) ≤ 0
      exact Int.neg_nonpos_of_nonneg (Int.ofNat_nonneg _)
  | Int.negSucc m, Int.negSucc n, hd => exact absurd hd (by simp [Int.negSucc_lt_zero])

/-- What truncation removes from a rational: the remainder over the denominator. -/
theorem sub_trunc_eq (x : ℚ) :
    x - ((Int.tdiv x.num x.den : Int) : ℚ) =
      ((Int.tmod x.num x.den : Int) : ℚ) / (x.den : ℚ) := by
  have hd : (0 : ℚ) < (x.den : ℚ) := by exact_mod_cast x.den_pos
  have hdecomp := Int.tdiv_add_tmod x.num x.den
  rw [eq_div_iff (ne_of_gt hd)]
  have h1 : x * (x.den : ℚ) = (x.num : ℚ) := Rat.mul_den_eq_num x
  have h2 : ((x.den : Int) : ℚ) * ((Int.tdiv x.num x.den : Int) : ℚ) +
      ((Int.tmod x.num x.den : Int) : ℚ) = (x.num : ℚ) := by
    exact_mod_cast hdecomp
  have h3 : ((x.den : Int) : ℚ) = (x.den : ℚ) := by norm_cast
  rw [h3] at h2
  linear_combination h1 - h2

/-- Truncation is toward zero: it does not increase the magnitude. -/
theorem abs_trunc_le (x : ℚ) : |((Int.tdiv x.num x.den : Int) : ℚ)| ≤ |x| := by
  have hd : (0 : ℚ) < (x.den : ℚ) := by exact_mod_cast x.den_pos
  have hdi : (0 : Int) < (x.den : Int) := by exact_mod_cast x.den_pos
  have hsign := tdiv_tmod_sign x.num x.den hdi
  have hsub := sub_trunc_eq x
  by_cases hx : 0 ≤ x
  · have hnum : 0 ≤ x.num := Rat.num_nonneg.mpr hx
    obtain ⟨ht, hr⟩ := hsign.1 hnum
    have ht1 : (0 : ℚ) ≤ ((Int.tdiv x.num x.den : Int) : ℚ) := by exact_mod_cast ht
    have hr1 : (0 : ℚ) ≤ ((Int.tmod x.num x.den : Int) : ℚ) / (x.den : ℚ) :=
      div_nonneg (by exact_mod_cast hr) (le_of_lt hd)
    rw [abs_of_nonneg ht1, abs_of_nonneg hx]
    linarith
  · have hx1 : x ≤ 0 := le_of_lt (not_le.mp hx)
    have hnum : x.num ≤ 0 := Rat.num_nonpos.mpr hx1
    obtain ⟨ht, hr⟩ := hsign.2 hnum
    have ht1 : ((Int.tdiv x.num x.den : Int) : ℚ) ≤ 0 := by exact_mod_cast ht
    have hr1 : ((Int.tmod x.num x.den : Int) : ℚ) / (x.den : ℚ) ≤ 0 :=
      div_nonpos_of_nonpos_of_nonneg (by exact_mod_cast hr) (le_of_lt hd)
    rw [abs_of_nonpos ht1, abs_of_nonpos hx1]
    linarith

/-- Truncation moves a rational by less than one. -/
theorem abs_sub_trunc_lt_one (x : ℚ) : |x - ((Int.tdiv x.num x.den : Int) : ℚ)| < 1 := by
  have hd : (0 : ℚ) < (x.den : ℚ) := by exact_mod_cast x.den_pos
  have hdi : (0 : Int) < (x.den : Int) := by exact_mod_cast x.den_pos
  have hr := abs_tmod_lt x.num x.den hdi
  have hdecomp := Int.tdiv_add_tmod x.num x.den
  have hx : x - ((Int.tdiv x.num x.den : Int) : ℚ) = ((Int.tmod x.num x.den : Int) : ℚ) / (x.den : ℚ) := by
    rw [eq_div_iff (ne_of_gt hd)]
    have h1 : x * (x.den : ℚ) = (x.num : ℚ) := Rat.mul_den_eq_num x
    have h2 : ((x.den : Int) : ℚ) * ((Int.tdiv x.num x.den : Int) : ℚ) + ((Int.tmod x.num x.den : Int) : ℚ) = (x.num : ℚ) := by
      exact_mod_cast hdecomp
    have h3 : ((x.den : Int) : ℚ) = (x.den : ℚ) := by norm_cast
    rw [h3] at h2
    linear_combination h1 - h2
  rw [hx, abs_div, abs_of_pos hd, div_lt_one hd]
  exact_mod_cast hr


/-- The conversion `(int)x` has a value when `|x| < 2^31`. -/
theorem intOfFloat_of_abs_lt (x : ℚ) (h : |x| < 2 ^ 31) :
    intOfFloat x = some (Int.tdiv x.num x.den) := by
  have ht := lt_of_le_of_lt (abs_trunc_le x) h
  rw [abs_lt] at ht
  have h1 : -2 ^ 31 ≤ Int.tdiv x.num x.den := by
    have : ((-2 ^ 31 : Int) : ℚ) < ((Int.tdiv x.num x.den : Int) : ℚ) := by
      push_cast
      exact ht.1
    exact le_of_lt (by exact_mod_cast this)
  have h2 : Int.tdiv x.num x.den < 2 ^ 31 := by
    have : ((Int.tdiv x.num x.den : Int) : ℚ) < ((2 ^ 31 : Int) : ℚ) := by
      push_cast
      exact ht.2
    exact_mod_cast this
  unfold intOfFloat
  rw [if_pos ⟨h1, h2⟩]

/-- The conversion to `float` is exact up to the magnitude `2^24`. -/
theorem roundToFloat_of_le (n : Int) (h : n.natAbs ≤ 2 ^ 24) : roundToFloat n = n := by
  rcases Nat.lt_or_eq_of_le h with hlt | heq
  · exact roundToFloat_of_lt n hlt
  · unfold roundToFloat
    rw [heq]
    have h1 : roundToBits (2 ^ 24) (excessBits 64 (2 ^ 24)) = 2 ^ 24 := by decide
    rw [h1, ← heq, Int.sign_mul_natAbs]

/-- Below `2^24` in magnitude the integer part is a float. -/
theorem integerPartIsFloat_of_abs_lt (x : ℚ) (h : |x| < 2 ^ 24) : integerPartIsFloat x := by
  have ht := lt_of_le_of_lt (abs_trunc_le x) h
  unfold integerPartIsFloat
  apply roundToFloat_of_le
  have h1 : ((Int.natAbs (Int.tdiv x.num x.den) : Nat) : ℚ) < ((2 ^ 24 : Nat) : ℚ) := by
    rw [Nat.cast_natAbs]
    push_cast
    exact ht
  exact le_of_lt (by exact_mod_cast h1)

/-- C19 (amended): for a camera position whose `x` and `z` are floats of magnitude
below `2^31`, `ComputeWorldMatrix` returns the scale `gridSpacing` with the
translation `(tx * gridSpacing, 0, tz * gridSpacing)`, where the integers `tx` and
`tz` are `x` and `z` truncated toward zero: they are not larger in magnitude and
differ by less than one; and the result does not depend on the height `y`. -/
theorem ComputeWorldMatrix_spec (p : Vector3) (hx : |p.x| < 2 ^ 31) (hz : |p.z| < 2 ^ 31)
    (hfx : integerPartIsFloat p.x) (hfz : integerPartIsFloat p.z) :
    ∃ tx tz : Int,
      ComputeWorldMatrix p = some
        { scale := gridSpacing
          translation := ⟨(tx : ℚ) * gridSpacing, 0, (tz : ℚ) * gridSpacing⟩ } ∧
      |(tx : ℚ)| ≤ |p.x| ∧ |p.x - (tx : ℚ) * gridSpacing| < 1 ∧
      |(tz : ℚ)| ≤ |p.z| ∧ |p.z - (tz : ℚ) * gridSpacing| < 1 ∧
      ∀ y : ℚ, ComputeWorldMatrix ⟨p.x, y, p.z⟩ = ComputeWorldMatrix p := by
  refine ⟨Int.tdiv p.x.num p.x.den, Int.tdiv p.z.num p.z.den, ?_, abs_trunc_le p.x, ?_,
    abs_trunc_le p.z, ?_, fun y => rfl⟩
  · unfold ComputeWorldMatrix
    simp only [gridSpacing, div_one, mul_one]
    rw [intOfFloat_of_abs_lt p.x hx, intOfFloat_of_abs_lt p.z hz]
    unfold integerPartIsFloat at hfx hfz
    simp only [floatOfInt, hfx, hfz]
  · simpa [gridSpacing] using abs_sub_trunc_lt_one p.x
  · simpa [gridSpacing] using abs_sub_trunc_lt_one p.z

/-- C19 (counterexample): at the camera position `(2147483648, 0, 0)` the conversion
`(int)(x / gridSpacing)` has no value, the truncated value `2^31` not being an
`int`: `ComputeWorldMatrix` yields no translation. -/
theorem ComputeWorldMatrix_undefined :
    ComputeWorldMatrix ⟨2147483648, 0, 0⟩ = none := by
  norm_num [ComputeWorldMatrix, intOfFloat, gridSpacing]

/-- Witness of the amended C19 at the camera position `(5/2, 7, -7/2)`. -/
theorem ComputeWorldMatrix_spec_witness :
    |(5 / 2 : ℚ)| < 2 ^ 31 ∧ |(-7 / 2 : ℚ)| < 2 ^ 31 ∧
    integerPartIsFloat (5 / 2) ∧ integerPartIsFloat (-7 / 2) ∧
    ∃ tx tz : Int,
      ComputeWorldMatrix ⟨5 / 2, 7, -7 / 2⟩ = some
        { scale := gridSpacing
          translation := ⟨(tx : ℚ) * gridSpacing, 0, (tz : ℚ) * gridSpacing⟩ } ∧
      |(tx : ℚ)| ≤ |(5 / 2 : ℚ)| ∧ |(5 / 2 : ℚ) - (tx : ℚ) * gridSpacing| < 1 ∧
      |(tz : ℚ)| ≤ |(-7 / 2 : ℚ)| ∧ |(-7 / 2 : ℚ) - (tz : ℚ) * gridSpacing| < 1 ∧
      ∀ y : ℚ, ComputeWorldMatrix ⟨5 / 2, y, -7 / 2⟩ = ComputeWorldMatrix ⟨5 / 2, 7, -7 / 2⟩ :=
  ⟨by norm_num [abs_lt], by norm_num [abs_lt],
    integerPartIsFloat_of_abs_lt _ (by norm_num [abs_lt]),
    integerPartIsFloat_of_abs_lt _ (by norm_num [abs_lt]),
    ComputeWorldMatrix_spec ⟨5 / 2, 7, -7 / 2⟩ (by norm_num [abs_lt]) (by norm_num [abs_lt])
      (integerPartIsFloat_of_abs_lt _ (by norm_num [abs_lt]))
      (integerPartIsFloat_of_abs_lt _ (by norm_num [abs_lt]))⟩

/-! ### Rendering a frame -/

/-- Dropping the old commands from the command list after `emit` leaves the new
ones. -/
theorem newCommands_emit (s : Renderer) (commands : List Command) :
    newCommands s (emit s commands) = commands := by
  simp [newCommands, emit]

/-- C13: with the device initialised and no camera set, `Render` returns a state in
which the device has received exactly one call more, `Clear` with the colour
`(0, 0, 0, 1)`: no `Draw`, no `DrawIndexed` and no pass event is among the new
calls, and nothing else has changed. -/
theorem Render_without_camera (s : Renderer) (hrhi : s.m_rhi = true)
    (hinit : s.rhi.initialized = true) (hcam : s.m_camera = none) :
    ∃ s1, Render s = some s1 ∧ sameSetup s s1 ∧
      newCommands s s1 = [Command.Clear { x := 0, y := 0, z := 0, w := 1 }] ∧
      (newCommands s s1).filter isDraw = [] ∧ eventBegins (newCommands s s1) = [] := by
  refine ⟨emit s [Command.Clear { x := 0, y := 0, z := 0, w := 1 }], ?_, ?_, ?_, ?_, ?_⟩
  · simp [Render, hrhi, hinit, hcam]
  · exact ⟨⟨rfl, rfl, rfl, rfl, rfl, rfl, rfl, rfl, rfl, rfl, rfl, rfl, rfl, rfl, rfl, rfl,
      rfl⟩, rfl, rfl⟩
  · exact newCommands_emit s _
  · rw [newCommands_emit]; rfl
  · rw [newCommands_emit]; rfl

/-- Witness of C13 on an initialised renderer without camera. -/
theorem Render_without_camera_witness :
    (readyRenderer 0 [] [] none none).m_rhi = true ∧
    (readyRenderer 0 [] [] none none).rhi.initialized = true ∧
    (readyRenderer 0 [] [] none none).m_camera = none ∧
    ∃ s1, Render (readyRenderer 0 [] [] none none) = some s1 ∧
      sameSetup (readyRenderer 0 [] [] none none) s1 ∧
      newCommands (readyRenderer 0 [] [] none none) s1 =
        [Command.Clear { x := 0, y := 0, z := 0, w := 1 }] ∧
      (newCommands (readyRenderer 0 [] [] none none) s1).filter isDraw = [] ∧
      eventBegins (newCommands (readyRenderer 0 [] [] none none) s1) = [] :=
  ⟨rfl, rfl, rfl, Render_without_camera (readyRenderer 0 [] [] none none) rfl rfl rfl⟩

/-- C17 (counterexample): on a renderer that has no device pointer yet and whose
device is not initialised, `Initialize` returns `false` and leaves a state that is
not the one it was given: `m_rhi` now points to the device. -/
theorem Initialize_sets_m_rhi :
    (blankRenderer 0 0).rhi.initialized = false ∧
    (Initialize (blankRenderer 0 0)).1 = false ∧
    (blankRenderer 0 0).m_rhi = false ∧
    (Initialize (blankRenderer 0 0)).2.m_rhi = true ∧
    (Initialize (blankRenderer 0 0)).2 ≠ blankRenderer 0 0 := by
  decide

/-- C17 (amended): when the device is not initialised, `Initialize` returns `false`
and changes nothing but the member `m_rhi`, which it sets to the device before it
tests it, and `Render` returns the state it was given: no command reaches the
device, no resource and no render target is created. -/
theorem not_initialised_no_effect (s : Renderer) (hinit : s.rhi.initialized = false) :
    (Initialize s).1 = false ∧
    (Initialize s).2 = { s with m_rhi := true } ∧
    (Initialize s).2.rhi = s.rhi ∧
    (Initialize s).2.m_resources = s.m_resources ∧
    renderTargets (Initialize s).2 = renderTargets s ∧
    (Initialize s).2.m_quad = s.m_quad ∧
    (Initialize s).2.allocated = s.allocated ∧
    Render s = some s := by
  have h : Initialize s = (false, { s with m_rhi := true }) := by
    simp [Initialize, hinit]
  rw [h]
  refine ⟨rfl, rfl, rfl, rfl, rfl, rfl, rfl, ?_⟩
  simp [Render, hinit]

/-- Witness of the amended C17 on a renderer before `Initialize`. -/
theorem not_initialised_no_effect_witness :
    (blankRenderer 1920 1080).rhi.initialized = false ∧
    (Initialize (blankRenderer 1920 1080)).1 = false ∧
    (Initialize (blankRenderer 1920 1080)).2 = { blankRenderer 1920 1080 with m_rhi := true } ∧
    (Initialize (blankRenderer 1920 1080)).2.rhi = (blankRenderer 1920 1080).rhi ∧
    (Initialize (blankRenderer 1920 1080)).2.m_resources =
      (blankRenderer 1920 1080).m_resources ∧
    renderTargets (Initialize (blankRenderer 1920 1080)).2 =
      renderTargets (blankRenderer 1920 1080) ∧
    (Initialize (blankRenderer 1920 1080)).2.m_quad = (blankRenderer 1920 1080).m_quad ∧
    (Initialize (blankRenderer 1920 1080)).2.allocated = (blankRenderer 1920 1080).allocated ∧
    Render (blankRenderer 1920 1080) = some (blankRenderer 1920 1080) :=
  ⟨rfl, not_initialised_no_effect (blankRenderer 1920 1080) rfl⟩

/-! ### The events and render targets of the passes -/

/-- The events begun in two command lists one after the other. -/
theorem eventBegins_append (a b : List Command) :
    eventBegins (a ++ b) = eventBegins a ++ eventBegins b := by
  simp [eventBegins]

/-- The render targets set in two command lists one after the other. -/
theorem renderTargetCalls_append (a b : List Command) :
    renderTargetCalls (a ++ b) = renderTargetCalls a ++ renderTargetCalls b := by
  simp [renderTargetCalls]

/-- The calls of `SetRenderTarget` begin no event. -/
theorem eventBegins_SetRenderTarget (s : Renderer) (t : Option D3D11_RenderTexture)
    (clear : Bool) : eventBegins (SetRenderTarget s t clear) = [] := by
  cases t <;> cases clear <;> simp [SetRenderTarget, eventBegins, eventOf]

/-- The function `SetRenderTarget` on a render texture makes that texture the render
target. -/
theorem renderTargetCalls_SetRenderTarget (s : Renderer) (t : D3D11_RenderTexture)
    (clear : Bool) : renderTargetCalls (SetRenderTarget s (some t) clear) = [t.id] := by
  cases clear <;> simp [SetRenderTarget, renderTargetCalls, targetOf]

/-- A full-screen draw begins no event. -/
theorem eventBegins_fullScreenDraw (s : Renderer) (shader : Shader) (i : ShaderResource)
    (o : Option D3D11_RenderTexture) : eventBegins (fullScreenDraw s shader i o) = [] := by
  simp [fullScreenDraw, eventBegins_append, eventBegins_SetRenderTarget]
  simp [eventBegins, eventOf]

/-- A full-screen draw into a render texture sets that texture, and no other, as
the render target. -/
theorem renderTargetCalls_fullScreenDraw (s : Renderer) (shader : Shader) (i : ShaderResource)
    (o : D3D11_RenderTexture) :
    renderTargetCalls (fullScreenDraw s shader i (some o)) = [o.id] := by
  simp [fullScreenDraw, renderTargetCalls_append, renderTargetCalls_SetRenderTarget]
  simp [renderTargetCalls, targetOf]

/-- The body of the inner loop of the depth pass begins no event. -/
theorem eventBegins_depthActor (bound : Nat) (actor : Actor) :
    eventBegins (depthActor bound actor).2 = [] := by
  unfold depthActor
  split
  · rfl
  · split
    · rfl
    · split
      · rfl
      · split_ifs <;> simp [eventBegins, eventOf]

/-- The inner loop of the depth pass begins no event. -/
theorem eventBegins_depthActors (actors : List Actor) :
    ∀ bound, eventBegins (depthActors bound actors).2 = [] := by
  induction actors with
  | nil => intro bound; rfl
  | cons a rest ih =>
    intro bound
    simp only [depthActors, eventBegins_append, eventBegins_depthActor, ih, List.append_nil]

/-- The outer loop of the depth pass begins one event per shadow map. -/
theorem eventBegins_depthCascades (light : Light) (renderables : List Actor)
    (indices : List Nat) :
    ∀ bound, eventBegins (depthCascades light renderables bound indices).2 =
      indices.map EventName.Pass_ShadowMap := by
  induction indices with
  | nil => intro bound; rfl
  | cons i rest ih =>
    intro bound
    simp only [depthCascades, eventBegins_append, eventBegins_depthActors, ih, List.map_cons]
    simp [eventBegins, eventOf]

/-- The body of the inner loop of the depth pass sets no render texture as target. -/
theorem renderTargetCalls_depthActor (bound : Nat) (actor : Actor) :
    renderTargetCalls (depthActor bound actor).2 = [] := by
  unfold depthActor
  split
  · rfl
  · split
    · rfl
    · split
      · rfl
      · split_ifs <;> simp [renderTargetCalls, targetOf]

/-- The inner loop of the depth pass sets no render texture as target. -/
theorem renderTargetCalls_depthActors (actors : List Actor) :
    ∀ bound, renderTargetCalls (depthActors bound actors).2 = [] := by
  induction actors with
  | nil => intro bound; rfl
  | cons a rest ih =>
    intro bound
    simp only [depthActors, renderTargetCalls_append, renderTargetCalls_depthActor, ih,
      List.append_nil]

/-- The outer loop of the depth pass sets no render texture as target: it renders
into the shadow maps. -/
theorem renderTargetCalls_depthCascades (light : Light) (renderables : List Actor)
    (indices : List Nat) :
    ∀ bound, renderTargetCalls (depthCascades light renderables bound indices).2 = [] := by
  induction indices with
  | nil => intro bound; rfl
  | cons i rest ih =>
    intro bound
    simp only [depthCascades, renderTargetCalls_append, renderTargetCalls_depthActors, ih]
    simp [renderTargetCalls, targetOf]

/-- The body of the loop of `Pass_GBuffer` begins no event. -/
theorem eventBegins_gbufferActor (bound : BoundState) (actor : Actor) :
    eventBegins (gbufferActor bound actor).2 = [] := by
  unfold gbufferActor
  split
  · rfl
  · split
    · rfl
    · split
      · split_ifs <;> simp [eventBegins, eventOf]
      · rfl

/-- The body of the loop of `Pass_GBuffer` sets no render texture as target. -/
theorem renderTargetCalls_gbufferActor (bound : BoundState) (actor : Actor) :
    renderTargetCalls (gbufferActor bound actor).2 = [] := by
  unfold gbufferActor
  split
  · rfl
  · split
    · rfl
    · split
      · split_ifs <;> simp [renderTargetCalls, targetOf]
      · rfl

/-- The loop of `Pass_GBuffer` begins no event. -/
theorem eventBegins_gbufferActors (actors : List Actor) :
    ∀ bound, eventBegins (gbufferActors bound actors).2 = [] := by
  induction actors with
  | nil => intro bound; rfl
  | cons a rest ih =>
    intro bound
    simp only [gbufferActors, eventBegins_append, eventBegins_gbufferActor, ih, List.append_nil]

/-- The loop of `Pass_GBuffer` sets no render texture as target. -/
theorem renderTargetCalls_gbufferActors (actors : List Actor) :
    ∀ bound, renderTargetCalls (gbufferActors bound actors).2 = [] := by
  induction actors with
  | nil => intro bound; rfl
  | cons a rest ih =>
    intro bound
    simp only [gbufferActors, renderTargetCalls_append, renderTargetCalls_gbufferActor, ih,
      List.append_nil]

/-- Binding and clearing the G-buffer begins no event and goes through none of the
render-texture calls. -/
theorem eventBegins_GBuffer (g : GBuffer) (rhi : RHI) :
    eventBegins (g.SetAsRenderTarget rhi) = [] ∧ eventBegins (g.Clear rhi) = [] ∧
    renderTargetCalls (g.SetAsRenderTarget rhi) = [] ∧ renderTargetCalls (g.Clear rhi) = [] := by
  unfold GBuffer.SetAsRenderTarget GBuffer.Clear
  refine ⟨?_, ?_, ?_, ?_⟩ <;> split_ifs <;>
    simp [eventBegins, eventOf, renderTargetCalls, targetOf] <;>
    (repeat' constructor) <;> split_ifs <;> rfl

/-- The event and the render target of `Pass_Correction`. -/
theorem trace_Pass_Correction (s : Renderer) (i : ShaderResource) (o : D3D11_RenderTexture) :
    eventBegins (Pass_Correction s i (some o)) = [EventName.Pass_Correction] ∧
    renderTargetCalls (Pass_Correction s i (some o)) = [o.id] := by
  constructor
  · simp only [Pass_Correction, eventBegins_append, eventBegins_fullScreenDraw]
    rfl
  · simp only [Pass_Correction, renderTargetCalls_append, renderTargetCalls_fullScreenDraw]
    rfl

/-- The event and the render target of `Pass_FXAA`. -/
theorem trace_Pass_FXAA (s : Renderer) (i : ShaderResource) (o : D3D11_RenderTexture) :
    eventBegins (Pass_FXAA s i (some o)) = [EventName.Pass_FXAA] ∧
    renderTargetCalls (Pass_FXAA s i (some o)) = [o.id] := by
  constructor
  · simp only [Pass_FXAA, eventBegins_append, eventBegins_fullScreenDraw]
    rfl
  · simp only [Pass_FXAA, renderTargetCalls_append, renderTargetCalls_fullScreenDraw]
    rfl

/-- The event and the render target of `Pass_ChromaticAberration`. -/
theorem trace_Pass_ChromaticAberration (s : Renderer) (i : ShaderResource)
    (o : D3D11_RenderTexture) :
    eventBegins (Pass_ChromaticAberration s i (some o)) =
      [EventName.Pass_ChromaticAberration] ∧
    renderTargetCalls (Pass_ChromaticAberration s i (some o)) = [o.id] := by
  constructor
  · simp only [Pass_ChromaticAberration, eventBegins_append, eventBegins_fullScreenDraw]
    rfl
  · simp only [Pass_ChromaticAberration, renderTargetCalls_append,
      renderTargetCalls_fullScreenDraw]
    rfl

/-- The event and the render target of `Pass_Sharpening`. -/
theorem trace_Pass_Sharpening (s : Renderer) (i : ShaderResource) (o : D3D11_RenderTexture) :
    eventBegins (Pass_Sharpening s i (some o)) = [EventName.Pass_Sharpening] ∧
    renderTargetCalls (Pass_Sharpening s i (some o)) = [o.id] := by
  constructor
  · simp only [Pass_Sharpening, eventBegins_append, eventBegins_fullScreenDraw]
    rfl
  · simp only [Pass_Sharpening, renderTargetCalls_append, renderTargetCalls_fullScreenDraw]
    rfl

/-- The event and the render target of `Pass_Blur`. -/
theorem trace_Pass_Blur (s : Renderer) (i : ShaderResource) (o : D3D11_RenderTexture) :
    eventBegins (Pass_Blur s i (some o)) = [EventName.Pass_Blur] ∧
    renderTargetCalls (Pass_Blur s i (some o)) = [o.id] := by
  constructor
  · simp only [Pass_Blur, eventBegins_append, eventBegins_fullScreenDraw]
    rfl
  · simp only [Pass_Blur, renderTargetCalls_append, renderTargetCalls_fullScreenDraw]
    rfl

/-- The event and the render targets of `Pass_Bloom`: the spare texture and the
output, twice each, the output last. -/
theorem trace_Pass_Bloom (s : Renderer) (src spare out : D3D11_RenderTexture) :
    eventBegins (Pass_Bloom s src spare out) = [EventName.Pass_Bloom] ∧
    renderTargetCalls (Pass_Bloom s src spare out) = [spare.id, out.id, spare.id, out.id] := by
  constructor
  · simp only [Pass_Bloom, eventBegins_append, eventBegins_fullScreenDraw,
      eventBegins_SetRenderTarget]
    rfl
  · simp only [Pass_Bloom, renderTargetCalls_append, renderTargetCalls_fullScreenDraw,
      renderTargetCalls_SetRenderTarget]
    rfl

/-- The event and the render target of `Pass_Shadowing`, which does nothing without
a directional light. -/
theorem trace_Pass_Shadowing (s : Renderer) (n d z : ShaderResource) (light : Option Light)
    (o : D3D11_RenderTexture) :
    eventBegins (Pass_Shadowing s n d z light (some o)) =
      (if light.isSome then [EventName.Pass_Shadowing] else []) ∧
    renderTargetCalls (Pass_Shadowing s n d z light (some o)) =
      (if light.isSome then [o.id] else []) := by
  cases light with
  | none => simp [Pass_Shadowing, eventBegins, renderTargetCalls]
  | some l =>
    constructor
    · simp only [Pass_Shadowing, eventBegins_append, eventBegins_SetRenderTarget]
      rfl
    · simp only [Pass_Shadowing, renderTargetCalls_append, renderTargetCalls_SetRenderTarget]
      rfl

/-- The gizmo of one light begins no event and sets no render target. -/
theorem trace_lightGizmo (s : Renderer) (light : Light) :
    eventBegins (lightGizmo s light) = [] ∧ renderTargetCalls (lightGizmo s light) = [] := by
  unfold lightGizmo
  split_ifs <;> simp [eventBegins, eventOf, renderTargetCalls, targetOf]

/-- The gizmos of the lights begin no event and set no render target. -/
theorem trace_lightGizmos (s : Renderer) (lights : List Light) :
    eventBegins (lights.flatMap (lightGizmo s)) = [] ∧
    renderTargetCalls (lights.flatMap (lightGizmo s)) = [] := by
  induction lights with
  | nil => exact ⟨rfl, rfl⟩
  | cons l rest ih =>
    simp only [List.flatMap_cons, eventBegins_append, renderTargetCalls_append,
      (trace_lightGizmo s l).1, (trace_lightGizmo s l).2, ih.1, ih.2, List.append_nil,
      and_self]

/-- The blocks of `Pass_Debug` begin no pass and no post-light stage and set no
render target. -/
theorem trace_debug (s : Renderer) (g : GBuffer) (r : FrameResources) :
    passBegins (debugLines s g ++ [Command.EnableAlphaBlending true] ++ debugGrid s g r ++
      debugGizmos s ++ debugMetrics s) = [] ∧
    stageBegins (debugLines s g ++ [Command.EnableAlphaBlending true] ++ debugGrid s g r ++
      debugGizmos s ++ debugMetrics s) = [] ∧
    renderTargetCalls (debugLines s g ++ [Command.EnableAlphaBlending true] ++
      debugGrid s g r ++ debugGizmos s ++ debugMetrics s) = [] := by
  have hl : eventBegins (debugLines s g) = [] ∨
      eventBegins (debugLines s g) = [EventName.Lines] := by
    unfold debugLines
    split
    · left; rfl
    · split_ifs
      · right; simp [eventBegins, eventOf]
      · left; rfl
  have hlt : renderTargetCalls (debugLines s g) = [] := by
    unfold debugLines
    split
    · rfl
    · split_ifs <;> simp [renderTargetCalls, targetOf]
  have hg : eventBegins (debugGrid s g r) = [] ∨
      eventBegins (debugGrid s g r) = [EventName.Grid] := by
    unfold debugGrid
    split_ifs
    · right; simp [eventBegins, eventOf]
    · left; rfl
  have hgt : renderTargetCalls (debugGrid s g r) = [] := by
    unfold debugGrid
    split_ifs <;> simp [renderTargetCalls, targetOf]
  have hz : eventBegins (debugGizmos s) = [EventName.Gizmos] ∨
      eventBegins (debugGizmos s) = [EventName.Gizmos, EventName.Lights] := by
    unfold debugGizmos
    split_ifs
    · right
      simp only [eventBegins_append, (trace_lightGizmos s s.m_lights).1]
      simp [eventBegins, eventOf]
    · left; simp [eventBegins, eventOf]
  have hzt : renderTargetCalls (debugGizmos s) = [] := by
    unfold debugGizmos
    split_ifs
    · simp only [renderTargetCalls_append, (trace_lightGizmos s s.m_lights).2]
      simp [renderTargetCalls, targetOf]
    · simp [renderTargetCalls, targetOf]
  have hm : eventBegins (debugMetrics s) = [] ∧ renderTargetCalls (debugMetrics s) = [] := by
    unfold debugMetrics
    split_ifs <;> simp [eventBegins, eventOf, renderTargetCalls, targetOf]
  have he : eventBegins [Command.EnableAlphaBlending true] = [] := rfl
  have ht : renderTargetCalls [Command.EnableAlphaBlending true] = [] := rfl
  refine ⟨?_, ?_, ?_⟩
  · simp only [passBegins, eventBegins_append, he, hm.1]
    rcases hl with h1 | h1 <;> rcases hg with h2 | h2 <;> rcases hz with h3 | h3 <;>
      rw [h1, h2, h3] <;> rfl
  · simp only [stageBegins, eventBegins_append, he, hm.1]
    rcases hl with h1 | h1 <;> rcases hg with h2 | h2 <;> rcases hz with h3 | h3 <;>
      rw [h1, h2, h3] <;> rfl
  · simp only [renderTargetCalls_append, hlt, hgt, hzt, hm.2, ht, List.append_nil]

/-! ### The nesting of the events -/

/-- The number of open events after two command lists one after the other. -/
theorem nesting_append (a b : List Command) :
    ∀ depth, nesting depth (a ++ b) = nesting (nesting depth a) b := by
  induction a with
  | nil => intro depth; rfl
  | cons x rest ih => intro depth; cases x <;> simp [nesting, ih]

/-- The outermost events of two command lists one after the other. -/
theorem outerEvents_append (a b : List Command) :
    ∀ depth, outerEvents depth (a ++ b) =
      outerEvents depth a ++ outerEvents (nesting depth a) b := by
  induction a with
  | nil => intro depth; rfl
  | cons x rest ih => intro depth; cases x <;> simp [nesting, outerEvents, ih]

/-- A command list that neither begins nor ends an event is bracketed. -/
theorem Bracketed_of_flat (c : List Command) (h : ∀ x ∈ c, isMark x = false) :
    Bracketed c [] := by
  induction c with
  | nil => intro depth; exact ⟨rfl, by simp [outerEvents]⟩
  | cons x rest ih =>
    intro depth
    have hx := h x (List.mem_cons_self _ _)
    have hr := ih (fun y hy => h y (List.mem_cons_of_mem _ hy)) depth
    cases x <;> first
      | exact hr
      | simp [isMark] at hx

/-- The empty command list is bracketed. -/
theorem Bracketed_nil : Bracketed [] [] := Bracketed_of_flat [] (by simp)

/-- Two bracketed command lists one after the other are bracketed, and their
outermost events follow each other. -/
theorem Bracketed_append (a b : List Command) (E F : List EventName)
    (ha : Bracketed a E) (hb : Bracketed b F) : Bracketed (a ++ b) (E ++ F) := by
  intro depth
  rw [nesting_append, outerEvents_append, (ha depth).1, (ha depth).2, (hb depth).1,
    (hb depth).2]
  refine ⟨rfl, ?_⟩
  split_ifs <;> simp

/-- A bracketed command list between `EventBegin name` and `EventEnd` is bracketed,
and `name` is its one outermost event. -/
theorem Bracketed_wrap (name : EventName) (m : List Command) (E : List EventName)
    (hm : Bracketed m E) :
    Bracketed (Command.EventBegin name :: (m ++ [Command.EventEnd])) [name] := by
  intro depth
  show nesting (depth + 1) (m ++ [Command.EventEnd]) = depth ∧
    (if depth = 0 then [name] else []) ++ outerEvents (depth + 1) (m ++ [Command.EventEnd]) =
      if depth = 0 then [name] else []
  rw [nesting_append, outerEvents_append, (hm _).1, (hm _).2]
  refine ⟨rfl, ?_⟩
  simp [outerEvents]
/-- Two command lists without event calls give one without event calls. -/
theorem flat_append (a b : List Command) (ha : ∀ x ∈ a, isMark x = false)
    (hb : ∀ x ∈ b, isMark x = false) : ∀ x ∈ a ++ b, isMark x = false := by
  intro x hx
  rcases List.mem_append.1 hx with h | h
  · exact ha x h
  · exact hb x h

/-- The calls of `SetRenderTarget` neither begin nor end an event. -/
theorem flat_SetRenderTarget (s : Renderer) (t : Option D3D11_RenderTexture) (clear : Bool) :
    ∀ x ∈ SetRenderTarget s t clear, isMark x = false := by
  cases t <;> cases clear <;> simp [SetRenderTarget, isMark]

/-- A full-screen draw neither begins nor ends an event. -/
theorem flat_fullScreenDraw (s : Renderer) (shader : Shader) (i : ShaderResource)
    (o : Option D3D11_RenderTexture) : ∀ x ∈ fullScreenDraw s shader i o, isMark x = false := by
  unfold fullScreenDraw
  exact flat_append _ _ (flat_SetRenderTarget s o false) (by simp [isMark])

/-- The body of the inner loop of the depth pass neither begins nor ends an event. -/
theorem flat_depthActor (bound : Nat) (actor : Actor) :
    ∀ x ∈ (depthActor bound actor).2, isMark x = false := by
  unfold depthActor
  split
  · simp
  · split
    · simp
    · split
      · simp
      · split_ifs <;> simp [isMark]

/-- The inner loop of the depth pass neither begins nor ends an event. -/
theorem flat_depthActors (actors : List Actor) :
    ∀ bound, ∀ x ∈ (depthActors bound actors).2, isMark x = false := by
  induction actors with
  | nil => intro bound; simp [depthActors]
  | cons a rest ih =>
    intro bound
    exact flat_append _ _ (flat_depthActor bound a) (ih _)

/-- The outer loop of the depth pass is bracketed: one event per shadow map, each
ended before the next begins. -/
theorem Bracketed_depthCascades (light : Light) (renderables : List Actor)
    (indices : List Nat) :
    ∀ bound, Bracketed (depthCascades light renderables bound indices).2
      (indices.map EventName.Pass_ShadowMap) := by
  induction indices with
  | nil => intro bound; exact Bracketed_nil
  | cons i rest ih =>
    intro bound
    have h1 : Bracketed [Command.ShadowMap_SetRenderTarget light.id i] [] :=
      Bracketed_of_flat _ (by simp [isMark])
    have h2 := Bracketed_wrap (EventName.Pass_ShadowMap i) _ []
      (Bracketed_of_flat _ (flat_depthActors renderables bound))
    have h3 := Bracketed_append _ _ _ _ (Bracketed_append _ _ _ _ h1 h2)
      (ih (depthActors bound renderables).1)
    simpa [depthCascades] using h3

/-- The body of the loop of `Pass_GBuffer` neither begins nor ends an event. -/
theorem flat_gbufferActor (bound : BoundState) (actor : Actor) :
    ∀ x ∈ (gbufferActor bound actor).2, isMark x = false := by
  unfold gbufferActor
  split
  · simp
  · split
    · simp
    · split
      · split_ifs <;> simp [isMark]
      · simp

/-- The loop of `Pass_GBuffer` neither begins nor ends an event. -/
theorem flat_gbufferActors (actors : List Actor) :
    ∀ bound, ∀ x ∈ (gbufferActors bound actors).2, isMark x = false := by
  induction actors with
  | nil => intro bound; simp [gbufferActors]
  | cons a rest ih =>
    intro bound
    exact flat_append _ _ (flat_gbufferActor bound a) (ih _)

/-- Binding and clearing the G-buffer neither begins nor ends an event. -/
theorem flat_GBuffer (g : GBuffer) (rhi : RHI) :
    (∀ x ∈ g.SetAsRenderTarget rhi, isMark x = false) ∧
    (∀ x ∈ g.Clear rhi, isMark x = false) := by
  unfold GBuffer.SetAsRenderTarget GBuffer.Clear
  constructor
  · split_ifs <;> simp [isMark]
  · intro x hx
    split_ifs at hx
    · simp at hx
    · obtain ⟨t, -, rfl⟩ := List.mem_map.1 hx
      split_ifs <;> rfl

/-- The calls of `Pass_Correction` are one event. -/
theorem Bracketed_Pass_Correction (s : Renderer) (i : ShaderResource)
    (o : Option D3D11_RenderTexture) :
    Bracketed (Pass_Correction s i o) [EventName.Pass_Correction] :=
  Bracketed_wrap _ _ [] (Bracketed_of_flat _ (flat_fullScreenDraw s _ i o))

/-- The calls of `Pass_FXAA` are one event. -/
theorem Bracketed_Pass_FXAA (s : Renderer) (i : ShaderResource)
    (o : Option D3D11_RenderTexture) : Bracketed (Pass_FXAA s i o) [EventName.Pass_FXAA] :=
  Bracketed_wrap _ _ [] (Bracketed_of_flat _ (flat_fullScreenDraw s _ i o))

/-- The calls of `Pass_ChromaticAberration` are one event. -/
theorem Bracketed_Pass_ChromaticAberration (s : Renderer) (i : ShaderResource)
    (o : Option D3D11_RenderTexture) :
    Bracketed (Pass_ChromaticAberration s i o) [EventName.Pass_ChromaticAberration] :=
  Bracketed_wrap _ _ [] (Bracketed_of_flat _ (flat_fullScreenDraw s _ i o))

/-- The calls of `Pass_Sharpening` are one event. -/
theorem Bracketed_Pass_Sharpening (s : Renderer) (i : ShaderResource)
    (o : Option D3D11_RenderTexture) :
    Bracketed (Pass_Sharpening s i o) [EventName.Pass_Sharpening] :=
  Bracketed_wrap _ _ [] (Bracketed_of_flat _ (flat_fullScreenDraw s _ i o))

/-- The calls of `Pass_Blur` are one event. -/
theorem Bracketed_Pass_Blur (s : Renderer) (i : ShaderResource)
    (o : Option D3D11_RenderTexture) : Bracketed (Pass_Blur s i o) [EventName.Pass_Blur] :=
  Bracketed_wrap _ _ [] (Bracketed_of_flat _ (flat_fullScreenDraw s _ i o))

/-- The calls of `Pass_Bloom` are one event. -/
theorem Bracketed_Pass_Bloom (s : Renderer) (src spare out : D3D11_RenderTexture) :
    Bracketed (Pass_Bloom s src spare out) [EventName.Pass_Bloom] := by
  have h := Bracketed_wrap EventName.Pass_Bloom _ []
    (Bracketed_of_flat _
      (flat_append _ _
        (flat_append _ _
          (flat_append _ _
            (flat_append _ _
              (flat_fullScreenDraw s Shader.m_shaderBloom_Bright
                (ShaderResource.renderTexture src.id) (some spare))
              (flat_fullScreenDraw s Shader.m_shaderBlurGaussianH
                (ShaderResource.renderTexture spare.id) (some out)))
            (flat_fullScreenDraw s Shader.m_shaderBlurGaussianV
              (ShaderResource.renderTexture out.id) (some spare)))
          (flat_SetRenderTarget s (some out) false))
        (show ∀ x ∈ [Command.Shader_Bind Shader.m_shaderBloom_BlurBlend,
            Command.Shader_Bind_Buffer Shader.m_shaderBloom_BlurBlend,
            Command.Bind_Sampler 0 Sampler.m_samplerLinearWrapAlways,
            Command.Bind_Texture 0 (some (ShaderResource.renderTexture src.id)),
            Command.Bind_Texture 1 (some (ShaderResource.renderTexture spare.id)),
            Command.DrawIndexed s.external.quadIndexCount 0 0], isMark x = false by
          simp [isMark])))
  simpa [Pass_Bloom] using h

/-- The calls of `Pass_Shadowing` are one event, or none without a directional
light. -/
theorem Bracketed_Pass_Shadowing (s : Renderer) (n d z : ShaderResource)
    (light : Option Light) (o : Option D3D11_RenderTexture) :
    Bracketed (Pass_Shadowing s n d z light o)
      (if light.isSome then [EventName.Pass_Shadowing] else []) := by
  cases light with
  | none => exact Bracketed_nil
  | some l =>
    have h := Bracketed_wrap EventName.Pass_Shadowing _ []
      (Bracketed_of_flat _
        (flat_append _ _ (flat_SetRenderTarget s o false)
          (show ∀ x ∈ [Command.Shader_Bind Shader.m_shaderShadowing,
              Command.Shader_Bind_Buffer Shader.m_shaderShadowing,
              Command.Bind_Sampler 0 Sampler.m_samplerPointClampGreater,
              Command.Bind_Sampler 1 Sampler.m_samplerLinearClampGreater,
              Command.Bind_Textures
                [some n, some d, some z, some (ShaderResource.shadowMap l.id 0),
                  some (ShaderResource.shadowMap l.id 1),
                  some (ShaderResource.shadowMap l.id 2)],
              Command.DrawIndexed s.external.quadIndexCount 0 0], isMark x = false by
            simp [isMark])))
    simpa [Pass_Shadowing] using h

/-- The gizmos of the lights neither begin nor end an event. -/
theorem flat_lightGizmos (s : Renderer) (lights : List Light) :
    ∀ x ∈ lights.flatMap (lightGizmo s), isMark x = false := by
  intro x hx
  obtain ⟨l, -, hl⟩ := List.mem_flatMap.1 hx
  unfold lightGizmo at hl
  split_ifs at hl <;> simp at hl
  rcases hl with h | h | h | h | h | h | h | h <;> subst h <;> rfl

/-- The blocks of `Pass_Debug` end every event they begin. -/
theorem Bracketed_debug (s : Renderer) (g : GBuffer) (r : FrameResources) :
    ∃ E, Bracketed (debugLines s g ++ [Command.EnableAlphaBlending true] ++ debugGrid s g r ++
      debugGizmos s ++ debugMetrics s) E := by
  have hl : ∃ E, Bracketed (debugLines s g) E := by
    unfold debugLines
    split
    · exact ⟨_, Bracketed_nil⟩
    · split_ifs
      · exact ⟨_, Bracketed_wrap EventName.Lines _ [] (Bracketed_of_flat
          [Command.LineRenderer_SetBuffer,
            Command.Shader_Bind Shader.m_shaderLine, Command.Shader_Bind_Buffer Shader.m_shaderLine,
            Command.Set_PrimitiveTopology PrimitiveTopology.PrimitiveTopology_LineList,
            Command.Bind_Sampler 0 Sampler.m_samplerLinearWrapAlways,
            Command.Bind_Texture 0
              (some (ShaderResource.renderTexture g.GBuffer_Target_Depth.id)),
            Command.Draw (debugLineVertices s)] (by simp [isMark]))⟩
      · exact ⟨_, Bracketed_nil⟩
  have hg : ∃ E, Bracketed (debugGrid s g r) E := by
    unfold debugGrid
    split_ifs
    · exact ⟨_, Bracketed_wrap EventName.Grid _ [] (Bracketed_of_flat
        [Command.Grid_SetBuffer,
          Command.Shader_Bind Shader.m_shaderGrid, Command.Shader_Bind_Buffer Shader.m_shaderGrid,
          Command.Set_PrimitiveTopology PrimitiveTopology.PrimitiveTopology_LineList,
          Command.Bind_Sampler 0 Sampler.m_samplerAnisotropicWrapAlways,
          Command.Bind_Texture 0
            (some (ShaderResource.renderTexture g.GBuffer_Target_Depth.id)),
          Command.DrawIndexed r.m_grid.m_indexCount 0 0] (by simp [isMark]))⟩
    · exact ⟨_, Bracketed_nil⟩
  have hz : ∃ E, Bracketed (debugGizmos s) E := by
    unfold debugGizmos
    split_ifs
    · have h := Bracketed_wrap EventName.Gizmos _ _
        (Bracketed_wrap EventName.Lights _ [] (Bracketed_of_flat _ (flat_lightGizmos s s.m_lights)))
      exact ⟨_, by simpa using h⟩
    · exact ⟨_, Bracketed_wrap EventName.Gizmos [] [] Bracketed_nil⟩
  have hm : Bracketed (debugMetrics s) [] := by
    unfold debugMetrics
    split_ifs
    · exact Bracketed_of_flat _ (by simp [isMark])
    · exact Bracketed_nil
  obtain ⟨E1, h1⟩ := hl
  obtain ⟨E2, h2⟩ := hg
  obtain ⟨E3, h3⟩ := hz
  exact ⟨_, Bracketed_append _ _ _ _ (Bracketed_append _ _ _ _ (Bracketed_append _ _ _ _
    (Bracketed_append _ _ _ _ h1 (Bracketed_of_flat [Command.EnableAlphaBlending true]
      (by simp [isMark]))) h2) h3) hm⟩

/-! ### The passes on a ready renderer -/

/-- The passes begun in two command lists one after the other. -/
theorem passBegins_append (a b : List Command) :
    passBegins (a ++ b) = passBegins a ++ passBegins b := by
  simp [passBegins, eventBegins_append]

/-- The post-light stages begun in two command lists one after the other. -/
theorem stageBegins_append (a b : List Command) :
    stageBegins (a ++ b) = stageBegins a ++ stageBegins b := by
  simp [stageBegins, eventBegins_append]

/-- The events of the shadow maps are neither passes nor post-light stages. -/
theorem shadowMaps_filter (l : List Nat) :
    (l.map EventName.Pass_ShadowMap).filter isPass = [] ∧
    (l.map EventName.Pass_ShadowMap).filter isStage = [] := by
  induction l with
  | nil => exact ⟨rfl, rfl⟩
  | cons i rest ih => simp [List.filter_cons, isPass, isStage, ih.1, ih.2]

/-- A state has the scene of itself. -/
theorem sameScene_refl (s : Renderer) : sameScene s s :=
  ⟨rfl, rfl, rfl, rfl, rfl, rfl, rfl, rfl, rfl, rfl, rfl, rfl, rfl, rfl, rfl, rfl, rfl⟩

/-- A state has the setup of itself. -/
theorem sameSetup_refl (s : Renderer) : sameSetup s s :=
  ⟨sameScene_refl s, rfl, rfl⟩

/-- Having the same scene is transitive. -/
theorem sameScene_trans (s t u : Renderer) (h : sameScene s t) (k : sameScene t u) :
    sameScene s u := by
  obtain ⟨h1, h2, h3, h4, h5, h6, h7, h8, h9, h10, h11, h12, h13, h14, h15, h16, h17⟩ := h
  obtain ⟨k1, k2, k3, k4, k5, k6, k7, k8, k9, k10, k11, k12, k13, k14, k15, k16, k17⟩ := k
  exact ⟨k1.trans h1, k2.trans h2, k3.trans h3, k4.trans h4, k5.trans h5, k6.trans h6,
    k7.trans h7, k8.trans h8, k9.trans h9, k10.trans h10, k11.trans h11, k12.trans h12,
    k13.trans h13, k14.trans h14, k15.trans h15, k16.trans h16, k17.trans h17⟩

/-- Having the same setup is transitive. -/
theorem sameSetup_trans (s t u : Renderer) (h : sameSetup s t) (k : sameSetup t u) :
    sameSetup s u :=
  ⟨sameScene_trans s t u h.1 k.1, k.2.1.trans h.2.1, k.2.2.trans h.2.2⟩

/-- What a ready renderer holds. -/
theorem Ready_parts (s : Renderer) (h : Ready s = true) :
    s.m_rhi = true ∧ s.rhi.initialized = true ∧ (∃ r, s.m_resources = some r) ∧
    (∃ g, s.m_gbuffer = some g) ∧ (∃ q, s.m_quad = some q) ∧
    (∃ a, s.m_renderTexPing = some a) ∧ (∃ p, s.m_renderTexPing2 = some p) ∧
    (∃ b, s.m_renderTexPong = some b) ∧ (∃ t, s.m_renderTexShadowing = some t) ∧
    (∃ camera, s.m_camera = some camera ∧
      (RenderFlags_IsSet s Render_SceneGrid &&
        (ComputeWorldMatrix camera.position).isNone) = false) := by
  simp only [Ready, Bool.and_eq_true] at h
  obtain ⟨⟨⟨⟨⟨⟨⟨⟨⟨h1, h2⟩, h3⟩, h4⟩, h5⟩, h6⟩, h7⟩, h8⟩, h9⟩, h10⟩ := h
  refine ⟨h1, h2, Option.isSome_iff_exists.1 h3, Option.isSome_iff_exists.1 h4,
    Option.isSome_iff_exists.1 h5, Option.isSome_iff_exists.1 h6,
    Option.isSome_iff_exists.1 h7, Option.isSome_iff_exists.1 h8,
    Option.isSome_iff_exists.1 h9, ?_⟩
  cases hc : s.m_camera with
  | none => rw [hc] at h10; exact absurd h10 (by simp)
  | some camera =>
    rw [hc] at h10
    refine ⟨camera, rfl, ?_⟩
    cases hf : RenderFlags_IsSet s Render_SceneGrid <;>
      cases hw : ComputeWorldMatrix camera.position <;> simp_all

/-- A state with the scene of a ready one, whose ping and pong targets are there, is
ready. -/
theorem Ready_of_sameScene (s t : Renderer) (h : sameScene s t)
    (hp : t.m_renderTexPing.isSome = true) (hq : t.m_renderTexPong.isSome = true)
    (hr : Ready s = true) : Ready t = true := by
  obtain ⟨h1, h2, h3, h4, h5, h6, h7, h8, h9, h10, h11, h12, h13, h14, h15, h16, h17⟩ := h
  simp only [Ready, RenderFlags_IsSet, Bool.and_eq_true] at hr ⊢
  rw [h2, h4, h5, h7, h8, h9, h10, h16, h17, hp, hq]
  obtain ⟨⟨⟨⟨⟨⟨⟨⟨⟨k1, k2⟩, k3⟩, k4⟩, k5⟩, k6⟩, k7⟩, k8⟩, k9⟩, k10⟩ := hr
  exact ⟨⟨⟨⟨⟨⟨⟨⟨⟨k1, k2⟩, k3⟩, k4⟩, k5⟩, rfl⟩, k7⟩, rfl⟩, k9⟩, k10⟩

/-- A state with the setup of a ready one is ready. -/
theorem Ready_of_sameSetup (s t : Renderer) (h : sameSetup s t) (hr : Ready s = true) :
    Ready t = true := by
  obtain ⟨-, -, -, -, -, ⟨a, ha⟩, -, ⟨b, hb⟩, -, -⟩ := Ready_parts s hr
  exact Ready_of_sameScene s t h.1 (by rw [h.2.1, ha]; rfl) (by rw [h.2.2, hb]; rfl) hr

/-- States with the same scene have the same render flags. -/
theorem flags_of_sameScene (s t : Renderer) (h : sameScene s t) (flag : Nat) :
    RenderFlags_IsSet t flag = RenderFlags_IsSet s flag := by
  obtain ⟨h1, h2, h3, h4, h5, h6, h7, h8, h9, h10, h11, h12, h13, h14, h15, h16, h17⟩ := h
  simp only [RenderFlags_IsSet, h17]

/-- On a ready renderer `Pass_DepthDirectionalLight` returns.  Its calls are one
event `Pass_DepthDirectionalLight` when the directional light is there and casts
shadows, and none otherwise; they begin no post-light stage and set no render
texture as target. -/
theorem Pass_DepthDirectionalLight_spec (s : Renderer) (h : Ready s = true) :
    ∃ s1 c, Pass_DepthDirectionalLight s s.m_directionalLight = some s1 ∧ sameSetup s s1 ∧
      s1.rhi.commands = s.rhi.commands ++ c ∧
      passBegins c = (if castsShadows s then [EventName.Pass_DepthDirectionalLight] else []) ∧
      stageBegins c = [] ∧
      Bracketed c (if castsShadows s then [EventName.Pass_DepthDirectionalLight] else []) ∧
      renderTargetCalls c = [] := by
  obtain ⟨hrhi, -, ⟨r, hr⟩, -⟩ := Ready_parts s h
  have skip : castsShadows s = false →
      Pass_DepthDirectionalLight s s.m_directionalLight = some s →
      ∃ s1 c, Pass_DepthDirectionalLight s s.m_directionalLight = some s1 ∧ sameSetup s s1 ∧
      s1.rhi.commands = s.rhi.commands ++ c ∧
      passBegins c = (if castsShadows s then [EventName.Pass_DepthDirectionalLight] else []) ∧
      stageBegins c = [] ∧
      Bracketed c (if castsShadows s then [EventName.Pass_DepthDirectionalLight] else []) ∧
      renderTargetCalls c = [] := by
    intro hc hp
    refine ⟨s, [], hp, sameSetup_refl s, by simp, ?_, rfl, ?_, rfl⟩
    · rw [hc]; rfl
    · rw [hc]; exact Bracketed_nil
  cases hl : s.m_directionalLight with
  | none =>
    rw [← hl]
    exact skip (by simp [castsShadows, hl]) (by simp [Pass_DepthDirectionalLight, hl])
  | some l =>
    cases hc : l.castShadows with
    | false =>
      rw [← hl]
      exact skip (by simp [castsShadows, hl, hc]) (by simp [Pass_DepthDirectionalLight, hl, hc])
    | true =>
      have hcs : castsShadows s = true := by simp [castsShadows, hl, hc]
      rw [hcs]
      have hcond : (!(s.m_rhi && s.m_resources.isSome)) = false := by simp [hrhi, hr]
      apply Exists.intro
      apply Exists.intro
      refine ⟨?h1, ?h2, ?h3, ?_, ?_, ?_, ?_⟩
      case h1 =>
        simp only [Pass_DepthDirectionalLight, hc, hcond, Bool.not_true, Bool.false_eq_true,
          if_false]
        rfl
      case h2 => exact ⟨sameScene_refl s, rfl, rfl⟩
      case h3 => rfl
      · simp only [passBegins, eventBegins_append, eventBegins_depthCascades,
          List.filter_append, (shadowMaps_filter _).1]
        rfl
      · simp only [stageBegins, eventBegins_append, eventBegins_depthCascades,
          List.filter_append, (shadowMaps_filter _).2]
        rfl
      · have hb := Bracketed_wrap EventName.Pass_DepthDirectionalLight _ _
          (Bracketed_append _ _ _ _
            (Bracketed_append _ _ _ _
              (Bracketed_of_flat [Command.EnableDepth true,
                Command.Shader_Bind Shader.m_shaderLightDepth] (by simp [isMark]))
              (Bracketed_depthCascades l s.m_renderables (List.range l.shadowMapCount)
                s.m_currentlyBoundGeometry))
            (Bracketed_of_flat [Command.EnableDepth false] (by simp [isMark])))
        simpa using hb
      · simp only [renderTargetCalls_append, renderTargetCalls_depthCascades]
        rfl
/-- On a ready renderer `Pass_GBuffer` returns; its calls are one event
`Pass_GBuffer`, begin no post-light stage and set no render texture as target. -/
theorem Pass_GBuffer_spec (s : Renderer) (h : Ready s = true) :
    ∃ s1 c, Pass_GBuffer s = some s1 ∧ sameSetup s s1 ∧
      s1.rhi.commands = s.rhi.commands ++ c ∧
      passBegins c = [EventName.Pass_GBuffer] ∧ stageBegins c = [] ∧
      Bracketed c [EventName.Pass_GBuffer] ∧ renderTargetCalls c = [] := by
  obtain ⟨hrhi, -, ⟨r, hr⟩, ⟨g, hg⟩, -, -, -, -, -, ⟨camera, hcam, -⟩⟩ := Ready_parts s h
  have hcond : (!s.m_rhi) = false := by simp [hrhi]
  apply Exists.intro
  apply Exists.intro
  refine ⟨?h1, ?h2, ?h3, ?_, ?_, ?_, ?_⟩
  case h1 =>
    simp only [Pass_GBuffer, hcond, hr, hg, hcam, Bool.false_eq_true, if_false]
    rfl
  case h2 => simp [sameSetup, sameScene, emit, hr, hg, hcam]
  case h3 => rfl
  · simp only [passBegins, eventBegins_append, eventBegins_gbufferActors,
      (eventBegins_GBuffer g s.rhi).1, (eventBegins_GBuffer g s.rhi).2.1]
    rfl
  · simp only [stageBegins, eventBegins_append, eventBegins_gbufferActors,
      (eventBegins_GBuffer g s.rhi).1, (eventBegins_GBuffer g s.rhi).2.1]
    rfl
  · have hb := Bracketed_wrap EventName.Pass_GBuffer _ _
      (Bracketed_of_flat _
        (flat_append _ _
          (flat_append _ _
            (flat_append _ _ (flat_GBuffer g s.rhi).1 (flat_GBuffer g s.rhi).2)
            (show ∀ x ∈ [Command.Bind_Sampler 0 Sampler.m_samplerAnisotropicWrapAlways],
              isMark x = false by simp [isMark]))
          (flat_gbufferActors s.m_renderables
            { geometry := s.m_currentlyBoundGeometry
              shader := s.m_currentlyBoundShader
              material := s.m_currentlyBoundMaterial })))
    simpa using hb
  · simp only [renderTargetCalls_append, renderTargetCalls_gbufferActors,
      (eventBegins_GBuffer g s.rhi).2.2.1, (eventBegins_GBuffer g s.rhi).2.2.2]
    rfl

/-- On a ready renderer `Pass_PreLight`, called as in `Render`, returns; its calls are
one event `Pass_PreLight`, in which `Pass_Shadowing` renders into the ping target if
there is a directional light, and `Pass_Blur` renders into the shadowing target. -/
theorem Pass_PreLight_spec (s : Renderer) (n d z : ShaderResource) (h : Ready s = true)
    (a t : D3D11_RenderTexture) (ha : s.m_renderTexPing = some a)
    (ht : s.m_renderTexShadowing = some t) :
    ∃ s1 c, Pass_PreLight s n d z s.m_renderTexPing s.m_renderTexShadowing = some s1 ∧
      sameSetup s s1 ∧ s1.rhi.commands = s.rhi.commands ++ c ∧
      passBegins c = [EventName.Pass_PreLight] ∧ stageBegins c = [] ∧
      Bracketed c [EventName.Pass_PreLight] ∧
      renderTargetCalls c = (if s.m_directionalLight.isSome then [a.id] else []) ++ [t.id] := by
  obtain ⟨hrhi, -, ⟨r, hr⟩, -, ⟨q, hq⟩, -⟩ := Ready_parts s h
  have hcond : (!(s.m_rhi && s.m_resources.isSome && s.m_quad.isSome)) = false := by
    simp [hrhi, hr, hq]
  rw [ha, ht]
  apply Exists.intro
  apply Exists.intro
  refine ⟨?h1, ?h2, ?h3, ?_, ?_, ?_, ?_⟩
  case h1 =>
    simp only [Pass_PreLight, hcond, Bool.false_eq_true, if_false]
    rfl
  case h2 => exact ⟨sameScene_refl s, rfl, rfl⟩
  case h3 => rfl
  · simp only [passBegins, eventBegins_append, (trace_Pass_Shadowing s n d z _ a).1,
      (trace_Pass_Blur s _ t).1]
    cases s.m_directionalLight <;> rfl
  · simp only [stageBegins, eventBegins_append, (trace_Pass_Shadowing s n d z _ a).1,
      (trace_Pass_Blur s _ t).1]
    cases s.m_directionalLight <;> rfl
  · have hb := Bracketed_wrap EventName.Pass_PreLight _ _
      (Bracketed_append _ _ _ _
        (Bracketed_append _ _ _ _
          (Bracketed_of_flat [Command.Rectangle_SetBuffer,
            Command.Set_PrimitiveTopology PrimitiveTopology.PrimitiveTopology_TriangleList,
            Command.SetCullMode CullMode.Cull_Back] (by simp [isMark]))
          (Bracketed_Pass_Shadowing s n d z s.m_directionalLight (some a)))
        (Bracketed_Pass_Blur s (ShaderResource.renderTexture a.id) (some t)))
    simpa using hb
  · simp only [renderTargetCalls_append, (trace_Pass_Shadowing s n d z _ a).2,
      (trace_Pass_Blur s _ t).2]
    cases s.m_directionalLight <;> rfl

/-- On a ready renderer `Pass_Light`, called as in `Render`, returns.  If the light
shader has compiled its calls are one event `Pass_Light` that renders into the ping
target; if not, it makes no call. -/
theorem Pass_Light_spec (s : Renderer) (x : ShaderResource) (h : Ready s = true)
    (a : D3D11_RenderTexture) (ha : s.m_renderTexPing = some a) :
    ∃ s1 c, Pass_Light s x s.m_renderTexPing = some s1 ∧
      sameSetup s s1 ∧ s1.rhi.commands = s.rhi.commands ++ c ∧
      passBegins c = (if lightCompiled s then [EventName.Pass_Light] else []) ∧
      stageBegins c = [] ∧
      Bracketed c (if lightCompiled s then [EventName.Pass_Light] else []) ∧
      renderTargetCalls c = (if lightCompiled s then [a.id] else []) := by
  obtain ⟨hrhi, -, ⟨r, hr⟩, ⟨g, hg⟩, ⟨q, hq⟩, -, -, ⟨b, hb⟩, -⟩ := Ready_parts s h
  have hcond : (!(s.m_rhi && s.m_quad.isSome)) = false := by simp [hrhi, hq]
  rw [ha]
  cases hl : r.lightShaderCompiled with
  | false =>
    have hlc : lightCompiled s = false := by simp [lightCompiled, hr, hl]
    rw [hlc]
    refine ⟨s, [], ?_, sameSetup_refl s, by simp, rfl, rfl, Bracketed_nil, rfl⟩
    simp [Pass_Light, hr, hl]
  | true =>
    have hlc : lightCompiled s = true := by simp [lightCompiled, hr, hl]
    rw [hlc]
    apply Exists.intro
    apply Exists.intro
    refine ⟨?h1, ?h2, ?h3, ?_, ?_, ?_, ?_⟩
    case h1 =>
      simp only [Pass_Light, hr, hl, hg, hb, hcond, Bool.not_true, Bool.false_eq_true, if_false]
      rfl
    case h2 => exact ⟨sameScene_refl s, rfl, rfl⟩
    case h3 => rfl
    · simp only [passBegins, eventBegins_append, eventBegins_SetRenderTarget]
      rfl
    · simp only [stageBegins, eventBegins_append, eventBegins_SetRenderTarget]
      rfl
    · have hw := Bracketed_wrap EventName.Pass_Light _ _
        (Bracketed_of_flat _
          (flat_append _ _
            (flat_append _ _
              (show ∀ y ∈ [Command.EnableDepth false], isMark y = false by simp [isMark])
              (flat_SetRenderTarget s (some a) false))
            (show ∀ y ∈ [Command.Shader_Bind Shader.m_shaderLight,
                Command.LightShader_UpdateMatrixBuffer,
                Command.LightShader_UpdateMiscBuffer (s.m_lights.map (fun light => light.id)),
                Command.Bind_Sampler 0 Sampler.m_samplerAnisotropicWrapAlways,
                Command.Bind_Textures
                  [some (ShaderResource.renderTexture g.GBuffer_Target_Albedo.id),
                    some (ShaderResource.renderTexture g.GBuffer_Target_Normal.id),
                    some (ShaderResource.renderTexture g.GBuffer_Target_Depth.id),
                    some (ShaderResource.renderTexture g.GBuffer_Target_Specular.id),
                    some x,
                    some (ShaderResource.renderTexture b.id),
                    s.m_skybox.map (fun skybox => ShaderResource.skybox skybox.id)],
                Command.DrawIndexed s.external.quadIndexCount 0 0],
              isMark y = false by simp [isMark])))
      simpa using hw
    · simp only [renderTargetCalls_append, renderTargetCalls_SetRenderTarget]
      rfl

/-- On a ready renderer `Pass_DebugGBuffer` returns; its calls are one event
`Pass_DebugGBuffer` and set no render target. -/
theorem Pass_DebugGBuffer_spec (s : Renderer) (h : Ready s = true) :
    ∃ s1 c, Pass_DebugGBuffer s = some s1 ∧
      sameSetup s s1 ∧ s1.rhi.commands = s.rhi.commands ++ c ∧
      passBegins c = [EventName.Pass_DebugGBuffer] ∧ stageBegins c = [] ∧
      Bracketed c [EventName.Pass_DebugGBuffer] ∧ renderTargetCalls c = [] := by
  obtain ⟨hrhi, -, ⟨r, hr⟩, ⟨g, hg⟩, ⟨q, hq⟩, -⟩ := Ready_parts s h
  have hcond : (!s.m_rhi) = false := by simp [hrhi]
  have hcond2 : (!(s.m_resources.isSome && s.m_quad.isSome)) = false := by simp [hr, hq]
  cases ht : debugTextureType s with
  | none =>
    refine ⟨emit s [Command.EventBegin EventName.Pass_DebugGBuffer, Command.EventEnd], _,
      ?_, ⟨sameScene_refl s, rfl, rfl⟩, rfl, rfl, rfl, ?_, rfl⟩
    · simp only [Pass_DebugGBuffer, hcond, ht, Bool.false_eq_true, if_false]
    · exact Bracketed_wrap EventName.Pass_DebugGBuffer [] [] Bracketed_nil
  | some texType =>
    apply Exists.intro
    apply Exists.intro
    refine ⟨?h1, ?h2, ?h3, ?_, ?_, ?_, ?_⟩
    case h1 =>
      simp only [Pass_DebugGBuffer, hcond, ht, hg, hcond2, Bool.false_eq_true, if_false]
      rfl
    case h2 => exact ⟨sameScene_refl s, rfl, rfl⟩
    case h3 => rfl
    · rfl
    · rfl
    · exact Bracketed_wrap EventName.Pass_DebugGBuffer _ []
        (Bracketed_of_flat [Command.Shader_Bind Shader.m_shaderTexture,
              Command.Shader_Bind_Buffer Shader.m_shaderTexture,
              Command.Bind_Sampler 0 Sampler.m_samplerLinearWrapAlways,
              Command.Bind_Texture 0 (some (g.GetShaderResource texType)),
              Command.DrawIndexed s.external.quadIndexCount 0 0] (by simp [isMark]))
    · rfl

/-- On a ready renderer `Pass_Debug` returns; its calls are one event `Pass_Debug`
and set no render target. -/
theorem Pass_Debug_spec (s : Renderer) (h : Ready s = true) :
    ∃ s1 c, Pass_Debug s = some s1 ∧
      sameSetup s s1 ∧ s1.rhi.commands = s.rhi.commands ++ c ∧
      passBegins c = [EventName.Pass_Debug] ∧ stageBegins c = [] ∧
      Bracketed c [EventName.Pass_Debug] ∧ renderTargetCalls c = [] := by
  obtain ⟨hrhi, -, ⟨r, hr⟩, ⟨g, hg⟩, ⟨q, hq⟩, -, -, -, -, ⟨camera, hcam, hgrid⟩⟩ :=
    Ready_parts s h
  have hcond : (!(s.m_rhi && s.m_quad.isSome)) = false := by simp [hrhi, hq]
  obtain ⟨hp, hs, ht⟩ := trace_debug s g r
  obtain ⟨E, hE⟩ := Bracketed_debug s g r
  apply Exists.intro
  apply Exists.intro
  refine ⟨?h1, ?h2, ?h3, ?_, ?_, ?_, ?_⟩
  case h1 =>
    simp only [Pass_Debug, hr, hg, hcam, hcond, hgrid, Bool.false_eq_true, if_false]
    rfl
  case h2 => simp [sameSetup, sameScene, emit, hr, hg, hcam]
  case h3 => rfl
  · simp only [passBegins_append, List.append_eq_nil] at hp
    obtain ⟨⟨⟨⟨h1, h2⟩, h3⟩, h4⟩, h5⟩ := hp
    simp only [passBegins_append, h1, h2, h3, h4, h5]
    rfl
  · simp only [stageBegins_append, List.append_eq_nil] at hs
    obtain ⟨⟨⟨⟨h1, h2⟩, h3⟩, h4⟩, h5⟩ := hs
    simp only [stageBegins_append, h1, h2, h3, h4, h5]
    rfl
  · have hw := Bracketed_wrap EventName.Pass_Debug _ _
      (Bracketed_append _ _ _ _ hE
        (Bracketed_of_flat [Command.EnableAlphaBlending false] (by simp [isMark])))
    simpa using hw
  · simp only [renderTargetCalls_append, List.append_eq_nil] at ht
    obtain ⟨⟨⟨⟨h1, h2⟩, h3⟩, h4⟩, h5⟩ := ht
    simp only [renderTargetCalls_append, h1, h2, h3, h4, h5]
    rfl
/-- The first texture bound in a command list is the first one bound in any
extension of it. -/
theorem firstTexture_append (a b : List Command) (x : Option ShaderResource)
    (h : firstTexture a = some x) : firstTexture (a ++ b) = some x := by
  induction a with
  | nil => simp [firstTexture] at h
  | cons c rest ih =>
    cases c <;> first
      | exact h
      | exact ih h

/-- The enabled stages of a table with one more entry at its end. -/
theorem enabledStages_concat (s : Renderer) (done : List (Nat × EventName)) (flag : Nat)
    (name : EventName) :
    enabledStages s (done ++ [(flag, name)]) =
      enabledStages s done ++ (if RenderFlags_IsSet s flag then [name] else []) := by
  unfold enabledStages
  rw [List.filter_append, List.map_append]
  cases hf : RenderFlags_IsSet s flag <;> simp [List.filter_cons, hf]

/-- If the events of a table are all stages and none is a pass, so are the enabled
ones. -/
theorem enabledStages_filter (s : Renderer) (table : List (Nat × EventName))
    (h : ∀ e ∈ table, isStage e.2 = true ∧ isPass e.2 = false) :
    (enabledStages s table).filter isStage = enabledStages s table ∧
    (enabledStages s table).filter isPass = [] := by
  constructor
  · rw [List.filter_eq_self]
    intro n hn
    obtain ⟨e, he, rfl⟩ := List.mem_map.1 hn
    exact (h e (List.mem_filter.1 he).1).1
  · rw [List.filter_eq_nil_iff]
    intro n hn
    obtain ⟨e, he, rfl⟩ := List.mem_map.1 hn
    rw [(h e (List.mem_filter.1 he).1).2]
    simp

/-- The events of `stageTable` are stages and not passes. -/
theorem stageTable_stages : ∀ e ∈ stageTable, isStage e.2 = true ∧ isPass e.2 = false := by
  intro e he
  simp only [stageTable, List.mem_cons, List.mem_singleton, List.not_mem_nil, or_false] at he
  rcases he with h | h | h | h | h <;> subst h <;> exact ⟨rfl, rfl⟩

/-- The block `// CORRECTION` meets `StageSpec`, and swaps. -/
theorem PostLight_Correction_spec :
    StageSpec PostLight_Correction Render_Correction EventName.Pass_Correction true := by
  intro t a p b ha hp hb
  cases hf : RenderFlags_IsSet t Render_Correction with
  | false =>
    exact ⟨t, [], by simp [PostLight_Correction, hf], sameScene_refl t, by simp,
      by simp [ha, hb]⟩
  | true =>
    refine ⟨SwapTargets (emit t
      (Pass_Correction t (ShaderResource.renderTexture a.id) (some b))), _, ?_, ?_, rfl, ?_⟩
    · simp [PostLight_Correction, hf, ha, hb]
    · exact ⟨rfl, rfl, rfl, rfl, rfl, rfl, rfl, rfl, rfl, rfl, rfl, rfl, rfl, rfl, rfl, rfl, rfl⟩
    · rw [if_pos rfl]
      refine ⟨⟨_, rfl⟩, (trace_Pass_Correction t _ b).1, Bracketed_Pass_Correction t _ _, ?_,
        ?_, ?_, ?_⟩
      · simp [Pass_Correction, fullScreenDraw, SetRenderTarget, firstTexture]
      · rw [(trace_Pass_Correction t _ b).2]; rfl
      · simp [SwapTargets, emit, hb]
      · simp [SwapTargets, emit, ha]

/-- The block `// FXAA` meets `StageSpec`, and swaps. -/
theorem PostLight_FXAA_spec :
    StageSpec PostLight_FXAA Render_FXAA EventName.Pass_FXAA true := by
  intro t a p b ha hp hb
  cases hf : RenderFlags_IsSet t Render_FXAA with
  | false =>
    exact ⟨t, [], by simp [PostLight_FXAA, hf], sameScene_refl t, by simp, by simp [ha, hb]⟩
  | true =>
    refine ⟨SwapTargets (emit t
      (Pass_FXAA t (ShaderResource.renderTexture a.id) (some b))), _, ?_, ?_, rfl, ?_⟩
    · simp [PostLight_FXAA, hf, ha, hb]
    · exact ⟨rfl, rfl, rfl, rfl, rfl, rfl, rfl, rfl, rfl, rfl, rfl, rfl, rfl, rfl, rfl, rfl, rfl⟩
    · rw [if_pos rfl]
      refine ⟨⟨_, rfl⟩, (trace_Pass_FXAA t _ b).1, Bracketed_Pass_FXAA t _ _, ?_, ?_, ?_, ?_⟩
      · simp [Pass_FXAA, fullScreenDraw, SetRenderTarget, firstTexture]
      · rw [(trace_Pass_FXAA t _ b).2]; rfl
      · simp [SwapTargets, emit, hb]
      · simp [SwapTargets, emit, ha]

/-- The block `// CHROMATIC ABERRATION` meets `StageSpec`, and swaps. -/
theorem PostLight_ChromaticAberration_spec :
    StageSpec PostLight_ChromaticAberration Render_ChromaticAberration
      EventName.Pass_ChromaticAberration true := by
  intro t a p b ha hp hb
  cases hf : RenderFlags_IsSet t Render_ChromaticAberration with
  | false =>
    exact ⟨t, [], by simp [PostLight_ChromaticAberration, hf], sameScene_refl t, by simp,
      by simp [ha, hb]⟩
  | true =>
    refine ⟨SwapTargets (emit t
      (Pass_ChromaticAberration t (ShaderResource.renderTexture a.id) (some b))), _, ?_, ?_,
      rfl, ?_⟩
    · simp [PostLight_ChromaticAberration, hf, ha, hb]
    · exact ⟨rfl, rfl, rfl, rfl, rfl, rfl, rfl, rfl, rfl, rfl, rfl, rfl, rfl, rfl, rfl, rfl, rfl⟩
    · rw [if_pos rfl]
      refine ⟨⟨_, rfl⟩, (trace_Pass_ChromaticAberration t _ b).1,
        Bracketed_Pass_ChromaticAberration t _ _, ?_, ?_, ?_, ?_⟩
      · simp [Pass_ChromaticAberration, fullScreenDraw, SetRenderTarget, firstTexture]
      · rw [(trace_Pass_ChromaticAberration t _ b).2]; rfl
      · simp [SwapTargets, emit, hb]
      · simp [SwapTargets, emit, ha]

/-- The block `// SHARPENING` meets `StageSpec`, and does not swap. -/
theorem PostLight_Sharpening_spec :
    StageSpec PostLight_Sharpening Render_Sharpening EventName.Pass_Sharpening false := by
  intro t a p b ha hp hb
  cases hf : RenderFlags_IsSet t Render_Sharpening with
  | false =>
    exact ⟨t, [], by simp [PostLight_Sharpening, hf], sameScene_refl t, by simp,
      by simp [ha, hb]⟩
  | true =>
    refine ⟨emit t
      (Pass_Sharpening t (ShaderResource.renderTexture a.id) (some b)), _, ?_, ?_, rfl, ?_⟩
    · simp [PostLight_Sharpening, hf, ha, hb]
    · exact ⟨rfl, rfl, rfl, rfl, rfl, rfl, rfl, rfl, rfl, rfl, rfl, rfl, rfl, rfl, rfl, rfl, rfl⟩
    · rw [if_pos rfl]
      refine ⟨⟨_, rfl⟩, (trace_Pass_Sharpening t _ b).1, Bracketed_Pass_Sharpening t _ _, ?_,
        ?_, ?_, ?_⟩
      · simp [Pass_Sharpening, fullScreenDraw, SetRenderTarget, firstTexture]
      · rw [(trace_Pass_Sharpening t _ b).2]; rfl
      · simp [emit, ha]
      · simp [emit, hb]

/-- The block `// BLOOM` meets `StageSpec`, and swaps. -/
theorem PostLight_Bloom_spec :
    StageSpec PostLight_Bloom Render_Bloom EventName.Pass_Bloom true := by
  intro t a p b ha hp hb
  cases hf : RenderFlags_IsSet t Render_Bloom with
  | false =>
    exact ⟨t, [], by simp [PostLight_Bloom, hf], sameScene_refl t, by simp, by simp [ha, hb]⟩
  | true =>
    refine ⟨SwapTargets (emit t (Pass_Bloom t a p b)), _, ?_, ?_, rfl, ?_⟩
    · simp [PostLight_Bloom, hf, ha, hp, hb]
    · exact ⟨rfl, rfl, rfl, rfl, rfl, rfl, rfl, rfl, rfl, rfl, rfl, rfl, rfl, rfl, rfl, rfl, rfl⟩
    · rw [if_pos rfl]
      refine ⟨⟨_, rfl⟩, (trace_Pass_Bloom t a p b).1, Bracketed_Pass_Bloom t a p b, ?_, ?_,
        ?_, ?_⟩
      · simp [Pass_Bloom, fullScreenDraw, SetRenderTarget, firstTexture]
      · rw [(trace_Pass_Bloom t a p b).2]; rfl
      · simp [SwapTargets, emit, hb]
      · simp [SwapTargets, emit, ha]
/-- States with the same scene have the same enabled stages. -/
theorem enabledStages_of_sameScene (s t : Renderer) (h : sameScene s t)
    (table : List (Nat × EventName)) : enabledStages t table = enabledStages s table := by
  unfold enabledStages
  congr 2
  funext stage
  exact flags_of_sameScene s t h stage.1

/-- One more block of `Pass_PostLight` keeps `ChainInv`: after a block whose flag is
set the last render target is in `m_renderTexPing` if the block swaps and in
`m_renderTexPong` if it does not. -/
theorem chain_step (block : Renderer → Option Renderer) (flag : Nat) (name : EventName)
    (swaps : Bool) (hspec : StageSpec block flag name swaps) (hstage : isStage name = true)
    (s0 : Renderer) (a p b : D3D11_RenderTexture) (done : List (Nat × EventName))
    (onPong : Bool) (t : Renderer) (acc : List Command)
    (hinv : ChainInv s0 a p b done onPong t acc) :
    ∃ t1 c, block t = some t1 ∧
      ChainInv s0 a p b (done ++ [(flag, name)])
        (if RenderFlags_IsSet s0 flag then !swaps else onPong) t1 (acc ++ c) := by
  obtain ⟨hsc, hcmd, hp2, hev, hbr, ⟨x, y, hx, hy, hxy, hlast⟩, hfirst⟩ := hinv
  obtain ⟨t1, c, hb1, hsc1, hcmd1, hcase⟩ := hspec t x p y hx hp2 hy
  have hflag := flags_of_sameScene s0 t hsc flag
  have hp21 : t1.m_renderTexPing2 = some p := by
    obtain ⟨-, -, -, -, -, -, -, -, h9, -⟩ := hsc1
    exact h9.trans hp2
  refine ⟨t1, c, hb1, sameScene_trans s0 t t1 hsc hsc1,
    by rw [hcmd1, hcmd, List.append_assoc], hp21, ?_⟩
  rw [enabledStages_concat]
  cases hf : RenderFlags_IsSet s0 flag with
  | false =>
    rw [hflag, hf] at hcase
    simp only [Bool.false_eq_true, if_false] at hcase
    obtain ⟨rfl, hx1, hy1⟩ := hcase
    simp only [List.append_nil, Bool.false_eq_true, if_false]
    refine ⟨hev, hbr, ⟨x, y, hx1, hy1, hxy, hlast⟩, ?_⟩
    rcases hfirst with ⟨h1, h2⟩ | h
    · left
      refine ⟨h1, ?_⟩
      rw [hx1, ← hx, h2]
    · right
      exact h
  | true =>
    rw [hflag, hf] at hcase
    simp only [if_true] at hcase
    obtain ⟨⟨rest, hrest⟩, hev1, hbr1, hft, hlt, hx1, hy1⟩ := hcase
    simp only [if_true]
    refine ⟨by rw [eventBegins_append, hev, hev1], Bracketed_append _ _ _ _ hbr hbr1, ?_, ?_⟩
    · have hne : renderTargetCalls c ≠ [] := by
        intro h0
        rw [h0] at hlt
        simp at hlt
      have hl : ((renderTargetCalls (acc ++ c)).getLast?).getD a.id = y.id := by
        rw [renderTargetCalls_append, List.getLast?_append_of_ne_nil _ hne, hlt]
        rfl
      cases swaps with
      | false =>
        refine ⟨x, y, by simpa using hx1, by simpa using hy1, hxy, ?_⟩
        rw [hl]; rfl
      | true =>
        refine ⟨y, x, by simpa using hx1, by simpa using hy1, ?_, ?_⟩
        · rcases hxy with ⟨h1, h2⟩ | ⟨h1, h2⟩
          · right; exact ⟨h2, h1⟩
          · left; exact ⟨h2, h1⟩
        · rw [hl]; rfl
    · right
      rcases hfirst with ⟨h1, h2⟩ | ⟨n, r, h1, h2, h3⟩
      · have hxa : x = a := by
          rw [hx] at h2
          exact Option.some.inj h2
        refine ⟨name, rest, by rw [h1, hrest]; rfl, hstage, ?_⟩
        rw [h1, List.nil_append, hft, hxa]
      · exact ⟨n, r ++ c, by rw [h1]; rfl, h2, firstTexture_append _ _ _ h3⟩

/-- On a ready renderer whose ping and pong targets are `a` and `b`,
`Pass_PostLight` returns.  Its calls are one event `Pass_PostLight` that contains
the events of the enabled stages, in the order of `stageTable`, then
`Pass_DebugGBuffer` and `Pass_Debug`; the first stage that runs reads `a` first;
the members `m_renderTexPing` and `m_renderTexPong` hold `a` and `b` in one order or
the other; and the last render target, `a` if the pass sets none, is the one in
`m_renderTexPong` if the sharpening flag is set and the one in `m_renderTexPing`
otherwise. -/
theorem Pass_PostLight_spec (s : Renderer) (h : Ready s = true) (a b : D3D11_RenderTexture)
    (ha : s.m_renderTexPing = some a) (hb : s.m_renderTexPong = some b) :
    ∃ s1 c, Pass_PostLight s = some s1 ∧ sameScene s s1 ∧
      s1.rhi.commands = s.rhi.commands ++ c ∧
      passBegins c =
        [EventName.Pass_PostLight, EventName.Pass_DebugGBuffer, EventName.Pass_Debug] ∧
      stageBegins c = enabledStages s stageTable ∧
      Bracketed c [EventName.Pass_PostLight] ∧
      (enabledStages s stageTable ≠ [] →
        firstStageInput c = some (some (ShaderResource.renderTexture a.id))) ∧
      ∃ x y, s1.m_renderTexPing = some x ∧ s1.m_renderTexPong = some y ∧
        ((x = a ∧ y = b) ∨ (x = b ∧ y = a)) ∧
        ((renderTargetCalls c).getLast?).getD a.id =
          if RenderFlags_IsSet s Render_Sharpening then y.id else x.id := by
  obtain ⟨hrhi, -, ⟨r, hr⟩, -, ⟨q, hq⟩, -, ⟨p, hp⟩, -⟩ := Ready_parts s h
  have hcond : (!(s.m_rhi && s.m_resources.isSome && s.m_quad.isSome)) = false := by
    simp [hrhi, hr, hq]
  obtain ⟨s0, hs0⟩ : ∃ s0, s0 = emit s
      [Command.EventBegin EventName.Pass_PostLight, Command.Rectangle_SetBuffer,
        Command.Set_PrimitiveTopology PrimitiveTopology.PrimitiveTopology_TriangleList,
        Command.SetCullMode CullMode.Cull_Back] := ⟨_, rfl⟩
  have hss0 : sameScene s s0 := by rw [hs0]; exact sameScene_refl s
  have h0 : ChainInv s0 a p b [] false s0 [] := by
    refine ⟨sameScene_refl _, by simp, by rw [hs0]; exact hp, rfl, Bracketed_nil,
      ⟨a, b, by rw [hs0]; exact ha, by rw [hs0]; exact hb, Or.inl ⟨rfl, rfl⟩, rfl⟩,
      Or.inl ⟨rfl, by rw [hs0]; exact ha⟩⟩
  obtain ⟨t1, c1, e1, i1⟩ := chain_step _ _ _ _ PostLight_Bloom_spec rfl s0 a p b _ _ _ _ h0
  obtain ⟨t2, c2, e2, i2⟩ :=
    chain_step _ _ _ _ PostLight_Correction_spec rfl s0 a p b _ _ _ _ i1
  obtain ⟨t3, c3, e3, i3⟩ := chain_step _ _ _ _ PostLight_FXAA_spec rfl s0 a p b _ _ _ _ i2
  obtain ⟨t4, c4, e4, i4⟩ :=
    chain_step _ _ _ _ PostLight_ChromaticAberration_spec rfl s0 a p b _ _ _ _ i3
  obtain ⟨t5, c5, e5, i5⟩ :=
    chain_step _ _ _ _ PostLight_Sharpening_spec rfl s0 a p b _ _ _ _ i4
  obtain ⟨hsc5, hcmd5, -, hev5, hbr5, ⟨x, y, hx, hy, hxy, hlast⟩, hfirst⟩ := i5
  have htable : ([] ++ [(Render_Bloom, EventName.Pass_Bloom)] ++
      [(Render_Correction, EventName.Pass_Correction)] ++ [(Render_FXAA, EventName.Pass_FXAA)] ++
      [(Render_ChromaticAberration, EventName.Pass_ChromaticAberration)] ++
      [(Render_Sharpening, EventName.Pass_Sharpening)]) = stageTable := rfl
  rw [htable, enabledStages_of_sameScene s s0 hss0] at hev5 hbr5
  have hst5 : sameScene s t5 := sameScene_trans s s0 t5 hss0 hsc5
  have hr5 : Ready t5 = true :=
    Ready_of_sameScene s t5 hst5 (by rw [hx]; rfl) (by rw [hy]; rfl) h
  obtain ⟨t6, c6, e6, hsu6, hcmd6, hp6, hs6, hb6, ht6⟩ := Pass_DebugGBuffer_spec t5 hr5
  have hr6 : Ready t6 = true := Ready_of_sameSetup t5 t6 hsu6 hr5
  obtain ⟨t7, c7, e7, hsu7, hcmd7, hp7, hs7, hb7, ht7⟩ := Pass_Debug_spec t6 hr6
  have hfil := enabledStages_filter s stageTable stageTable_stages
  have hacc : ∀ acc : List Command, ([] ++ c1 ++ c2 ++ c3 ++ c4 ++ c5) = acc →
      eventBegins acc = enabledStages s stageTable →
      Bracketed acc (enabledStages s stageTable) →
      ((acc = [] ∧ t5.m_renderTexPing = some a) ∨
        (∃ name rest, acc = Command.EventBegin name :: rest ∧ isStage name = true ∧
          firstTexture acc = some (some (ShaderResource.renderTexture a.id)))) →
      t5.rhi.commands = s0.rhi.commands ++ acc →
      ((renderTargetCalls acc).getLast?).getD a.id =
        (if (if RenderFlags_IsSet s0 Render_Sharpening = true then !false
            else if RenderFlags_IsSet s0 Render_ChromaticAberration = true then !true
            else if RenderFlags_IsSet s0 Render_FXAA = true then !true
            else if RenderFlags_IsSet s0 Render_Correction = true then !true
            else if RenderFlags_IsSet s0 Render_Bloom = true then !true else false) = true
          then y.id else x.id) →
      ∃ s1 c, Pass_PostLight s = some s1 ∧ sameScene s s1 ∧
      s1.rhi.commands = s.rhi.commands ++ c ∧
      passBegins c =
        [EventName.Pass_PostLight, EventName.Pass_DebugGBuffer, EventName.Pass_Debug] ∧
      stageBegins c = enabledStages s stageTable ∧
      Bracketed c [EventName.Pass_PostLight] ∧
      (enabledStages s stageTable ≠ [] →
        firstStageInput c = some (some (ShaderResource.renderTexture a.id))) ∧
      ∃ x y, s1.m_renderTexPing = some x ∧ s1.m_renderTexPong = some y ∧
        ((x = a ∧ y = b) ∨ (x = b ∧ y = a)) ∧
        ((renderTargetCalls c).getLast?).getD a.id =
          if RenderFlags_IsSet s Render_Sharpening then y.id else x.id := by
    intro acc _ hev hbr hfirst hcmd hlast
    refine ⟨emit t7 [Command.EventEnd],
      [Command.EventBegin EventName.Pass_PostLight, Command.Rectangle_SetBuffer,
        Command.Set_PrimitiveTopology PrimitiveTopology.PrimitiveTopology_TriangleList,
        Command.SetCullMode CullMode.Cull_Back] ++ acc ++ c6 ++ c7 ++ [Command.EventEnd],
      ?_, ?_, ?_, ?_, ?_, ?_, ?_, ?_⟩
    · simp only [Pass_PostLight, hcond, Bool.false_eq_true, if_false]
      rw [← hs0, e1]
      simp only [Option.some_bind, e2, e3, e4, e5, e6, e7, Option.map_some']
    · exact sameScene_trans s t5 _ hst5
        (sameScene_trans t5 t6 _ hsu6.1 (sameScene_trans t6 t7 _ hsu7.1 (sameScene_refl _)))
    · show t7.rhi.commands ++ [Command.EventEnd] = _
      rw [hcmd7, hcmd6, hcmd, hs0]
      simp [emit, List.append_assoc]
    · have hpa : passBegins acc = [] := by rw [passBegins, hev, hfil.2]
      simp only [passBegins_append, hp6, hp7, hpa]
      rfl
    · have hsa : stageBegins acc = enabledStages s stageTable := by
        rw [stageBegins, hev, hfil.1]
      simp only [stageBegins_append, hs6, hs7, hsa]
      simp [stageBegins, eventBegins, eventOf, isStage]
    · have hw := Bracketed_wrap EventName.Pass_PostLight _ _
        (Bracketed_append _ _ _ _
          (Bracketed_append _ _ _ _
            (Bracketed_append _ _ _ _
              (Bracketed_of_flat [Command.Rectangle_SetBuffer,
                Command.Set_PrimitiveTopology PrimitiveTopology.PrimitiveTopology_TriangleList,
                Command.SetCullMode CullMode.Cull_Back] (by simp [isMark]))
              hbr) hb6) hb7)
      intro depth
      have hd := hw depth
      simp only [List.append_assoc, List.cons_append, List.nil_append] at hd ⊢
      rcases hd with ⟨hd1, hd2⟩
      refine ⟨hd1, ?_⟩
      rw [hd2]
    · intro hne
      rcases hfirst with ⟨h1, -⟩ | ⟨n, rest, h1, h2, h3⟩
      · rw [h1] at hev
        exact absurd hev.symm hne
      · rw [h1]
        have hpl : isStage EventName.Pass_PostLight = false := rfl
        simp only [firstStageInput, List.append_assoc, List.cons_append, List.nil_append,
          List.dropWhile_cons, beginsStage, h2, hpl, Bool.not_true, Bool.not_false,
          Bool.false_eq_true, if_false, if_true]
        rw [h1] at h3
        exact firstTexture_append (Command.EventBegin n :: rest) _ _ h3
    · refine ⟨x, y, by show t7.m_renderTexPing = _; rw [hsu7.2.1, hsu6.2.1, hx],
        by show t7.m_renderTexPong = _; rw [hsu7.2.2, hsu6.2.2, hy], hxy, ?_⟩
      have htar : renderTargetCalls ([Command.EventBegin EventName.Pass_PostLight,
          Command.Rectangle_SetBuffer,
          Command.Set_PrimitiveTopology PrimitiveTopology.PrimitiveTopology_TriangleList,
          Command.SetCullMode CullMode.Cull_Back] ++ acc ++ c6 ++ c7 ++ [Command.EventEnd]) =
          renderTargetCalls acc := by
        simp only [renderTargetCalls_append, ht6, ht7]
        simp [renderTargetCalls, targetOf]
      rw [htar, hlast]
      simp only [flags_of_sameScene s s0 hss0]
      cases RenderFlags_IsSet s Render_Sharpening <;>
        cases RenderFlags_IsSet s Render_ChromaticAberration <;>
        cases RenderFlags_IsSet s Render_FXAA <;>
        cases RenderFlags_IsSet s Render_Correction <;>
        cases RenderFlags_IsSet s Render_Bloom <;> rfl
  exact hacc _ rfl hev5 hbr5 hfirst hcmd5 hlast
/-- Members that states with the same setup share. -/
theorem sameSetup_fields (s t : Renderer) (h : sameSetup s t) :
    t.m_resources = s.m_resources ∧ t.m_gbuffer = s.m_gbuffer ∧
    t.m_renderTexPing = s.m_renderTexPing ∧ t.m_renderTexPong = s.m_renderTexPong ∧
    t.m_renderTexShadowing = s.m_renderTexShadowing ∧
    t.m_directionalLight = s.m_directionalLight := by
  obtain ⟨⟨-, -, -, -, h5, -, h7, -, -, h10, -, -, h13, -⟩, hp, hq⟩ := h
  exact ⟨h5, h7, hp, hq, h10, h13⟩

/-- States with the same setup agree on whether the light shader has compiled. -/
theorem lightCompiled_of_sameSetup (s t : Renderer) (h : sameSetup s t) :
    lightCompiled t = lightCompiled s := by
  unfold lightCompiled
  rw [(sameSetup_fields s t h).1]

/-- Calls that begin no post-light stage are skipped by the search for the first
stage. -/
theorem dropWhile_of_stageBegins_nil (l m : List Command) (h : stageBegins l = []) :
    (l ++ m).dropWhile (fun c => !beginsStage c) = m.dropWhile (fun c => !beginsStage c) := by
  induction l with
  | nil => rfl
  | cons c rest ih =>
    have hc : beginsStage c = false := by
      cases hb : beginsStage c with
      | false => rfl
      | true =>
        cases c <;> simp [beginsStage] at hb
        simp [stageBegins, eventBegins, eventOf, List.filter_cons, hb] at h
    have hr : stageBegins rest = [] := by
      cases c <;> first
        | exact h
        | (simp [beginsStage] at hc
           simpa [stageBegins, eventBegins, eventOf, List.filter_cons, hc] using h)
    rw [List.cons_append, List.dropWhile_cons, hc]
    exact ih hr

/-- On a ready renderer with a non-empty renderable list, whose ping and pong
targets are `a` and `b`, `Render` returns.  Its calls are the events of the passes
one after the other, `Pass_DepthDirectionalLight` only with a directional light that
casts shadows and `Pass_Light` only with a compiled light shader; the first
post-light stage that runs reads `a` first; and, the light shader being compiled,
the last render target of the frame is the one in `m_renderTexPong` if the
sharpening flag is set and the one in `m_renderTexPing` otherwise. -/
theorem Render_spec (s : Renderer) (h : Ready s = true)
    (hne : s.m_renderables.isEmpty = false) (a b : D3D11_RenderTexture)
    (ha : s.m_renderTexPing = some a) (hb : s.m_renderTexPong = some b) :
    ∃ s1 c, Render s = some s1 ∧ sameScene s s1 ∧
      s1.rhi.commands = s.rhi.commands ++ c ∧
      passBegins c =
        (if castsShadows s then [EventName.Pass_DepthDirectionalLight] else []) ++
        [EventName.Pass_GBuffer, EventName.Pass_PreLight] ++
        (if lightCompiled s then [EventName.Pass_Light] else []) ++
        [EventName.Pass_PostLight, EventName.Pass_DebugGBuffer, EventName.Pass_Debug] ∧
      stageBegins c = enabledStages s stageTable ∧
      Bracketed c
        ((if castsShadows s then [EventName.Pass_DepthDirectionalLight] else []) ++
          [EventName.Pass_GBuffer, EventName.Pass_PreLight] ++
          (if lightCompiled s then [EventName.Pass_Light] else []) ++
          [EventName.Pass_PostLight]) ∧
      (enabledStages s stageTable ≠ [] →
        firstStageInput c = some (some (ShaderResource.renderTexture a.id))) ∧
      ∃ x y, s1.m_renderTexPing = some x ∧ s1.m_renderTexPong = some y ∧
        ((x = a ∧ y = b) ∨ (x = b ∧ y = a)) ∧
        (lightCompiled s = true →
          lastRenderTarget c =
            some (if RenderFlags_IsSet s Render_Sharpening then y.id else x.id)) := by
  obtain ⟨hrhi, hinit, ⟨r, hr⟩, ⟨g, hg⟩, -, -, -, -, ⟨t, ht⟩, ⟨camera, hcam, -⟩⟩ :=
    Ready_parts s h
  have hcond : (!s.m_rhi || !s.rhi.initialized) = false := by simp [hrhi, hinit]
  obtain ⟨s1, c1, e1, u1, m1, p1, st1, b1, t1⟩ := Pass_DepthDirectionalLight_spec s h
  have r1 := Ready_of_sameSetup s s1 u1 h
  obtain ⟨s2, c2, e2, u2, m2, p2, st2, b2, t2⟩ := Pass_GBuffer_spec s1 r1
  have r2 := Ready_of_sameSetup s1 s2 u2 r1
  have v2 := sameSetup_trans s s1 s2 u1 u2
  obtain ⟨f21, f22, f23, f24, f25, f26⟩ := sameSetup_fields s s2 v2
  obtain ⟨s3, c3, e3, u3, m3, p3, st3, b3, t3⟩ :=
    Pass_PreLight_spec s2 (ShaderResource.renderTexture g.GBuffer_Target_Normal.id)
      (ShaderResource.renderTexture g.GBuffer_Target_Depth.id) ShaderResource.noiseMap r2 a t
      (f23.trans ha) (f25.trans ht)
  have r3 := Ready_of_sameSetup s2 s3 u3 r2
  have v3 := sameSetup_trans s s2 s3 v2 u3
  obtain ⟨f31, f32, f33, f34, f35, f36⟩ := sameSetup_fields s s3 v3
  obtain ⟨s4, c4, e4, u4, m4, p4, st4, b4, t4⟩ :=
    Pass_Light_spec s3 (ShaderResource.renderTexture t.id) r3 a (f33.trans ha)
  have r4 := Ready_of_sameSetup s3 s4 u4 r3
  have v4 := sameSetup_trans s s3 s4 v3 u4
  obtain ⟨f41, f42, f43, f44, f45, f46⟩ := sameSetup_fields s s4 v4
  obtain ⟨s5, c5, e5, u5, m5, p5, st5, b5, fi5, x, y, hx, hy, hxy, hl5⟩ :=
    Pass_PostLight_spec s4 r4 a b (f43.trans ha) (f44.trans hb)
  rw [lightCompiled_of_sameSetup s s3 v3] at p4 b4 t4
  rw [enabledStages_of_sameScene s s4 v4.1] at st5 fi5
  rw [flags_of_sameScene s s4 v4.1] at hl5
  refine ⟨s5, c1 ++ c2 ++ c3 ++ c4 ++ c5, ?_, sameScene_trans s s4 s5 v4.1 u5, ?_, ?_, ?_, ?_,
    ?_, x, y, hx, hy, hxy, ?_⟩
  · simp only [Render, hcond, hcam, hne, Bool.false_eq_true, if_false]
    rw [e1]
    simp only [Option.some_bind]
    rw [e2]
    simp only [Option.some_bind]
    rw [f22, f21, hg, hr]
    simp only []
    rw [e3]
    simp only [Option.some_bind]
    rw [f35, ht]
    simp only []
    rw [e4]
    simp only [Option.some_bind]
    exact e5
  · rw [m5, m4, m3, m2, m1]
    simp only [List.append_assoc]
  · simp only [passBegins_append, p1, p2, p3, p4, p5, List.append_assoc, List.cons_append,
      List.nil_append]
  · simp only [stageBegins_append, st1, st2, st3, st4, st5]
    rfl
  · exact Bracketed_append _ _ _ _
      (Bracketed_append _ _ _ _
        (by simpa using Bracketed_append _ _ _ _ (Bracketed_append _ _ _ _ b1 b2) b3) b4) b5
  · intro hen
    have hpre : stageBegins (c1 ++ c2 ++ c3 ++ c4) = [] := by
      simp only [stageBegins_append, st1, st2, st3, st4]
      rfl
    rw [firstStageInput, dropWhile_of_stageBegins_nil _ _ hpre]
    exact fi5 hen
  · intro hlc
    rw [hlc] at t4
    simp only [if_true] at t4
    have htar : renderTargetCalls (c1 ++ c2 ++ c3 ++ c4 ++ c5) =
        (renderTargetCalls c3 ++ [a.id]) ++ renderTargetCalls c5 := by
      simp only [renderTargetCalls_append, t1, t2, t4]
      rfl
    show (renderTargetCalls (c1 ++ c2 ++ c3 ++ c4 ++ c5)).getLast? = _
    rw [htar, List.getLast?_append, List.getLast?_concat, ← hl5]
    cases (renderTargetCalls c5).getLast? <;> rfl

/-! ### The frame -/

/-- The new commands of a state whose command list extends the old one. -/
theorem newCommands_of_append (s t : Renderer) (c : List Command)
    (h : t.rhi.commands = s.rhi.commands ++ c) : newCommands s t = c := by
  simp [newCommands, h]

/-- The branch "nothing to render" of `Render`: on a ready renderer with a camera
set and an empty renderable list, a state that `Renderables_Acquire` never returns,
`Render` calls `Clear` with the clear colour of the camera and `Present`, and begins
no pass. -/
theorem Render_camera_without_renderables :
    Ready (readyRenderer 0 [] [] none (some {})) = true ∧
    (readyRenderer 0 [] [] none (some {})).m_camera = some {} ∧
    (Render (readyRenderer 0 [] [] none (some {}))).map
        (newCommands (readyRenderer 0 [] [] none (some {}))) =
      some [Command.Clear ({} : Camera).clearColor, Command.Present] ∧
    (Render (readyRenderer 0 [] [] none (some {}))).map
        (fun s => passBegins (newCommands (readyRenderer 0 [] [] none (some {})) s)) =
      some [] := by
  decide

/-- C15: on a ready renderer `Pass_PostLight` returns, and the stages it begins are
exactly those of the table Bloom, Correction, FXAA, Chromatic Aberration, Sharpening
whose flag is set, in the order of the table.  With the bloom flag off no event
`Pass_Bloom` begins.  If a stage is enabled, the first texture that the first stage
binds is the one of `m_renderTexPing` on entry, which is the target that `Render`
has `Pass_Light` render into. -/
theorem Pass_PostLight_stages (s : Renderer) (h : Ready s = true) :
    ∃ s1, Pass_PostLight s = some s1 ∧
      stageBegins (newCommands s s1) = enabledStages s stageTable ∧
      (RenderFlags_IsSet s Render_Bloom = false →
        EventName.Pass_Bloom ∉ eventBegins (newCommands s s1)) ∧
      (enabledStages s stageTable ≠ [] →
        firstStageInput (newCommands s s1) =
          some (s.m_renderTexPing.map (fun texture => ShaderResource.renderTexture texture.id)))
      := by
  obtain ⟨-, -, -, -, -, ⟨a, ha⟩, -, ⟨b, hb⟩, -⟩ := Ready_parts s h
  obtain ⟨s1, c, e, -, hc, -, hst, -, hfi, -⟩ := Pass_PostLight_spec s h a b ha hb
  rw [← newCommands_of_append s s1 c hc] at hst hfi
  refine ⟨s1, e, hst, ?_, ?_⟩
  · intro hoff hmem
    have hin : EventName.Pass_Bloom ∈ stageBegins (newCommands s s1) :=
      List.mem_filter.2 ⟨hmem, rfl⟩
    rw [hst] at hin
    obtain ⟨stage, hs, hname⟩ := List.mem_map.1 hin
    obtain ⟨htab, hset⟩ := List.mem_filter.1 hs
    simp only [stageTable, List.mem_cons, List.mem_singleton, List.not_mem_nil, or_false]
      at htab
    rcases htab with h1 | h1 | h1 | h1 | h1 <;> subst h1 <;> simp at hname
    rw [hoff] at hset
    exact absurd hset (by simp)
  · intro hen
    rw [hfi hen, ha]
    rfl

/-- Witness of C15 on a frame with the FXAA and sharpening flags set. -/
theorem Pass_PostLight_stages_witness :
    Ready (frameWith (Render_FXAA ||| Render_Sharpening)) = true ∧
    ∃ s1, Pass_PostLight (frameWith (Render_FXAA ||| Render_Sharpening)) = some s1 ∧
      stageBegins (newCommands (frameWith (Render_FXAA ||| Render_Sharpening)) s1) =
        enabledStages (frameWith (Render_FXAA ||| Render_Sharpening)) stageTable ∧
      (RenderFlags_IsSet (frameWith (Render_FXAA ||| Render_Sharpening)) Render_Bloom = false →
        EventName.Pass_Bloom ∉
          eventBegins (newCommands (frameWith (Render_FXAA ||| Render_Sharpening)) s1)) ∧
      (enabledStages (frameWith (Render_FXAA ||| Render_Sharpening)) stageTable ≠ [] →
        firstStageInput (newCommands (frameWith (Render_FXAA ||| Render_Sharpening)) s1) =
          some ((frameWith (Render_FXAA ||| Render_Sharpening)).m_renderTexPing.map
            (fun texture => ShaderResource.renderTexture texture.id))) :=
  ⟨by decide, Pass_PostLight_stages (frameWith (Render_FXAA ||| Render_Sharpening)) (by decide)⟩

/-- The render target written last by a frame.  On a ready renderer with a
non-empty renderable list and a compiled light shader, `Render` leaves the members
`m_renderTexPing` and `m_renderTexPong` set, `GetFrame` is the texture of
`m_renderTexPong`, and the render target written last is the one in
`m_renderTexPong` if the sharpening flag is set and the one in `m_renderTexPing`
otherwise. -/
theorem Render_last_target (s : Renderer) (h : Ready s = true)
    (hne : s.m_renderables.isEmpty = false) (hlc : lightCompiled s = true) :
    ∃ s1 x y, Render s = some s1 ∧ s1.m_renderTexPing = some x ∧
      s1.m_renderTexPong = some y ∧
      GetFrame s1 = some (ShaderResource.renderTexture y.id) ∧
      lastRenderTarget (newCommands s s1) =
        some (if RenderFlags_IsSet s Render_Sharpening then y.id else x.id) := by
  obtain ⟨-, -, -, -, -, ⟨a, ha⟩, -, ⟨b, hb⟩, -⟩ := Ready_parts s h
  obtain ⟨s1, c, e, -, hc, -, -, -, -, x, y, hx, hy, -, hl⟩ := Render_spec s h hne a b ha hb
  rw [← newCommands_of_append s s1 c hc] at hl
  exact ⟨s1, x, y, e, hx, hy, by simp [GetFrame, hy], hl hlc⟩

/-- C16 (failing input): with the FXAA flag alone, on a frame with a camera and a
mesh, the render targets of `Render` are `7` (blur), `4` (light pass) and `6`
(FXAA, the one stage that runs), and `GetFrame` afterwards is the texture `4`: the
result of the light pass, not the target `6` written last.  The next `Render`
binds the texture `4` as previous frame.  With no flag the render targets are `7`
and `4` (light pass) and `GetFrame` is the texture `6`, into which nothing has
been rendered. -/
theorem GetFrame_not_final_target :
    Ready (frameWith Render_FXAA) = true ∧ lightCompiled (frameWith Render_FXAA) = true ∧
    (Render (frameWith Render_FXAA)).map
        (fun s => renderTargetCalls (newCommands (frameWith Render_FXAA) s)) =
      some [7, 4, 6] ∧
    (Render (frameWith Render_FXAA)).map
        (fun s => stageBegins (newCommands (frameWith Render_FXAA) s)) =
      some [EventName.Pass_FXAA] ∧
    (Render (frameWith Render_FXAA)).bind GetFrame = some (ShaderResource.renderTexture 4) ∧
    (Render (frameWith Render_FXAA)).bind
        (fun s => (Render s).map (fun s2 => previousFrameOf (newCommands s s2))) =
      some (some (ShaderResource.renderTexture 4)) ∧
    (Render (frameWith 0)).map
        (fun s => renderTargetCalls (newCommands (frameWith 0) s)) =
      some [7, 4] ∧
    (Render (frameWith 0)).bind GetFrame = some (ShaderResource.renderTexture 6) := by
  decide

/-! ### The comparator on actors without components, and on materials without shader -/

/-- C21: an actor that lacks a renderable component, a geometry model or a material
is unordered against every actor: the comparator returns `false` in both
directions.  So the comparator is not a strict weak ordering: of three actors, the
first and the last with keys `1 < 2` and the middle one without renderable
component, the first and the middle are unordered, the middle and the last are
unordered, and the first is ordered before the last, so that being unordered is not
transitive. -/
theorem comparator_unordered_not_transitive :
    (∀ a b : Actor, lacksComponent a = true → incomparable a b) ∧
    ∃ a b c : Actor, incomparable a b ∧ incomparable b c ∧ comparator a c = some true ∧
      ¬ incomparable a c := by
  constructor
  · intro a b ha
    obtain ⟨ida, ra, la, sa, la1, ca⟩ := a
    obtain ⟨idb, rb, lb, sb, lb1, cb⟩ := b
    cases ra with
    | none => cases rb <;> exact ⟨rfl, rfl⟩
    | some ra =>
      cases rb with
      | none => exact ⟨rfl, rfl⟩
      | some rb =>
        obtain ⟨ga, ma⟩ := ra
        obtain ⟨gb, mb⟩ := rb
        cases ga with
        | none => cases gb <;> exact ⟨rfl, rfl⟩
        | some ga =>
          cases ma with
          | some ma => simp [lacksComponent] at ha
          | none =>
            cases gb with
            | none => exact ⟨rfl, rfl⟩
            | some gb => cases mb <;> exact ⟨rfl, rfl⟩
  · refine ⟨meshActor 0 1 1 1, cameraActor 1, meshActor 2 2 1 1, ⟨rfl, rfl⟩, ⟨rfl, rfl⟩,
      by decide, ?_⟩
    intro h
    exact absurd h.1 (by decide)

/-- Witness of C21 on a camera actor and a mesh actor. -/
theorem comparator_unordered_not_transitive_witness :
    lacksComponent (cameraActor 1) = true ∧
    incomparable (cameraActor 1) (meshActor 0 1 1 1) :=
  ⟨rfl, comparator_unordered_not_transitive.1 (cameraActor 1) (meshActor 0 1 1 1) rfl⟩

/-- C22 (failing input): on a list of two actors with renderable component, geometry
and material, the first of which has a material without shader, the comparator
dereferences the null shader and `Renderables_Sort` has no result; neither has
`Renderables_Acquire` on these two actors. -/
theorem Renderables_Sort_missing_shader :
    2 ≤ [shaderlessActor 0 1 1, meshActor 1 1 1 1].length ∧
    missingShader (shaderlessActor 0 1 1) = true ∧
    comparator (meshActor 1 1 1 1) (shaderlessActor 0 1 1) = none ∧
    comparator (shaderlessActor 0 1 1) (meshActor 1 1 1 1) = none ∧
    Renderables_Sort [shaderlessActor 0 1 1, meshActor 1 1 1 1] = none ∧
    Renderables_Acquire (blankRenderer 0 0)
      [some (shaderlessActor 0 1 1), some (meshActor 1 1 1 1)] = none := by
  decide

/-! ### Results of the sort, whatever the comparator -/

section SortSome

variable {α : Type} (comp : α → α → Option Bool)

/-- A result of the unguarded insertion is a rearrangement of the prefix with `val`
added. -/
theorem unguardedLinearInsert_perm_of_some (val : α) :
    ∀ (rev r : List α), unguardedLinearInsert comp val rev = some r →
      r.Perm (val :: rev) := by
  intro rev
  induction rev with
  | nil =>
    intro r h
    simp only [unguardedLinearInsert, Option.some.injEq] at h
    rw [← h]
  | cons prev rest ih =>
    intro r h
    unfold unguardedLinearInsert at h
    cases hc : comp val prev with
    | none => rw [hc] at h; simp at h
    | some b =>
      rw [hc] at h
      cases b with
      | true =>
        cases hr : unguardedLinearInsert comp val rest with
        | none => rw [hr] at h; simp at h
        | some r1 =>
          rw [hr] at h
          simp only [Option.map_some', Option.some.injEq] at h
          rw [← h]
          exact (List.Perm.cons prev (ih r1 hr)).trans (List.Perm.swap val prev rest)
      | false =>
        simp only [Option.some.injEq] at h
        rw [← h]

/-- A result of an insertion step is a rearrangement of the prefix with `val`
added. -/
theorem insertionStep_perm_of_some (val : α) (rev r : List α)
    (h : insertionStep comp rev val = some r) : r.Perm (val :: rev) := by
  unfold insertionStep at h
  cases hl : rev.getLast? with
  | none =>
    rw [hl] at h
    simp only [Option.some.injEq] at h
    rw [← h, List.getLast?_eq_none_iff.mp hl]
  | some first =>
    rw [hl] at h
    dsimp only at h
    cases hc : comp val first with
    | none => rw [hc] at h; simp at h
    | some b =>
      rw [hc] at h
      cases b with
      | true =>
        simp only [Option.some.injEq] at h
        rw [← h]
        exact List.perm_append_comm
      | false => exact unguardedLinearInsert_perm_of_some comp val rev r h

/-- A result of the insertion loop is a rearrangement of prefix and rest. -/
theorem insertionLoop_perm_of_some :
    ∀ (l rev r : List α), insertionLoop comp rev l = some r → r.Perm (rev ++ l) := by
  intro l
  induction l with
  | nil =>
    intro rev r h
    simp only [insertionLoop, Option.some.injEq] at h
    rw [← h]
    simp
  | cons val rest ih =>
    intro rev r h
    unfold insertionLoop at h
    cases h1 : insertionStep comp rev val with
    | none => rw [h1] at h; simp at h
    | some r1 =>
      rw [h1] at h
      have hp1 := insertionStep_perm_of_some comp val rev r1 h1
      refine (ih r1 r h).trans ((List.Perm.append_right rest hp1).trans ?_)
      simpa using (List.perm_middle).symm

/-- A result of the sort is a rearrangement of its input. -/
theorem stdSort_perm_of_some (l r : List α) (h : stdSort comp l = some r) : r.Perm l := by
  simpa using insertionLoop_perm_of_some comp l [] r h

end SortSome

/-- A result of `Renderables_Sort` is a rearrangement of its input. -/
theorem Renderables_Sort_perm_of_some (renderables sorted : List Actor)
    (h : Renderables_Sort renderables = some sorted) : sorted.Perm renderables := by
  unfold Renderables_Sort Renderables_SortBy at h
  split at h
  · simp only [Option.some.injEq] at h
    rw [← h]
  · exact stdSort_perm_of_some comparator renderables sorted h

/-! ### The renderable list of a frame with a camera -/

/-- C29: in a state that `Renderables_Acquire` returns, if the camera is set then
the renderable list is not empty, so that the test `m_renderables.empty()` of
`Render` fails; and if the renderer is ready, `Render` on this state returns and
`Pass_GBuffer` is among the passes it begins. -/
theorem Renderables_Acquire_camera_nonempty (s : Renderer) (l : List (Option Actor))
    (s1 : Renderer) (h : Renderables_Acquire s l = some s1)
    (hc : s1.m_camera.isSome = true) :
    s1.m_renderables.isEmpty = false ∧
    (Ready s1 = true →
      ∃ s2, Render s1 = some s2 ∧
        EventName.Pass_GBuffer ∈ passBegins (newCommands s1 s2)) := by
  have hne : s1.m_renderables.isEmpty = false := by
    unfold Renderables_Acquire at h
    cases hs : Renderables_Sort (l.foldl acquireActor (Clear s)).m_renderables with
    | none => simp [hs] at h
    | some sorted =>
      simp only [hs, Option.map_some', Option.some.injEq] at h
      obtain ⟨hr, -, -, -, -, hcam⟩ := foldl_acquireActor l (Clear s)
      have hperm := Renderables_Sort_perm_of_some _ _ hs
      rw [hr] at hperm
      rw [← h] at hc ⊢
      simp only [Clear, List.nil_append] at hperm
      have hcam1 : (l.foldl acquireActor (Clear s)).m_camera.isSome = true := hc
      rw [hcam] at hcam1
      cases hl : liveActors l with
      | nil =>
        rw [hl] at hcam1
        simp [Clear] at hcam1
      | cons a rest =>
        rw [hl] at hperm
        cases sorted with
        | nil => exact absurd hperm.length_eq (by simp)
        | cons b t => rfl
  refine ⟨hne, ?_⟩
  intro hready
  obtain ⟨-, -, -, -, -, ⟨a, ha⟩, -, ⟨b, hb⟩, -⟩ := Ready_parts s1 hready
  obtain ⟨s2, c, e, -, hcmd, hp, -⟩ := Render_spec s1 hready hne a b ha hb
  rw [← newCommands_of_append s1 s2 c hcmd] at hp
  refine ⟨s2, e, ?_⟩
  rw [hp]
  simp

/-- Witness of C29: the frame of a camera actor and a mesh actor on a ready
renderer. -/
theorem Renderables_Acquire_camera_nonempty_witness :
    Renderables_Acquire (readyRenderer 0 [] [] none none)
      [some (cameraActor 0), some (meshActor 1 1 1 1)] = some (frameWith 0) ∧
    (frameWith 0).m_camera.isSome = true ∧
    (frameWith 0).m_renderables.isEmpty = false ∧
    Ready (frameWith 0) = true ∧
    ∃ s2, Render (frameWith 0) = some s2 ∧
      EventName.Pass_GBuffer ∈ passBegins (newCommands (frameWith 0) s2) :=
  ⟨rfl, rfl,
    (Renderables_Acquire_camera_nonempty (readyRenderer 0 [] [] none none)
      [some (cameraActor 0), some (meshActor 1 1 1 1)] (frameWith 0) rfl rfl).1,
    by decide,
    (Renderables_Acquire_camera_nonempty (readyRenderer 0 [] [] none none)
      [some (cameraActor 0), some (meshActor 1 1 1 1)] (frameWith 0) rfl rfl).2 (by decide)⟩


/-! ### The passes of a frame -/

/-- A state that `Renderables_Acquire` returns with the camera set has a non-empty
renderable list: the actor that carries the camera is in it. -/
theorem acquired_camera_nonempty (s0 : Renderer) (l : List (Option Actor)) (s : Renderer)
    (h : Renderables_Acquire s0 l = some s) (hc : s.m_camera.isSome = true) :
    s.m_renderables.isEmpty = false := by
  simp only [Renderables_Acquire] at h
  obtain ⟨sorted, hs, e⟩ := Option.map_eq_some'.1 h
  obtain ⟨hr, -, -, -, -, hcam⟩ := foldl_acquireActor l (Clear s0)
  have hperm := Renderables_Sort_perm_of_some _ _ hs
  rw [hr] at hperm
  simp only [Clear, List.nil_append] at hperm
  rw [← e] at hc ⊢
  have hcam1 : (l.foldl acquireActor (Clear s0)).m_camera.isSome = true := hc
  rw [hcam] at hcam1
  cases hl : liveActors l with
  | nil =>
    rw [hl] at hcam1
    simp [Clear] at hcam1
  | cons a rest =>
    rw [hl] at hperm
    cases sorted with
    | nil => exact absurd hperm.length_eq (by simp)
    | cons b t => rfl

/-- C14: on every frame state, that is every state `s` that `Renderables_Acquire`
returns, of a ready renderer (device initialised, resources and render targets of
`Initialize` there, camera present), `Render` returns and the passes it begins are,
in this order, `Pass_DepthDirectionalLight` (whose event begins only if the
directional light is there and casts shadows), `Pass_GBuffer`, `Pass_PreLight`,
`Pass_Light` (whose event begins only if the light shader has compiled),
`Pass_PostLight`, `Pass_DebugGBuffer`, `Pass_Debug`.  The first five are the events
that begin while no other event of the frame is open, so each begins after the one
before has ended; the two debug passes begin inside `Pass_PostLight`, at its end; and
no event is left open.  The branch "nothing to render" of `Render` is not taken:
the actor of the camera is in the renderable list. -/
theorem Render_pass_order (s0 : Renderer) (l : List (Option Actor)) (s : Renderer)
    (hacq : Renderables_Acquire s0 l = some s) (h : Ready s = true) :
    ∃ s1, Render s = some s1 ∧
      passBegins (newCommands s s1) =
        (if castsShadows s then [EventName.Pass_DepthDirectionalLight] else []) ++
        [EventName.Pass_GBuffer, EventName.Pass_PreLight] ++
        (if lightCompiled s then [EventName.Pass_Light] else []) ++
        [EventName.Pass_PostLight, EventName.Pass_DebugGBuffer, EventName.Pass_Debug] ∧
      outerEvents 0 (newCommands s s1) =
        (if castsShadows s then [EventName.Pass_DepthDirectionalLight] else []) ++
        [EventName.Pass_GBuffer, EventName.Pass_PreLight] ++
        (if lightCompiled s then [EventName.Pass_Light] else []) ++
        [EventName.Pass_PostLight] ∧
      nesting 0 (newCommands s s1) = 0 := by
  obtain ⟨-, -, -, -, -, ⟨a, ha⟩, -, ⟨b, hb⟩, -, ⟨camera, hcam, -⟩⟩ := Ready_parts s h
  have hne := acquired_camera_nonempty s0 l s hacq (by rw [hcam]; rfl)
  obtain ⟨s1, c, e, -, hc, hp, -, hbr, -⟩ := Render_spec s h hne a b ha hb
  rw [← newCommands_of_append s s1 c hc] at hp hbr
  exact ⟨s1, e, hp, by rw [(hbr 0).2, if_pos rfl], (hbr 0).1⟩

/-- Witness of C14 on the frame that `Renderables_Acquire` makes of a camera actor
and a mesh actor on a ready renderer: the passes begun are `Pass_GBuffer`,
`Pass_PreLight`, `Pass_Light`, `Pass_PostLight`, `Pass_DebugGBuffer`,
`Pass_Debug`. -/
theorem Render_pass_order_witness :
    Renderables_Acquire (readyRenderer 0 [] [] none none)
      [some (cameraActor 0), some (meshActor 1 1 1 1)] = some (frameWith 0) ∧
    Ready (frameWith 0) = true ∧
    (Render (frameWith 0)).map (fun s1 => passBegins (newCommands (frameWith 0) s1)) =
      some [EventName.Pass_GBuffer, EventName.Pass_PreLight, EventName.Pass_Light,
        EventName.Pass_PostLight, EventName.Pass_DebugGBuffer, EventName.Pass_Debug] ∧
    ∃ s1, Render (frameWith 0) = some s1 ∧
      passBegins (newCommands (frameWith 0) s1) =
        (if castsShadows (frameWith 0) then [EventName.Pass_DepthDirectionalLight] else []) ++
        [EventName.Pass_GBuffer, EventName.Pass_PreLight] ++
        (if lightCompiled (frameWith 0) then [EventName.Pass_Light] else []) ++
        [EventName.Pass_PostLight, EventName.Pass_DebugGBuffer, EventName.Pass_Debug] ∧
      outerEvents 0 (newCommands (frameWith 0) s1) =
        (if castsShadows (frameWith 0) then [EventName.Pass_DepthDirectionalLight] else []) ++
        [EventName.Pass_GBuffer, EventName.Pass_PreLight] ++
        (if lightCompiled (frameWith 0) then [EventName.Pass_Light] else []) ++
        [EventName.Pass_PostLight] ∧
      nesting 0 (newCommands (frameWith 0) s1) = 0 :=
  ⟨rfl, by decide, by decide,
    Render_pass_order (readyRenderer 0 [] [] none none)
      [some (cameraActor 0), some (meshActor 1 1 1 1)] (frameWith 0) rfl (by decide)⟩

/-! ### Positive resolutions -/

/-- The number of bits dropped by the conversion to `float` leaves at least one
unit: `2 ^ excessBits ≤ a` for a magnitude `a` that is not zero. -/
theorem two_pow_excessBits_le (fuel : Nat) :
    ∀ a : Nat, a ≠ 0 → 2 ^ excessBits fuel a ≤ a := by
  induction fuel with
  | zero => intro a ha; simp [excessBits]; omega
  | succ n ih =>
    intro a ha
    unfold excessBits
    split_ifs with h
    · simp; omega
    · have h2 : a / 2 ≠ 0 := by
        have : (2 : Nat) ^ 24 = 16777216 := by norm_num
        omega
      have := ih (a / 2) h2
      rw [Nat.add_comm, pow_succ]
      omega

/-- The conversion to `float` of a positive integer is positive. -/
theorem roundToFloat_pos (n : Int) (h : 0 < n) : 0 < roundToFloat n := by
  unfold roundToFloat
  rw [Int.sign_eq_one_of_pos h, one_mul]
  have ha : n.natAbs ≠ 0 := by omega
  have hle := two_pow_excessBits_le 64 n.natAbs ha
  have hq : 0 < n.natAbs / 2 ^ excessBits 64 n.natAbs :=
    Nat.div_pos hle (Nat.pos_pow_of_pos _ (by decide))
  have hpos : 0 < roundToBits n.natAbs (excessBits 64 n.natAbs) := by
    unfold roundToBits
    apply Nat.mul_pos
    · split_ifs <;> omega
    · exact Nat.pos_pow_of_pos _ (by decide)
  exact_mod_cast hpos

/-- The resolution that `SetResolution` stores and the dimensions it hands to
`RenderTargets_Create` are positive when both arguments are at least `2`. -/
theorem SetResolution_positive (s : Renderer) (w h : Int) (hw : 2 ≤ w) (hh : 2 ≤ h)
    (hnew : ¬ (s.settings.m_resolution.x = floatOfInt w ∧
      s.settings.m_resolution.y = floatOfInt h)) :
    ∃ w1 h1 : Int, 0 < w1 ∧ 0 < h1 ∧
      SetResolution s w h =
        RenderTargets_Create
          { s with settings := { m_resolution := ⟨floatOfInt w1, floatOfInt h1⟩ } } w1 h1 ∧
      0 < (SetResolution s w h).settings.m_resolution.x ∧
      0 < (SetResolution s w h).settings.m_resolution.y := by
  have e := SetResolution_of_new s w h (by omega) (by omega) hnew
  refine ⟨w - w % 2, h - h % 2, by omega, by omega, e, ?_, ?_⟩
  · rw [e]
    show (0 : ℚ) < floatOfInt (w - w % 2)
    unfold floatOfInt
    exact_mod_cast roundToFloat_pos _ (by omega)
  · rw [e]
    show (0 : ℚ) < floatOfInt (h - h % 2)
    unfold floatOfInt
    exact_mod_cast roundToFloat_pos _ (by omega)

/-- C30 (failing input): from the stored resolution `0 × 0`, `SetResolution(1, 1080)`
passes the test for an invalid resolution, rounds the width down to `0`, stores the
resolution `0 × 1080` and has `RenderTargets_Create` build render textures of
width `0`. -/
theorem SetResolution_stores_zero_width :
    (SetResolution (blankRenderer 0 0) 1 1080).settings.m_resolution = ⟨0, 1080⟩ ∧
    SetResolution (blankRenderer 0 0) 1 1080 =
      RenderTargets_Create { blankRenderer 0 0 with settings := { m_resolution := ⟨0, 1080⟩ } }
        0 1080 ∧
    (SetResolution (blankRenderer 0 0) 1 1080).m_renderTexPing =
      some ⟨4, 0, 1080, false, Texture_Format.Texture_Format_R16G16B16A16_FLOAT⟩ ∧
    (SetResolution (blankRenderer 0 0) 1 1080).m_renderTexShadowing =
      some ⟨7, 0, 540, false, Texture_Format.Texture_Format_R32G32_FLOAT⟩ ∧
    (SetResolution (blankRenderer 0 0) 1 1).settings.m_resolution = ⟨0, 0⟩ := by
  decide

/-! ### The calls of `Pass_GBuffer` -/

/-- The calls of `Pass_GBuffer` on a ready renderer, and the memoized identifiers
after it. -/
theorem Pass_GBuffer_calls (s : Renderer) (h : Ready s = true) :
    ∃ g s1, s.m_gbuffer = some g ∧ Pass_GBuffer s = some s1 ∧
      newCommands s s1 =
        [Command.EventBegin EventName.Pass_GBuffer] ++ g.SetAsRenderTarget s.rhi ++
          g.Clear s.rhi ++
          [Command.Bind_Sampler 0 Sampler.m_samplerAnisotropicWrapAlways] ++
          (gbufferActors
            { geometry := s.m_currentlyBoundGeometry
              shader := s.m_currentlyBoundShader
              material := s.m_currentlyBoundMaterial } s.m_renderables).2 ++
          [Command.EventEnd] ∧
      s1.m_currentlyBoundGeometry = 0 ∧ s1.m_currentlyBoundShader = 0 ∧
      s1.m_currentlyBoundMaterial = 0 := by
  obtain ⟨hrhi, -, ⟨r, hr⟩, ⟨g, hg⟩, -, -, -, -, -, ⟨camera, hcam, -⟩⟩ := Ready_parts s h
  have hcond : (!s.m_rhi) = false := by simp [hrhi]
  refine ⟨g, emit { s with
      m_currentlyBoundGeometry := 0
      m_currentlyBoundShader := 0
      m_currentlyBoundMaterial := 0 } _, hg, ?_, newCommands_of_append s _ _ rfl, rfl, rfl, rfl⟩
  simp only [Pass_GBuffer, hcond, hr, hg, hcam, Bool.false_eq_true, if_false]

/-- The draws of the body of the loop of `Pass_GBuffer`: one `DrawIndexed` if the
actor is to be drawn, none otherwise; and as many `Bind_PerObjectBuffer` calls. -/
theorem gbufferActor_draws (bound : BoundState) (actor : Actor) :
    (gbufferActor bound actor).2.filter isDraw =
      (if drawnInGBuffer actor then [drawCallOf actor] else []) ∧
    (gbufferActor bound actor).2.filterMap objectOf =
      (if drawnInGBuffer actor then [actor.id] else []) := by
  obtain ⟨id, renderable, l, sk, lr, cam⟩ := actor
  cases renderable with
  | none => exact ⟨rfl, rfl⟩
  | some renderable =>
    obtain ⟨geometry, material, cs, ic, io, vo, fr⟩ := renderable
    cases material with
    | none => cases geometry <;> exact ⟨rfl, rfl⟩
    | some material =>
      obtain ⟨mid, shader, opacity, cull⟩ := material
      cases geometry with
      | none => exact ⟨rfl, rfl⟩
      | some geometry =>
        cases shader with
        | none => exact ⟨rfl, rfl⟩
        | some shader =>
          by_cases ho : opacity < 1
          · simp [gbufferActor, drawnInGBuffer, ho]
          · cases fr with
            | false => simp [gbufferActor, drawnInGBuffer, ho]
            | true =>
              simp only [gbufferActor, drawnInGBuffer, ho, drawCallOf, Option.isSome_some,
                decide_False, Bool.not_false, Bool.and_self, if_true, if_false,
                Bool.not_true, Bool.false_eq_true]
              constructor <;> split_ifs <;> rfl

/-- The draws of the loop of `Pass_GBuffer`. -/
theorem gbufferActors_draws (actors : List Actor) :
    ∀ bound, (gbufferActors bound actors).2.filter isDraw =
        (actors.filter drawnInGBuffer).map drawCallOf ∧
      (gbufferActors bound actors).2.filterMap objectOf =
        (actors.filter drawnInGBuffer).map (fun actor => actor.id) := by
  induction actors with
  | nil => intro bound; exact ⟨rfl, rfl⟩
  | cons a rest ih =>
    intro bound
    simp only [gbufferActors, List.filter_append, List.filterMap_append,
      (gbufferActor_draws bound a).1, (gbufferActor_draws bound a).2, (ih _).1, (ih _).2,
      List.filter_cons]
    cases drawnInGBuffer a <;> simp

/-- Binding and clearing the G-buffer makes no draw and binds no per-object
buffer. -/
theorem GBuffer_no_draws (g : GBuffer) (rhi : RHI) :
    (g.SetAsRenderTarget rhi).filter isDraw = [] ∧ (g.Clear rhi).filter isDraw = [] ∧
    (g.SetAsRenderTarget rhi).filterMap objectOf = [] ∧
    (g.Clear rhi).filterMap objectOf = [] := by
  unfold GBuffer.SetAsRenderTarget GBuffer.Clear
  cases rhi.initialized
  · simp
  · simp only [Bool.not_true, Bool.false_eq_true, if_false, List.map_cons, List.map_nil]
    refine ⟨rfl, ?_, rfl, ?_⟩
    · cases g.GBuffer_Target_Albedo.depth <;> cases g.GBuffer_Target_Normal.depth <;>
        cases g.GBuffer_Target_Specular.depth <;> cases g.GBuffer_Target_Depth.depth <;> rfl
    · cases g.GBuffer_Target_Albedo.depth <;> cases g.GBuffer_Target_Normal.depth <;>
        cases g.GBuffer_Target_Specular.depth <;> cases g.GBuffer_Target_Depth.depth <;> rfl

/-- C25: on a ready renderer `Pass_GBuffer` returns, and its `DrawIndexed` calls are
those of the actors of the renderable list that have a renderable component, a
material, a geometry model and a shader, whose material has an opacity not below
`1` and that lie inside the frustum of the camera: one call for each of them, with
the counts and offsets of its geometry, in the order of the list, and no other
draw.  Each of these draws follows the `Bind_PerObjectBuffer` call of its actor. -/
theorem Pass_GBuffer_draws (s : Renderer) (h : Ready s = true) :
    ∃ s1, Pass_GBuffer s = some s1 ∧
      (newCommands s s1).filter isDraw =
        (s.m_renderables.filter drawnInGBuffer).map drawCallOf ∧
      (newCommands s s1).filterMap objectOf =
        (s.m_renderables.filter drawnInGBuffer).map (fun actor => actor.id) := by
  obtain ⟨g, s1, -, e, hc, -⟩ := Pass_GBuffer_calls s h
  refine ⟨s1, e, ?_, ?_⟩
  · rw [hc]
    simp only [List.filter_append, (GBuffer_no_draws g s.rhi).1, (GBuffer_no_draws g s.rhi).2.1,
      (gbufferActors_draws s.m_renderables _).1]
    simp [isDraw]
  · rw [hc]
    simp only [List.filterMap_append, (GBuffer_no_draws g s.rhi).2.2.1,
      (GBuffer_no_draws g s.rhi).2.2.2, (gbufferActors_draws s.m_renderables _).2]
    simp [objectOf]

/-- Witness of C25: a frame with a camera actor, a mesh, and a mesh whose material
has no shader. -/
theorem Pass_GBuffer_draws_witness :
    Ready (readyRenderer 0 [cameraActor 0, meshActor 1 1 1 1, shaderlessActor 2 1 1] [] none
      (some {})) = true ∧
    ∃ s1, Pass_GBuffer (readyRenderer 0 [cameraActor 0, meshActor 1 1 1 1,
        shaderlessActor 2 1 1] [] none (some {})) = some s1 ∧
      (newCommands (readyRenderer 0 [cameraActor 0, meshActor 1 1 1 1,
          shaderlessActor 2 1 1] [] none (some {})) s1).filter isDraw =
        ((readyRenderer 0 [cameraActor 0, meshActor 1 1 1 1,
          shaderlessActor 2 1 1] [] none (some {})).m_renderables.filter drawnInGBuffer).map
            drawCallOf ∧
      (newCommands (readyRenderer 0 [cameraActor 0, meshActor 1 1 1 1,
          shaderlessActor 2 1 1] [] none (some {})) s1).filterMap objectOf =
        ((readyRenderer 0 [cameraActor 0, meshActor 1 1 1 1,
          shaderlessActor 2 1 1] [] none (some {})).m_renderables.filter drawnInGBuffer).map
            (fun actor => actor.id) :=
  ⟨by decide, Pass_GBuffer_draws _ (by decide)⟩

/-! ### Bind elision in `Pass_GBuffer` -/

/-- What is bound at the draws of two command lists one after the other. -/
theorem bindingsAtDraws_append (a b : List Command) :
    ∀ d, bindingsAtDraws d (a ++ b) =
      bindingsAtDraws d a ++ bindingsAtDraws (a.foldl bindStep d) b := by
  induction a with
  | nil => intro d; rfl
  | cons c rest ih =>
    intro d
    cases c <;> simp [bindingsAtDraws, bindStep, ih]

/-- The body of the loop that binds all three: what is bound at its draw and
after it. -/
theorem gbufferActorBindAll_bindings (actor : Actor) (d : Bindings) :
    bindingsAtDraws d (gbufferActorBindAll actor) =
      (if drawnInGBuffer actor then [bindingsOf actor] else []) := by
  obtain ⟨id, renderable, l, sk, lr, cam⟩ := actor
  cases renderable with
  | none => rfl
  | some renderable =>
    obtain ⟨geometry, material, cs, ic, io, vo, fr⟩ := renderable
    cases material with
    | none => cases geometry <;> rfl
    | some material =>
      obtain ⟨mid, shader, opacity, cull⟩ := material
      cases geometry with
      | none => rfl
      | some geometry =>
        cases shader with
        | none => rfl
        | some shader =>
          by_cases ho : opacity < 1
          · simp [gbufferActorBindAll, drawnInGBuffer, ho, bindingsAtDraws]
          · cases fr with
            | false => simp [gbufferActorBindAll, drawnInGBuffer, ho, bindingsAtDraws]
            | true =>
              simp [gbufferActorBindAll, drawnInGBuffer, ho, bindingsAtDraws, bindStep,
                bindingsOf]

/-- Calls that bind nothing and draw nothing leave the bindings and add no draw. -/
theorem bindings_neutral (l : List Command)
    (h : ∀ c ∈ l, isDraw c = false ∧ ∀ d, bindStep d c = d) :
    ∀ d, bindingsAtDraws d l = [] ∧ l.foldl bindStep d = d := by
  induction l with
  | nil => intro d; exact ⟨rfl, rfl⟩
  | cons c rest ih =>
    intro d
    obtain ⟨h1, h2⟩ := h c (List.mem_cons_self _ _)
    have hr := ih (fun x hx => h x (List.mem_cons_of_mem _ hx)) d
    rw [List.foldl_cons, h2 d]
    refine ⟨?_, hr.2⟩
    cases c <;> first
      | (have e := h2 d
         simp only [bindingsAtDraws]
         rw [e]
         exact hr.1)
      | (simp [isDraw] at h1)

/-- Binding and clearing the G-buffer binds no geometry, shader or material and
draws nothing. -/
theorem GBuffer_neutral (g : GBuffer) (rhi : RHI) :
    (∀ c ∈ g.SetAsRenderTarget rhi, isDraw c = false ∧ ∀ d, bindStep d c = d) ∧
    (∀ c ∈ g.Clear rhi, isDraw c = false ∧ ∀ d, bindStep d c = d) := by
  unfold GBuffer.SetAsRenderTarget GBuffer.Clear
  constructor
  · intro c hc
    split_ifs at hc
    · simp at hc
    · simp only [List.mem_cons, List.mem_singleton, List.not_mem_nil, or_false] at hc
      rcases hc with rfl | rfl <;> exact ⟨rfl, fun _ => rfl⟩
  · intro c hc
    split_ifs at hc
    · simp at hc
    · obtain ⟨t, -, rfl⟩ := List.mem_map.1 hc
      split_ifs <;> exact ⟨rfl, fun _ => rfl⟩

/-- The body of the loop of `Pass_GBuffer` on an actor of the list: when the
memoized identifiers tell what is bound, the actor is drawn with its own geometry,
shader and material bound, and the identifiers tell what is bound afterwards. -/
theorem gbufferActor_bindings (actors : List Actor) (hz : nonzeroIDs actors)
    (hu : distinctIDs actors) (actor : Actor) (hmem : actor ∈ actors) (bound : BoundState)
    (d : Bindings) (ht : Tracks actors bound d) :
    bindingsAtDraws d (gbufferActor bound actor).2 =
      (if drawnInGBuffer actor then [bindingsOf actor] else []) ∧
    Tracks actors (gbufferActor bound actor).1
      ((gbufferActor bound actor).2.foldl bindStep d) := by
  have hza := hz actor hmem
  have hua := hu actor hmem
  obtain ⟨id, renderable, l, sk, lr, cam⟩ := actor
  cases renderable with
  | none => exact ⟨rfl, ht⟩
  | some renderable =>
    obtain ⟨geometry, material, cs, ic, io, vo, fr⟩ := renderable
    cases material with
    | none => cases geometry <;> exact ⟨rfl, ht⟩
    | some material =>
      cases geometry with
      | none => exact ⟨rfl, ht⟩
      | some geometry =>
        cases hsh : material.shader with
        | none =>
          refine ⟨?_, ?_⟩
          · simp [gbufferActor, drawnInGBuffer, hsh, bindingsAtDraws]
          · simpa [gbufferActor, hsh] using ht
        | some shader =>
          by_cases ho : material.opacity < 1
          · refine ⟨?_, ?_⟩
            · simp [gbufferActor, drawnInGBuffer, hsh, ho, bindingsAtDraws]
            · simpa [gbufferActor, hsh, ho] using ht
          · cases fr with
            | false =>
              refine ⟨?_, ?_⟩
              · simp [gbufferActor, drawnInGBuffer, hsh, ho, bindingsAtDraws]
              · simpa [gbufferActor, hsh, ho] using ht
            | true =>
              have hdrawn : drawnInGBuffer
                  { id := id
                    renderable := some
                      { geometryModel := some geometry, material := some material,
                        castShadows := cs, indexCount := ic, indexOffset := io,
                        vertexOffset := vo, inViewFrustrum := true }
                    light := l, skybox := sk, lineRenderer := lr, camera := cam } = true := by
                simp [drawnInGBuffer, hsh, ho]
              obtain ⟨hzg, hzs, hzm⟩ := hza hdrawn
              have hzg1 : geometry.resourceID ≠ 0 := by
                intro h0
                apply hzg
                simp [bindingsOf, hsh, h0]
              have hzs1 : shader.resourceID ≠ 0 := by
                intro h0
                apply hzs
                simp [bindingsOf, hsh, h0]
              have hzm1 : material.resourceID ≠ 0 := by
                intro h0
                apply hzm
                simp [materialOf, h0]
              obtain ⟨tg, ts, tm⟩ := ht
              have hgeo : bound.geometry = geometry.resourceID →
                  d.geometry = some geometry.resourceID := by
                intro e
                rw [← e]
                exact tg (by rw [e]; exact hzg1)
              have hshd : bound.shader = shader.resourceID →
                  d.shader = some shader.resourceID := by
                intro e
                rw [← e]
                exact ts (by rw [e]; exact hzs1)
              have hmat : bound.material = material.resourceID →
                  d.material = some (shader.resourceID, material.resourceID) := by
                intro e
                obtain ⟨m, sh, ⟨a, ha, hma⟩, hm1, hm2, hm3⟩ := tm (by rw [e]; exact hzm1)
                have hmm : material = m := by
                  have := hua a ha (by rw [hma]; simp [materialOf, hm1, e])
                  rw [hma] at this
                  exact Option.some.inj this
                rw [← hmm, hsh] at hm2
                rw [hm3, ← hmm, ← Option.some.inj hm2]
              have hbo : bindingsOf
                  { id := id
                    renderable := some
                      { geometryModel := some geometry, material := some material,
                        castShadows := cs, indexCount := ic, indexOffset := io,
                        vertexOffset := vo, inViewFrustrum := true }
                    light := l, skybox := sk, lineRenderer := lr, camera := cam } =
                  { geometry := some geometry.resourceID
                    shader := some shader.resourceID
                    material := some (shader.resourceID, material.resourceID) } := by
                simp [bindingsOf, hsh]
              rw [hdrawn, if_pos rfl, hbo]
              obtain ⟨dg, ds, dm⟩ := d
              simp only [gbufferActor, hsh, ho, if_false, Bool.not_true, Bool.false_eq_true]
              by_cases e1 : bound.geometry = geometry.resourceID <;>
                by_cases e2 : bound.shader = shader.resourceID <;>
                by_cases e3 : bound.material = material.resourceID <;>
                simp [e1, e2, e3, bindingsAtDraws, bindStep, Tracks] <;>
                simp_all <;>
                exact ⟨material, ⟨_, hmem, rfl⟩, rfl, shader, hsh, rfl, rfl⟩

/-- The loop of `Pass_GBuffer` on actors of the list: when the memoized identifiers
tell what is bound, every actor that is drawn is drawn with its own geometry,
shader and material bound. -/
theorem gbufferActors_bindings (actors : List Actor) (hz : nonzeroIDs actors)
    (hu : distinctIDs actors) (l : List Actor) :
    (∀ a ∈ l, a ∈ actors) → ∀ (bound : BoundState) (d : Bindings), Tracks actors bound d →
      bindingsAtDraws d (gbufferActors bound l).2 = (l.filter drawnInGBuffer).map bindingsOf := by
  induction l with
  | nil => intro _ bound d _; rfl
  | cons a rest ih =>
    intro hsub bound d ht
    obtain ⟨h1, h2⟩ := gbufferActor_bindings actors hz hu a (hsub a (List.mem_cons_self _ _))
      bound d ht
    have h3 := ih (fun x hx => hsub x (List.mem_cons_of_mem _ hx)) _ _ h2
    simp only [gbufferActors, bindingsAtDraws_append, h1, h3, List.filter_cons]
    cases drawnInGBuffer a <;> simp

/-- What is bound at the draws of the loop that binds all three before every
draw. -/
theorem gbufferActorsBindAll_bindings (l : List Actor) :
    ∀ d, bindingsAtDraws d (l.flatMap gbufferActorBindAll) =
      (l.filter drawnInGBuffer).map bindingsOf := by
  induction l with
  | nil => intro d; rfl
  | cons a rest ih =>
    intro d
    simp only [List.flatMap_cons, bindingsAtDraws_append, gbufferActorBindAll_bindings, ih,
      List.filter_cons]
    cases drawnInGBuffer a <;> simp

/-- C27 (counterexample): a mesh whose geometry model has the identifier `0`, its
shader `5` and its material `6`.  `Pass_GBuffer`, entered with nothing memoized,
draws it without binding its geometry, so that at the draw the device has the
geometry that was bound before the pass; the pass that binds all three has the
geometry of the mesh bound. -/
theorem Pass_GBuffer_draws_unbound :
    Ready (readyRenderer 0 [cameraActor 0, meshActor 1 0 5 6] [] none (some {})) = true ∧
    cacheClear (readyRenderer 0 [cameraActor 0, meshActor 1 0 5 6] [] none (some {})) ∧
    distinctIDs [cameraActor 0, meshActor 1 0 5 6] ∧
    (Pass_GBuffer (readyRenderer 0 [cameraActor 0, meshActor 1 0 5 6] [] none (some {}))).map
      (fun s1 => bindingsAtDraws {}
        (newCommands (readyRenderer 0 [cameraActor 0, meshActor 1 0 5 6] [] none (some {}))
          s1)) = some [{ geometry := none, shader := some 5, material := some (5, 6) }] ∧
    bindingsAtDraws {} ([cameraActor 0, meshActor 1 0 5 6].flatMap gbufferActorBindAll) =
      [{ geometry := some 0, shader := some 5, material := some (5, 6) }] := by
  decide

/-- C27 (amended): on a ready renderer that enters `Pass_GBuffer` with nothing
memoized, with a renderable list in which the resources of the actors to be drawn
have identifiers other than `0` and distinct materials have distinct identifiers,
whatever was bound before the pass, at every `DrawIndexed` of the pass the geometry,
the shader and the material bound on the device are those of the actor drawn: the
same as in the pass that binds all three before every draw. -/
theorem Pass_GBuffer_bindings (s : Renderer) (h : Ready s = true) (hc : cacheClear s)
    (hz : nonzeroIDs s.m_renderables) (hu : distinctIDs s.m_renderables) (d : Bindings) :
    ∃ s1, Pass_GBuffer s = some s1 ∧
      bindingsAtDraws d (newCommands s s1) =
        bindingsAtDraws d (s.m_renderables.flatMap gbufferActorBindAll) ∧
      bindingsAtDraws d (newCommands s s1) =
        (s.m_renderables.filter drawnInGBuffer).map bindingsOf := by
  obtain ⟨g, s1, -, e, hcalls, -⟩ := Pass_GBuffer_calls s h
  obtain ⟨c1, c2, c3⟩ := hc
  have hpre : ∀ c ∈ [Command.EventBegin EventName.Pass_GBuffer] ++ g.SetAsRenderTarget s.rhi ++
      g.Clear s.rhi ++ [Command.Bind_Sampler 0 Sampler.m_samplerAnisotropicWrapAlways],
      isDraw c = false ∧ ∀ d, bindStep d c = d := by
    intro c hc
    simp only [List.mem_append, List.mem_singleton] at hc
    rcases hc with ((rfl | hc) | hc) | rfl
    · exact ⟨rfl, fun _ => rfl⟩
    · exact (GBuffer_neutral g s.rhi).1 c hc
    · exact (GBuffer_neutral g s.rhi).2 c hc
    · exact ⟨rfl, fun _ => rfl⟩
  have hloop := gbufferActors_bindings s.m_renderables hz hu s.m_renderables
    (fun a ha => ha)
    { geometry := s.m_currentlyBoundGeometry
      shader := s.m_currentlyBoundShader
      material := s.m_currentlyBoundMaterial } d
    ⟨fun hne => absurd c1 hne, fun hne => absurd c2 hne, fun hne => absurd c3 hne⟩
  have hall : bindingsAtDraws d (newCommands s s1) =
      (s.m_renderables.filter drawnInGBuffer).map bindingsOf := by
    rw [hcalls, bindingsAtDraws_append, bindingsAtDraws_append, (bindings_neutral _ hpre d).1,
      (bindings_neutral _ hpre d).2, hloop]
    simp [bindingsAtDraws]
  exact ⟨s1, e, by rw [hall, gbufferActorsBindAll_bindings], hall⟩

/-- Witness of the amended C27: a frame with a camera actor, two meshes that share
model, shader and material, and a third mesh with its own. -/
theorem Pass_GBuffer_bindings_witness :
    Ready (readyRenderer 0 [cameraActor 0, meshActor 1 1 2 3, meshActor 2 1 2 3,
      meshActor 3 4 5 6] [] none (some {})) = true ∧
    cacheClear (readyRenderer 0 [cameraActor 0, meshActor 1 1 2 3, meshActor 2 1 2 3,
      meshActor 3 4 5 6] [] none (some {})) ∧
    nonzeroIDs [cameraActor 0, meshActor 1 1 2 3, meshActor 2 1 2 3, meshActor 3 4 5 6] ∧
    distinctIDs [cameraActor 0, meshActor 1 1 2 3, meshActor 2 1 2 3, meshActor 3 4 5 6] ∧
    ∃ s1, Pass_GBuffer (readyRenderer 0 [cameraActor 0, meshActor 1 1 2 3, meshActor 2 1 2 3,
        meshActor 3 4 5 6] [] none (some {})) = some s1 ∧
      bindingsAtDraws {} (newCommands (readyRenderer 0 [cameraActor 0, meshActor 1 1 2 3,
          meshActor 2 1 2 3, meshActor 3 4 5 6] [] none (some {})) s1) =
        bindingsAtDraws {} ((readyRenderer 0 [cameraActor 0, meshActor 1 1 2 3,
          meshActor 2 1 2 3, meshActor 3 4 5 6] [] none (some {})).m_renderables.flatMap
            gbufferActorBindAll) ∧
      bindingsAtDraws {} (newCommands (readyRenderer 0 [cameraActor 0, meshActor 1 1 2 3,
          meshActor 2 1 2 3, meshActor 3 4 5 6] [] none (some {})) s1) =
        ((readyRenderer 0 [cameraActor 0, meshActor 1 1 2 3, meshActor 2 1 2 3,
          meshActor 3 4 5 6] [] none (some {})).m_renderables.filter drawnInGBuffer).map
            bindingsOf :=
  ⟨by decide, by decide, by decide, by decide,
    Pass_GBuffer_bindings _ (by decide) (by decide) (by decide) (by decide) {}⟩

/-! ### The memoized identifiers at the pass boundaries -/

/-- Having the same memoized identifiers is transitive. -/
theorem sameCache_trans (s t u : Renderer) (h : sameCache s t) (k : sameCache t u) :
    sameCache s u :=
  ⟨k.1.trans h.1, k.2.1.trans h.2.1, k.2.2.trans h.2.2⟩

/-- A state with the memoized identifiers of one in which they are `0` has them
`0`. -/
theorem cacheClear_of_sameCache (s t : Renderer) (h : sameCache s t) (hc : cacheClear s) :
    cacheClear t :=
  ⟨h.1.trans hc.1, h.2.1.trans hc.2.1, h.2.2.trans hc.2.2⟩

/-- After `Pass_DepthDirectionalLight` the memoized geometry is `0` or what it was,
and the memoized shader and material are what they were. -/
theorem Pass_DepthDirectionalLight_cache (s s1 : Renderer) (light : Option Light)
    (h : Pass_DepthDirectionalLight s light = some s1) (hc : cacheClear s) :
    cacheClear s1 := by
  unfold Pass_DepthDirectionalLight at h
  split at h
  · cases h; exact hc
  · split at h
    · cases h; exact hc
    · split at h
      · cases h
      · cases h
        exact ⟨rfl, hc.2.1, hc.2.2⟩

/-- After `Pass_GBuffer` the memoized identifiers are `0`, or what they were if the
pass returned at once. -/
theorem Pass_GBuffer_cache (s s1 : Renderer) (h : Pass_GBuffer s = some s1)
    (hc : cacheClear s) : cacheClear s1 := by
  unfold Pass_GBuffer at h
  split at h
  · cases h; exact hc
  · split at h
    · cases h
      exact ⟨rfl, rfl, rfl⟩
    · cases h

/-- The pass `Pass_PreLight` leaves the memoized identifiers. -/
theorem Pass_PreLight_cache (s s1 : Renderer) (n d z : ShaderResource)
    (i o : Option D3D11_RenderTexture) (h : Pass_PreLight s n d z i o = some s1) :
    sameCache s s1 := by
  unfold Pass_PreLight at h
  split at h
  · cases h
  · split at h
    · cases h
    · cases h
      exact ⟨rfl, rfl, rfl⟩

/-- The pass `Pass_Light` leaves the memoized identifiers. -/
theorem Pass_Light_cache (s s1 : Renderer) (x : ShaderResource)
    (o : Option D3D11_RenderTexture) (h : Pass_Light s x o = some s1) : sameCache s s1 := by
  unfold Pass_Light at h
  split at h
  · cases h
  · split at h
    · cases h; exact ⟨rfl, rfl, rfl⟩
    · split at h
      · split at h
        · cases h
        · cases h; exact ⟨rfl, rfl, rfl⟩
      · cases h

/-- The blocks of `Pass_PostLight` leave the memoized identifiers. -/
theorem PostLight_blocks_cache (s s1 : Renderer) :
    (PostLight_Bloom s = some s1 → sameCache s s1) ∧
    (PostLight_Correction s = some s1 → sameCache s s1) ∧
    (PostLight_FXAA s = some s1 → sameCache s s1) ∧
    (PostLight_ChromaticAberration s = some s1 → sameCache s s1) ∧
    (PostLight_Sharpening s = some s1 → sameCache s s1) := by
  refine ⟨?_, ?_, ?_, ?_, ?_⟩
  · intro h
    unfold PostLight_Bloom at h
    split at h
    · split at h
      · cases h; exact ⟨rfl, rfl, rfl⟩
      · cases h
    · cases h; exact ⟨rfl, rfl, rfl⟩
  · intro h
    unfold PostLight_Correction at h
    split at h
    · split at h
      · cases h; exact ⟨rfl, rfl, rfl⟩
      · cases h
    · cases h; exact ⟨rfl, rfl, rfl⟩
  · intro h
    unfold PostLight_FXAA at h
    split at h
    · split at h
      · cases h; exact ⟨rfl, rfl, rfl⟩
      · cases h
    · cases h; exact ⟨rfl, rfl, rfl⟩
  · intro h
    unfold PostLight_ChromaticAberration at h
    split at h
    · split at h
      · cases h; exact ⟨rfl, rfl, rfl⟩
      · cases h
    · cases h; exact ⟨rfl, rfl, rfl⟩
  · intro h
    unfold PostLight_Sharpening at h
    split at h
    · split at h
      · cases h; exact ⟨rfl, rfl, rfl⟩
      · cases h
    · cases h; exact ⟨rfl, rfl, rfl⟩

/-- The pass `Pass_DebugGBuffer` leaves the memoized identifiers. -/
theorem Pass_DebugGBuffer_cache (s s1 : Renderer) (h : Pass_DebugGBuffer s = some s1) :
    sameCache s s1 := by
  unfold Pass_DebugGBuffer at h
  split at h
  · cases h
  · split at h
    · cases h; exact ⟨rfl, rfl, rfl⟩
    · split at h
      · cases h
      · split at h
        · cases h
        · cases h; exact ⟨rfl, rfl, rfl⟩

/-- The pass `Pass_Debug` leaves the memoized identifiers. -/
theorem Pass_Debug_cache (s s1 : Renderer) (h : Pass_Debug s = some s1) :
    sameCache s s1 := by
  unfold Pass_Debug at h
  split at h
  · split at h
    · cases h
    · split at h
      · cases h
      · cases h; exact ⟨rfl, rfl, rfl⟩
  · cases h

/-- The pass `Pass_PostLight` leaves the memoized identifiers. -/
theorem Pass_PostLight_cache (s s1 : Renderer) (h : Pass_PostLight s = some s1) :
    sameCache s s1 := by
  unfold Pass_PostLight at h
  split at h
  · cases h
  · obtain ⟨t1, e1, h⟩ := Option.bind_eq_some.1 h
    obtain ⟨t2, e2, h⟩ := Option.bind_eq_some.1 h
    obtain ⟨t3, e3, h⟩ := Option.bind_eq_some.1 h
    obtain ⟨t4, e4, h⟩ := Option.bind_eq_some.1 h
    obtain ⟨t5, e5, h⟩ := Option.bind_eq_some.1 h
    obtain ⟨t6, e6, h⟩ := Option.bind_eq_some.1 h
    obtain ⟨t7, e7, h⟩ := Option.map_eq_some'.1 h
    have k1 := (PostLight_blocks_cache _ t1).1 e1
    have k2 := (PostLight_blocks_cache t1 t2).2.1 e2
    have k3 := (PostLight_blocks_cache t2 t3).2.2.1 e3
    have k4 := (PostLight_blocks_cache t3 t4).2.2.2.1 e4
    have k5 := (PostLight_blocks_cache t4 t5).2.2.2.2 e5
    have k6 := Pass_DebugGBuffer_cache t5 t6 e6
    have k7 := Pass_Debug_cache t6 t7 e7
    have k := sameCache_trans _ _ _ (sameCache_trans _ _ _ (sameCache_trans _ _ _
      (sameCache_trans _ _ _ (sameCache_trans _ _ _
        (sameCache_trans _ _ _ k1 k2) k3) k4) k5) k6) k7
    rw [← h]
    exact k

/-- The function `Render` keeps the memoized identifiers `0`. -/
theorem Render_cache (s s1 : Renderer) (h : Render s = some s1) (hc : cacheClear s) :
    cacheClear s1 := by
  unfold Render at h
  split at h
  · cases h; exact hc
  · split at h
    · split at h
      · cases h; exact hc
      · obtain ⟨t1, e1, h⟩ := Option.bind_eq_some.1 h
        obtain ⟨t2, e2, h⟩ := Option.bind_eq_some.1 h
        obtain ⟨t3, e3, h⟩ := Option.bind_eq_some.1 h
        obtain ⟨t4, e4, h⟩ := Option.bind_eq_some.1 h
        have c1 := Pass_DepthDirectionalLight_cache s t1 _ e1 hc
        have c2 := Pass_GBuffer_cache t1 t2 e2 c1
        have k3 : sameCache t2 t3 := by
          split at e3
          · exact Pass_PreLight_cache _ _ _ _ _ _ _ e3
          · cases e3
        have k4 : sameCache t3 t4 := by
          split at e4
          · exact Pass_Light_cache _ _ _ _ e4
          · cases e4
        have k5 := Pass_PostLight_cache t4 s1 h
        exact cacheClear_of_sameCache _ _
          (sameCache_trans _ _ _ (sameCache_trans _ _ _ k3 k4) k5) c2
    · cases h; exact hc

/-- The loop of `Renderables_Acquire` leaves the memoized identifiers. -/
theorem foldl_acquireActor_cache (l : List (Option Actor)) :
    ∀ s : Renderer, sameCache s (l.foldl acquireActor s) := by
  induction l with
  | nil => intro s; exact ⟨rfl, rfl, rfl⟩
  | cons a rest ih =>
    intro s
    refine sameCache_trans _ _ _ ?_ (ih (acquireActor s a))
    cases a with
    | none => exact ⟨rfl, rfl, rfl⟩
    | some actor =>
      obtain ⟨id, renderable, light, skybox, lineRenderer, camera⟩ := actor
      cases light <;> cases skybox <;> cases camera <;> exact ⟨rfl, rfl, rfl⟩

/-- The function `Renderables_Acquire` leaves the memoized identifiers. -/
theorem Renderables_Acquire_cache (s s1 : Renderer) (l : List (Option Actor))
    (h : Renderables_Acquire s l = some s1) : sameCache s s1 := by
  unfold Renderables_Acquire at h
  cases hs : Renderables_Sort (l.foldl acquireActor (Clear s)).m_renderables with
  | none => simp [hs] at h
  | some sorted =>
    simp only [hs, Option.map_some', Option.some.injEq] at h
    rw [← h]
    exact foldl_acquireActor_cache l (Clear s)

/-- A sequence of frames keeps the memoized identifiers `0`. -/
theorem renderFrames_cache (frames : List FrameInput) :
    ∀ s t : Renderer, renderFrames s frames = some t → cacheClear s → cacheClear t := by
  induction frames with
  | nil =>
    intro s t h hc
    simp only [renderFrames, Option.some.injEq] at h
    rw [← h]
    exact hc
  | cons frame rest ih =>
    intro s t h hc
    simp only [renderFrames, renderFrame] at h
    obtain ⟨v, hv, h⟩ := Option.bind_eq_some.1 h
    obtain ⟨u, e1, e2⟩ := Option.bind_eq_some.1 hv
    have cu : cacheClear u :=
      cacheClear_of_sameCache _ _ (Renderables_Acquire_cache _ _ _ e1) hc
    exact ih v t h (Render_cache u v e2 cu)

/-- C26: let the memoized identifiers of geometry, shader and material be `0` when
the first frame begins.  Then after every number of frames, whatever the flags and
the actors of each frame, they are `0`; and in the next frame they are `0` when
`Pass_DepthDirectionalLight` begins, when it ends and `Pass_GBuffer` begins, when
`Pass_GBuffer` ends, and when `Render` returns.  On a ready renderer both passes
return. -/
theorem cache_clear_at_pass_boundaries (s : Renderer) (h0 : cacheClear s)
    (frames : List FrameInput) (frame : FrameInput) :
    ∀ t, renderFrames s frames = some t →
      cacheClear t ∧
      ∀ u, Renderables_Acquire { t with m_flags := frame.flags } frame.actors = some u →
        cacheClear u ∧
        (∀ d, Pass_DepthDirectionalLight u u.m_directionalLight = some d →
          cacheClear d ∧ ∀ g, Pass_GBuffer d = some g → cacheClear g) ∧
        (∀ v, Render u = some v → cacheClear v) ∧
        (Ready u = true →
          ∃ d g, Pass_DepthDirectionalLight u u.m_directionalLight = some d ∧
            Pass_GBuffer d = some g ∧ cacheClear d ∧ cacheClear g) := by
  intro t ht
  have ct := renderFrames_cache frames s t ht h0
  refine ⟨ct, ?_⟩
  intro u hu
  have cu : cacheClear u :=
    cacheClear_of_sameCache _ _ (Renderables_Acquire_cache _ _ _ hu) ct
  refine ⟨cu, ?_, ?_, ?_⟩
  · intro d hd
    have cd := Pass_DepthDirectionalLight_cache u d _ hd cu
    exact ⟨cd, fun g hg => Pass_GBuffer_cache d g hg cd⟩
  · intro v hv
    exact Render_cache u v hv cu
  · intro hready
    obtain ⟨d, -, hd, hsu, -⟩ := Pass_DepthDirectionalLight_spec u hready
    obtain ⟨g, -, hg, -⟩ := Pass_GBuffer_spec d (Ready_of_sameSetup u d hsu hready)
    have cd := Pass_DepthDirectionalLight_cache u d _ hd cu
    exact ⟨d, g, hd, hg, cd, Pass_GBuffer_cache d g hg cd⟩

/-- Witness of C26: a ready renderer, one frame with the FXAA flag, and a next
frame with a directional light that casts shadows. -/
theorem cache_clear_at_pass_boundaries_witness :
    cacheClear (readyRenderer 0 [] [] none none) ∧
    (renderFrames (readyRenderer 0 [] [] none none)
      [⟨Render_FXAA, [some (cameraActor 0), some (meshActor 1 1 1 1)]⟩,
        ⟨0, [some (cameraActor 0), some (meshActor 1 1 1 1), some (sunActor 2)]⟩]).isSome =
      true ∧
    ∀ t, renderFrames (readyRenderer 0 [] [] none none)
        [⟨Render_FXAA, [some (cameraActor 0), some (meshActor 1 1 1 1)]⟩] = some t →
      cacheClear t ∧
      ∀ u, Renderables_Acquire { t with m_flags := 0 }
          [some (cameraActor 0), some (meshActor 1 1 1 1), some (sunActor 2)] = some u →
        cacheClear u ∧
        (∀ d, Pass_DepthDirectionalLight u u.m_directionalLight = some d →
          cacheClear d ∧ ∀ g, Pass_GBuffer d = some g → cacheClear g) ∧
        (∀ v, Render u = some v → cacheClear v) ∧
        (Ready u = true →
          ∃ d g, Pass_DepthDirectionalLight u u.m_directionalLight = some d ∧
            Pass_GBuffer d = some g ∧ cacheClear d ∧ cacheClear g) :=
  ⟨by decide, by decide,
    cache_clear_at_pass_boundaries (readyRenderer 0 [] [] none none) (by decide)
      [⟨Render_FXAA, [some (cameraActor 0), some (meshActor 1 1 1 1)]⟩]
      ⟨0, [some (cameraActor 0), some (meshActor 1 1 1 1), some (sunActor 2)]⟩⟩

/-! ### The input of the box blur -/

/-- In `Pass_PreLight` the box blur reads the render texture handed in as
`inRenderTexure` and renders into `outRenderTextureShadowing`; `Pass_Shadowing`
renders into `inRenderTexure` exactly when the frame has a directional light. -/
theorem Pass_PreLight_blur (s : Renderer) (n d z : ShaderResource)
    (a t : D3D11_RenderTexture) (h : Ready s = true) :
    ∃ s1, Pass_PreLight s n d z (some a) (some t) = some s1 ∧
      blurInput (newCommands s s1) = some (some (ShaderResource.renderTexture a.id)) ∧
      blurOutput (newCommands s s1) = some t.id ∧
      shadowingOutput (newCommands s s1) =
        (if s.m_directionalLight.isSome then some a.id else none) ∧
      renderTargetCalls (beforeEvent EventName.Pass_Blur (newCommands s s1)) =
        (if s.m_directionalLight.isSome then [a.id] else []) := by
  obtain ⟨hrhi, -, ⟨r, hr⟩, -, ⟨q, hq⟩, -⟩ := Ready_parts s h
  have hcond : (!(s.m_rhi && s.m_resources.isSome && s.m_quad.isSome)) = false := by
    simp [hrhi, hr, hq]
  apply Exists.intro
  refine ⟨?h1, ?_⟩
  case h1 =>
    simp only [Pass_PreLight, hcond, Bool.false_eq_true, if_false]
    rfl
  rw [newCommands_emit]
  cases s.m_directionalLight <;> exact ⟨rfl, rfl, rfl, rfl⟩

/-- C24, evaluated on a frame with a camera, one mesh and no directional light:
`Render` succeeds, the frame has no `Pass_Shadowing` event and no call renders
into render texture `4` (`m_renderTexPing`) before the blur, yet the blur reads
render texture `4` and renders into render texture `7`, the shadowing target; the
first pass to render into texture `4` in the frame is the light pass, after the
blur.  On the same frame with a directional light `Pass_Shadowing` renders into
texture `4` before the blur reads it. -/
theorem Pass_PreLight_blur_without_shadowing :
    (frameWith 0).m_camera.isSome = true ∧ (frameWith 0).m_directionalLight.isNone = true ∧
    (Render (frameWith 0)).map (fun s1 => eventBegins (newCommands (frameWith 0) s1)) =
      some [EventName.Pass_GBuffer, EventName.Pass_PreLight, EventName.Pass_Blur,
        EventName.Pass_Light, EventName.Pass_PostLight, EventName.Pass_DebugGBuffer,
        EventName.Pass_Debug, EventName.Gizmos] ∧
    (Render (frameWith 0)).map (fun s1 => shadowingOutput (newCommands (frameWith 0) s1)) =
      some none ∧
    (Render (frameWith 0)).map (fun s1 =>
        renderTargetCalls (beforeEvent EventName.Pass_Blur (newCommands (frameWith 0) s1))) =
      some [] ∧
    (Render (frameWith 0)).map (fun s1 => blurInput (newCommands (frameWith 0) s1)) =
      some (some (some (ShaderResource.renderTexture 4))) ∧
    (Render (frameWith 0)).map (fun s1 => blurOutput (newCommands (frameWith 0) s1)) =
      some (some 7) ∧
    (Render (frameWith 0)).map (fun s1 =>
        renderTargetCalls (fromEvent EventName.Pass_Blur (newCommands (frameWith 0) s1))) =
      some [7, 4] ∧
    (Render (sunFrame 0)).map (fun s1 => shadowingOutput (newCommands (sunFrame 0) s1)) =
      some (some 4) ∧
    (Render (sunFrame 0)).map (fun s1 => blurInput (newCommands (sunFrame 0) s1)) =
      some (some (some (ShaderResource.renderTexture 4))) ∧
    (Render (sunFrame 0)).map (fun s1 => blurOutput (newCommands (sunFrame 0) s1)) =
      some (some 7) := by
  decide

/-! ### The post-light chain, call by call -/

/-- The block `// BLOOM` written with `afterStage`. -/
theorem PostLight_Bloom_calls (t : Renderer) (a p b : D3D11_RenderTexture)
    (ha : t.m_renderTexPing = some a) (hp : t.m_renderTexPing2 = some p)
    (hb : t.m_renderTexPong = some b) :
    PostLight_Bloom t = some (afterStage t a p b Render_Bloom EventName.Pass_Bloom) := by
  cases hf : RenderFlags_IsSet t Render_Bloom <;>
    simp [PostLight_Bloom, afterStage, hf, ha, hp, hb, swapsAfter, stageCalls]

/-- The block `// CORRECTION` written with `afterStage`. -/
theorem PostLight_Correction_calls (t : Renderer) (a p b : D3D11_RenderTexture)
    (ha : t.m_renderTexPing = some a) (_ : t.m_renderTexPing2 = some p)
    (hb : t.m_renderTexPong = some b) :
    PostLight_Correction t =
      some (afterStage t a p b Render_Correction EventName.Pass_Correction) := by
  cases hf : RenderFlags_IsSet t Render_Correction <;>
    simp [PostLight_Correction, afterStage, hf, ha, hb, swapsAfter, stageCalls]

/-- The block `// FXAA` written with `afterStage`. -/
theorem PostLight_FXAA_calls (t : Renderer) (a p b : D3D11_RenderTexture)
    (ha : t.m_renderTexPing = some a) (_ : t.m_renderTexPing2 = some p)
    (hb : t.m_renderTexPong = some b) :
    PostLight_FXAA t = some (afterStage t a p b Render_FXAA EventName.Pass_FXAA) := by
  cases hf : RenderFlags_IsSet t Render_FXAA <;>
    simp [PostLight_FXAA, afterStage, hf, ha, hb, swapsAfter, stageCalls]

/-- The block `// CHROMATIC ABERRATION` written with `afterStage`. -/
theorem PostLight_ChromaticAberration_calls (t : Renderer) (a p b : D3D11_RenderTexture)
    (ha : t.m_renderTexPing = some a) (_ : t.m_renderTexPing2 = some p)
    (hb : t.m_renderTexPong = some b) :
    PostLight_ChromaticAberration t =
      some (afterStage t a p b Render_ChromaticAberration
        EventName.Pass_ChromaticAberration) := by
  cases hf : RenderFlags_IsSet t Render_ChromaticAberration <;>
    simp [PostLight_ChromaticAberration, afterStage, hf, ha, hb, swapsAfter, stageCalls]

/-- The block `// SHARPENING` written with `afterStage`. -/
theorem PostLight_Sharpening_calls (t : Renderer) (a p b : D3D11_RenderTexture)
    (ha : t.m_renderTexPing = some a) (_ : t.m_renderTexPing2 = some p)
    (hb : t.m_renderTexPong = some b) :
    PostLight_Sharpening t =
      some (afterStage t a p b Render_Sharpening EventName.Pass_Sharpening) := by
  cases hf : RenderFlags_IsSet t Render_Sharpening <;>
    simp [PostLight_Sharpening, afterStage, hf, ha, hb, swapsAfter, stageCalls]

/-- The calls of a stage depend on the state only through the index count of the
quad. -/
theorem stageCalls_congr (s t : Renderer) (h : t.external = s.external)
    (a p b : D3D11_RenderTexture) (name : EventName) :
    stageCalls t a p b name = stageCalls s a p b name := by
  cases name <;>
    simp only [stageCalls, Pass_Bloom, Pass_Correction, Pass_FXAA, Pass_ChromaticAberration,
      Pass_Sharpening, fullScreenDraw, SetRenderTarget, h, Bool.false_eq_true, if_false]

/-- Calls that begin no post-light stage add nothing to `stageTransfers`. -/
theorem stageTransfers_append_of_no_stage (l m : List Command) (h : stageBegins l = []) :
    stageTransfers (l ++ m) = stageTransfers m := by
  induction l with
  | nil => rfl
  | cons c l ih =>
    cases c with
    | EventBegin name =>
      cases hn : isStage name with
      | true => simp [stageBegins, eventBegins, eventOf, List.filter_cons, hn] at h
      | false =>
        have hl : stageBegins l = [] := by
          simpa [stageBegins, eventBegins, eventOf, List.filter_cons, hn] using h
        simp [stageTransfers, hn, ih hl]
    | _ =>
      first
        | exact ih (by simpa [stageBegins, eventBegins, eventOf] using h)

/-- What `stageTransfers` reads from the calls of one stage: it reads `a` and writes
`b`. -/
theorem stageTransfers_stageCalls (s : Renderer) (a p b : D3D11_RenderTexture) (name : EventName)
    (hn : isStage name = true) (rest : List Command) :
    stageTransfers (stageCalls s a p b name ++ rest) =
      { name := name, input := some (ShaderResource.renderTexture a.id),
        output := some b.id } :: stageTransfers rest := by
  cases name <;> first | rfl | (simp [isStage] at hn)

/-- What `stageTransfers` reads from the calls of a chain of stages. -/
theorem stageTransfers_chainCalls (s : Renderer) (p : D3D11_RenderTexture) (names : List EventName)
    (hn : ∀ name ∈ names, isStage name = true) :
    ∀ (a b : D3D11_RenderTexture) (rest : List Command),
      stageTransfers (chainCalls s p a b names ++ rest) =
        chainedTransfers a.id b.id names ++ stageTransfers rest := by
  induction names with
  | nil => intro a b rest; rfl
  | cons name names ih =>
    intro a b rest
    have h1 := hn name (List.mem_cons_self _ _)
    have h2 : ∀ x ∈ names, isStage x = true := fun x hx => hn x (List.mem_cons_of_mem _ hx)
    simp only [chainCalls, List.append_assoc]
    rw [stageTransfers_stageCalls s a p b name h1]
    cases hs : swapsAfter name with
    | true => simp [chainedTransfers, ih h2, hs]
    | false => simp [chainedTransfers, ih h2, hs]

/-- The targets after a chain of stages that all swap, and after a sharpening stage
at its end. -/
theorem chainTargets_alternate (names : List EventName) :
    ∀ a b : D3D11_RenderTexture,
      chainTargets a b names =
        (alternate a b (names.filter swapsAfter).length,
          alternate b a (names.filter swapsAfter).length) := by
  induction names with
  | nil => intro a b; rfl
  | cons name names ih =>
    intro a b
    cases hs : swapsAfter name with
    | true =>
      simp only [chainTargets, hs, if_true, List.filter_cons, List.length_cons, ih b a]
      unfold alternate
      rcases Nat.mod_two_eq_zero_or_one (names.filter swapsAfter).length with h | h
      · have h2 : ((names.filter swapsAfter).length + 1) % 2 = 1 := by omega
        simp [h, h2]
      · have h2 : ((names.filter swapsAfter).length + 1) % 2 = 0 := by omega
        simp [h, h2]
    | false =>
      simp only [chainTargets, hs, List.filter_cons, ih a b, Bool.false_eq_true, if_false]

/-- One more block of `Pass_PostLight`, call by call: if the blocks of the stages
`done` have made the calls `acc` on top of the state `s0` and have left `x` and `y`
in `m_renderTexPing` and `m_renderTexPong`, so that these calls followed by the
calls of any further stages from `x` and `y` are the calls of the whole chain, then
the same holds after the block of the stage `name`. -/
theorem calls_step (s0 : Renderer) (a p b : D3D11_RenderTexture)
    (done : List (Nat × EventName)) (flag : Nat) (name : EventName)
    (t : Renderer) (acc : List Command) (x y : D3D11_RenderTexture)
    (hsc : sameScene s0 t) (hcmd : t.rhi.commands = s0.rhi.commands ++ acc)
    (hx : t.m_renderTexPing = some x) (hy : t.m_renderTexPong = some y)
    (hcalls : ∀ more, chainCalls s0 p a b (enabledStages s0 done ++ more) =
      acc ++ chainCalls s0 p x y more)
    (htar : ∀ more, chainTargets a b (enabledStages s0 done ++ more) = chainTargets x y more) :
    ∃ acc1 x1 y1,
      sameScene s0 (afterStage t x p y flag name) ∧
      (afterStage t x p y flag name).rhi.commands = s0.rhi.commands ++ acc1 ∧
      (afterStage t x p y flag name).m_renderTexPing = some x1 ∧
      (afterStage t x p y flag name).m_renderTexPong = some y1 ∧
      (∀ more, chainCalls s0 p a b (enabledStages s0 (done ++ [(flag, name)]) ++ more) =
        acc1 ++ chainCalls s0 p x1 y1 more) ∧
      (∀ more, chainTargets a b (enabledStages s0 (done ++ [(flag, name)]) ++ more) =
        chainTargets x1 y1 more) := by
  have hflag := flags_of_sameScene s0 t hsc flag
  have hext : t.external = s0.external := hsc.2.2.1
  cases hf : RenderFlags_IsSet s0 flag with
  | false =>
    have hft : RenderFlags_IsSet t flag = false := by rw [hflag, hf]
    refine ⟨acc, x, y, ?_, ?_, ?_, ?_, ?_, ?_⟩
    · simp only [afterStage, hft, Bool.false_eq_true, if_false]; exact hsc
    · simp only [afterStage, hft, Bool.false_eq_true, if_false]; exact hcmd
    · simp only [afterStage, hft, Bool.false_eq_true, if_false]; exact hx
    · simp only [afterStage, hft, Bool.false_eq_true, if_false]; exact hy
    · intro more
      rw [enabledStages_concat, hf]
      simpa using hcalls more
    · intro more
      rw [enabledStages_concat, hf]
      simpa using htar more
  | true =>
    have hft : RenderFlags_IsSet t flag = true := by rw [hflag, hf]
    have hcg := stageCalls_congr s0 t hext x p y name
    cases hs : swapsAfter name with
    | true =>
      refine ⟨acc ++ stageCalls s0 x p y name, y, x, ?_, ?_, ?_, ?_, ?_, ?_⟩
      · simp only [afterStage, hft, hs, if_true]
        exact sameScene_trans s0 t _ hsc
          ⟨rfl, rfl, rfl, rfl, rfl, rfl, rfl, rfl, rfl, rfl, rfl, rfl, rfl, rfl, rfl, rfl, rfl⟩
      · simp only [afterStage, hft, hs, if_true]
        show t.rhi.commands ++ stageCalls t x p y name = _
        rw [hcmd, hcg, List.append_assoc]
      · simp only [afterStage, hft, hs, if_true]
        exact hy
      · simp only [afterStage, hft, hs, if_true]
        exact hx
      · intro more
        rw [enabledStages_concat, hf]
        simp only [if_true, List.append_assoc, List.singleton_append]
        rw [hcalls]
        simp only [chainCalls, hs, if_true, List.append_assoc]
      · intro more
        rw [enabledStages_concat, hf]
        simp only [if_true, List.append_assoc, List.singleton_append]
        rw [htar]
        simp only [chainTargets, hs, if_true]
    | false =>
      refine ⟨acc ++ stageCalls s0 x p y name, x, y, ?_, ?_, ?_, ?_, ?_, ?_⟩
      · simp only [afterStage, hft, hs, if_true, Bool.false_eq_true, if_false]
        exact sameScene_trans s0 t _ hsc
          ⟨rfl, rfl, rfl, rfl, rfl, rfl, rfl, rfl, rfl, rfl, rfl, rfl, rfl, rfl, rfl, rfl, rfl⟩
      · simp only [afterStage, hft, hs, if_true, Bool.false_eq_true, if_false]
        show t.rhi.commands ++ stageCalls t x p y name = _
        rw [hcmd, hcg, List.append_assoc]
      · simp only [afterStage, hft, hs, if_true, Bool.false_eq_true, if_false]
        exact hx
      · simp only [afterStage, hft, hs, if_true, Bool.false_eq_true, if_false]
        exact hy
      · intro more
        rw [enabledStages_concat, hf]
        simp only [if_true, List.append_assoc, List.singleton_append]
        rw [hcalls]
        simp only [chainCalls, hs, Bool.false_eq_true, if_false, List.append_assoc]
      · intro more
        rw [enabledStages_concat, hf]
        simp only [if_true, List.append_assoc, List.singleton_append]
        rw [htar]
        simp only [chainTargets, hs, Bool.false_eq_true, if_false]

/-- The calls of a chain depend on the state only through the index count of the
quad. -/
theorem chainCalls_congr (s t : Renderer) (h : t.external = s.external)
    (p : D3D11_RenderTexture) (names : List EventName) :
    ∀ a b : D3D11_RenderTexture, chainCalls t p a b names = chainCalls s p a b names := by
  induction names with
  | nil => intro a b; rfl
  | cons name names ih =>
    intro a b
    simp only [chainCalls, stageCalls_congr s t h, ih]

/-- On a ready renderer with `a`, `p`, `b` in `m_renderTexPing`, `m_renderTexPing2`
and `m_renderTexPong`, `Pass_PostLight` returns, and its calls are: the beginning of
the event and the set-up of the quad, the calls of the enabled stages run as a chain
from `a` and `b`, the calls `c6` of `Pass_DebugGBuffer`, the calls `c7` of
`Pass_Debug`, and the end of the event.  The members hold the targets that the chain
leaves. -/
theorem Pass_PostLight_calls (s : Renderer) (h : Ready s = true)
    (a p b : D3D11_RenderTexture) (ha : s.m_renderTexPing = some a)
    (hp : s.m_renderTexPing2 = some p) (hb : s.m_renderTexPong = some b) :
    ∃ s1 c6 c7, Pass_PostLight s = some s1 ∧ sameScene s s1 ∧
      s1.rhi.commands = s.rhi.commands ++
        ([Command.EventBegin EventName.Pass_PostLight, Command.Rectangle_SetBuffer,
          Command.Set_PrimitiveTopology PrimitiveTopology.PrimitiveTopology_TriangleList,
          Command.SetCullMode CullMode.Cull_Back] ++
          chainCalls s p a b (enabledStages s stageTable) ++ c6 ++ c7 ++ [Command.EventEnd]) ∧
      passBegins c6 = [EventName.Pass_DebugGBuffer] ∧ stageBegins c6 = [] ∧
      passBegins c7 = [EventName.Pass_Debug] ∧ stageBegins c7 = [] ∧
      s1.m_renderTexPing = some (chainTargets a b (enabledStages s stageTable)).1 ∧
      s1.m_renderTexPong = some (chainTargets a b (enabledStages s stageTable)).2 := by
  obtain ⟨hrhi, -, ⟨r, hr⟩, -, ⟨q, hq⟩, -⟩ := Ready_parts s h
  have hcond : (!(s.m_rhi && s.m_resources.isSome && s.m_quad.isSome)) = false := by
    simp [hrhi, hr, hq]
  obtain ⟨s0, hs0⟩ : ∃ s0, s0 = emit s
      [Command.EventBegin EventName.Pass_PostLight, Command.Rectangle_SetBuffer,
        Command.Set_PrimitiveTopology PrimitiveTopology.PrimitiveTopology_TriangleList,
        Command.SetCullMode CullMode.Cull_Back] := ⟨_, rfl⟩
  have hss0 : sameScene s s0 := by rw [hs0]; exact sameScene_refl s
  have hp2 : ∀ t, sameScene s0 t → t.m_renderTexPing2 = some p := by
    intro t ht
    obtain ⟨-, -, -, -, -, -, -, -, h9, -⟩ := ht
    rw [h9, hs0]
    exact hp
  have ha0 : s0.m_renderTexPing = some a := by rw [hs0]; exact ha
  have hb0 : s0.m_renderTexPong = some b := by rw [hs0]; exact hb
  have e1 := PostLight_Bloom_calls s0 a p b ha0 (hp2 s0 (sameScene_refl s0)) hb0
  obtain ⟨acc1, x1, y1, sc1, cm1, px1, py1, hc1, ht1⟩ :=
    calls_step s0 a p b [] Render_Bloom EventName.Pass_Bloom s0 [] a b (sameScene_refl s0)
      (by simp) ha0 hb0 (fun more => rfl) (fun more => rfl)
  have e2 := PostLight_Correction_calls _ x1 p y1 px1 (hp2 _ sc1) py1
  obtain ⟨acc2, x2, y2, sc2, cm2, px2, py2, hc2, ht2⟩ :=
    calls_step s0 a p b _ Render_Correction EventName.Pass_Correction _ acc1 x1 y1 sc1 cm1
      px1 py1 hc1 ht1
  have e3 := PostLight_FXAA_calls _ x2 p y2 px2 (hp2 _ sc2) py2
  obtain ⟨acc3, x3, y3, sc3, cm3, px3, py3, hc3, ht3⟩ :=
    calls_step s0 a p b _ Render_FXAA EventName.Pass_FXAA _ acc2 x2 y2 sc2 cm2
      px2 py2 hc2 ht2
  have e4 := PostLight_ChromaticAberration_calls _ x3 p y3 px3 (hp2 _ sc3) py3
  obtain ⟨acc4, x4, y4, sc4, cm4, px4, py4, hc4, ht4⟩ :=
    calls_step s0 a p b _ Render_ChromaticAberration EventName.Pass_ChromaticAberration _
      acc3 x3 y3 sc3 cm3 px3 py3 hc3 ht3
  have e5 := PostLight_Sharpening_calls _ x4 p y4 px4 (hp2 _ sc4) py4
  obtain ⟨acc5, x5, y5, sc5, cm5, px5, py5, hc5, ht5⟩ :=
    calls_step s0 a p b _ Render_Sharpening EventName.Pass_Sharpening _ acc4 x4 y4 sc4 cm4
      px4 py4 hc4 ht4
  have htable : ([] ++ [(Render_Bloom, EventName.Pass_Bloom)] ++
      [(Render_Correction, EventName.Pass_Correction)] ++ [(Render_FXAA, EventName.Pass_FXAA)] ++
      [(Render_ChromaticAberration, EventName.Pass_ChromaticAberration)] ++
      [(Render_Sharpening, EventName.Pass_Sharpening)]) = stageTable := rfl
  rw [htable, enabledStages_of_sameScene s s0 hss0] at hc5 ht5
  have hc := hc5 []
  have ht := ht5 []
  simp only [List.append_nil, chainCalls, chainTargets] at hc ht
  rw [chainCalls_congr s s0 hss0.2.2.1] at hc
  generalize afterStage (afterStage (afterStage (afterStage (afterStage s0 a p b Render_Bloom
    EventName.Pass_Bloom) x1 p y1 Render_Correction EventName.Pass_Correction) x2 p y2
    Render_FXAA EventName.Pass_FXAA) x3 p y3 Render_ChromaticAberration
    EventName.Pass_ChromaticAberration) x4 p y4 Render_Sharpening EventName.Pass_Sharpening
    = t5 at e5 sc5 cm5 px5 py5
  have hst5 : sameScene s t5 := sameScene_trans s s0 t5 hss0 sc5
  have hr5 : Ready t5 = true :=
    Ready_of_sameScene s t5 hst5 (by rw [px5]; rfl) (by rw [py5]; rfl) h
  obtain ⟨t6, c6, e6, hsu6, hcmd6, hp6, hs6, hb6, ht6⟩ := Pass_DebugGBuffer_spec t5 hr5
  have hr6 : Ready t6 = true := Ready_of_sameSetup t5 t6 hsu6 hr5
  obtain ⟨t7, c7, e7, hsu7, hcmd7, hp7, hs7, hb7, ht7⟩ := Pass_Debug_spec t6 hr6
  refine ⟨emit t7 [Command.EventEnd], c6, c7, ?_, ?_, ?_, hp6, hs6, hp7, hs7, ?_, ?_⟩
  · simp only [Pass_PostLight, hcond, Bool.false_eq_true, if_false]
    rw [← hs0, e1]
    simp only [Option.some_bind, e2, e3, e4, e5, e6, e7, Option.map_some']
  · exact sameScene_trans s t5 _ hst5
      (sameScene_trans t5 t6 _ hsu6.1 (sameScene_trans t6 t7 _ hsu7.1 (sameScene_refl _)))
  · show t7.rhi.commands ++ [Command.EventEnd] = _
    rw [hcmd7, hcmd6, cm5, hs0, hc]
    simp [emit, List.append_assoc]
  · show t7.m_renderTexPing = _
    rw [hsu7.2.1, hsu6.2.1, px5, ht]
  · show t7.m_renderTexPong = _
    rw [hsu7.2.2, hsu6.2.2, py5, ht]

/-! ### The frame up to the light pass -/

/-- On a ready renderer with a non-empty renderable list `Render` runs the depth
pass, the G-buffer pass and `Pass_PreLight`, which make the calls `c` and begin no
post-light stage and no light pass, and then is `Pass_Light` followed by
`Pass_PostLight` on the state `s3` they leave, whose set-up is that of `s`. -/
theorem Render_parts (s : Renderer) (h : Ready s = true)
    (hne : s.m_renderables.isEmpty = false) (t : D3D11_RenderTexture)
    (ht : s.m_renderTexShadowing = some t) :
    ∃ s3 c, sameSetup s s3 ∧ Ready s3 = true ∧ s3.rhi.commands = s.rhi.commands ++ c ∧
      passBegins c =
        (if castsShadows s then [EventName.Pass_DepthDirectionalLight] else []) ++
          [EventName.Pass_GBuffer, EventName.Pass_PreLight] ∧
      stageBegins c = [] ∧
      Render s =
        (Pass_Light s3 (ShaderResource.renderTexture t.id) s3.m_renderTexPing).bind
          Pass_PostLight := by
  obtain ⟨hrhi, hinit, ⟨r, hr⟩, ⟨g, hg⟩, -, ⟨a, ha⟩, -, -, -, ⟨camera, hcam, -⟩⟩ :=
    Ready_parts s h
  have hcond : (!s.m_rhi || !s.rhi.initialized) = false := by simp [hrhi, hinit]
  obtain ⟨s1, c1, e1, u1, m1, p1, st1, b1, t1⟩ := Pass_DepthDirectionalLight_spec s h
  have r1 := Ready_of_sameSetup s s1 u1 h
  obtain ⟨s2, c2, e2, u2, m2, p2, st2, b2, t2⟩ := Pass_GBuffer_spec s1 r1
  have r2 := Ready_of_sameSetup s1 s2 u2 r1
  have v2 := sameSetup_trans s s1 s2 u1 u2
  obtain ⟨f21, f22, f23, f24, f25, f26⟩ := sameSetup_fields s s2 v2
  obtain ⟨s3, c3, e3, u3, m3, p3, st3, b3, t3⟩ :=
    Pass_PreLight_spec s2 (ShaderResource.renderTexture g.GBuffer_Target_Normal.id)
      (ShaderResource.renderTexture g.GBuffer_Target_Depth.id) ShaderResource.noiseMap r2 a t
      (f23.trans ha) (f25.trans ht)
  have r3 := Ready_of_sameSetup s2 s3 u3 r2
  have v3 := sameSetup_trans s s2 s3 v2 u3
  obtain ⟨f31, f32, f33, f34, f35, f36⟩ := sameSetup_fields s s3 v3
  refine ⟨s3, c1 ++ c2 ++ c3, v3, r3, ?_, ?_, ?_, ?_⟩
  · rw [m3, m2, m1]
    simp only [List.append_assoc]
  · simp only [passBegins_append, p1, p2, p3, List.append_assoc, List.cons_append,
      List.nil_append]
  · simp only [stageBegins_append, st1, st2, st3]
    rfl
  · simp only [Render, hcond, hcam, hne, Bool.false_eq_true, if_false]
    rw [e1]
    simp only [Option.some_bind]
    rw [e2]
    simp only [Option.some_bind]
    rw [f22, f21, hg, hr]
    simp only []
    rw [e3]
    simp only [Option.some_bind]
    rw [f35, ht]

/-- A pass whose event begins in a command list is among its `passBegins`. -/
theorem mem_passBegins (l : List Command) (name : EventName)
    (hm : Command.EventBegin name ∈ l) (hp : isPass name = true) : name ∈ passBegins l := by
  simp only [passBegins, eventBegins, List.mem_filter, List.mem_filterMap]
  exact ⟨⟨_, hm, rfl⟩, hp⟩

/-- The calls before the first `EventBegin` of an event that a list does not begin
before. -/
theorem beforeEvent_append (name : EventName) (l m : List Command)
    (h : Command.EventBegin name ∉ l) :
    beforeEvent name (l ++ Command.EventBegin name :: m) = l := by
  induction l with
  | nil => simp [beforeEvent, List.takeWhile]
  | cons c l ih =>
    have hc : c ≠ Command.EventBegin name := fun e => h (by simp [e])
    have hl : Command.EventBegin name ∉ l := fun e => h (List.mem_cons_of_mem _ e)
    have ih2 := ih hl
    have hne : (c != Command.EventBegin name) = true := by simpa using hc
    simp only [beforeEvent] at ih2 ⊢
    rw [List.cons_append, List.takeWhile_cons, hne, if_pos rfl, ih2]

/-- The enabled stages of the chain, flag by flag. -/
theorem enabledStages_stageTable (s : Renderer) :
    enabledStages s stageTable =
      (if RenderFlags_IsSet s Render_Bloom then [EventName.Pass_Bloom] else []) ++
      (if RenderFlags_IsSet s Render_Correction then [EventName.Pass_Correction] else []) ++
      (if RenderFlags_IsSet s Render_FXAA then [EventName.Pass_FXAA] else []) ++
      (if RenderFlags_IsSet s Render_ChromaticAberration then
        [EventName.Pass_ChromaticAberration] else []) ++
      (if RenderFlags_IsSet s Render_Sharpening then [EventName.Pass_Sharpening] else []) := by
  have htable : ([] ++ [(Render_Bloom, EventName.Pass_Bloom)] ++
      [(Render_Correction, EventName.Pass_Correction)] ++ [(Render_FXAA, EventName.Pass_FXAA)] ++
      [(Render_ChromaticAberration, EventName.Pass_ChromaticAberration)] ++
      [(Render_Sharpening, EventName.Pass_Sharpening)]) = stageTable := rfl
  rw [← htable]
  simp only [enabledStages_concat]
  rfl

/-- In the chain of the enabled stages as the specification words it, from two
targets `a` and `b`, the first stage reads `a`, every later stage reads what the
stage before it wrote, and, `a` and `b` being different, no stage reads what it
writes. -/
theorem chainedTransfers_enabledStages (s : Renderer) (a b : Nat) :
    (∀ io ∈ (chainedTransfers a b (enabledStages s stageTable)).head?,
      io.input = some (ShaderResource.renderTexture a)) ∧
    List.Chain' (fun x y => y.input = x.output.map ShaderResource.renderTexture)
      (chainedTransfers a b (enabledStages s stageTable)) ∧
    (a ≠ b → ∀ io ∈ chainedTransfers a b (enabledStages s stageTable),
      io.input ≠ io.output.map ShaderResource.renderTexture) := by
  rw [enabledStages_stageTable]
  cases RenderFlags_IsSet s Render_Bloom <;> cases RenderFlags_IsSet s Render_Correction <;>
    cases RenderFlags_IsSet s Render_FXAA <;>
    cases RenderFlags_IsSet s Render_ChromaticAberration <;>
    cases RenderFlags_IsSet s Render_Sharpening <;>
    (refine ⟨?_, ?_, ?_⟩
     · simp [chainedTransfers, swapsAfter]
     · simp [chainedTransfers, swapsAfter, List.Chain']
     · intro hab
       have hba : b ≠ a := fun e => hab e.symm
       simp [chainedTransfers, swapsAfter, hab, hba])

/-- The names of the chain as the specification words it. -/
theorem chainedTransfers_names (a b : Nat) (names : List EventName) :
    (chainedTransfers a b names).map (fun io => io.name) = names := by
  induction names generalizing a b with
  | nil => rfl
  | cons name names ih =>
    cases hs : swapsAfter name <;> simp [chainedTransfers, hs, ih]

/-- The stages of `stageTable` are stages. -/
theorem enabledStages_isStage (s : Renderer) :
    ∀ name ∈ enabledStages s stageTable, isStage name = true := by
  intro name hn
  simp only [enabledStages, List.mem_map, List.mem_filter] at hn
  obtain ⟨stage, ⟨hm, -⟩, rfl⟩ := hn
  simp only [stageTable, List.mem_cons, List.mem_singleton, List.not_mem_nil, or_false] at hm
  rcases hm with h | h | h | h | h <;> rw [h] <;> rfl

/-- C23: on a ready renderer with a non-empty renderable list, whatever the render
flags, `Render` returns, and the stages of the post-light chain that the frame runs
are the enabled ones, reading and writing as the specification says: with `a` in
`m_renderTexPing` and `b` in `m_renderTexPong` before the frame, a stage reads its
source and writes its destination, these being `a` and `b` for the first enabled
stage and exchanged after every enabled stage but the sharpening stage.  So the
first enabled stage reads `a`, which is the render target that the light pass has
left (the light shader being compiled); every later stage reads the target that the
enabled stage before it wrote; `a` and `b` being different targets, every stage
writes a target other than the one it reads; and after the frame the two members
hold `a` and `b` exchanged once for every enabled stage other than the sharpening
stage. -/
theorem Render_chain (s : Renderer) (h : Ready s = true)
    (hne : s.m_renderables.isEmpty = false) (a b : D3D11_RenderTexture)
    (ha : s.m_renderTexPing = some a) (hb : s.m_renderTexPong = some b)
    (hab : a.id ≠ b.id) :
    ∃ s1, Render s = some s1 ∧
      stageTransfers (newCommands s s1) = chainedTransfers a.id b.id (enabledStages s stageTable) ∧
      (stageTransfers (newCommands s s1)).map (fun io => io.name) = enabledStages s stageTable ∧
      (lightCompiled s = true →
        lastRenderTarget (beforeEvent EventName.Pass_PostLight (newCommands s s1)) =
          some a.id) ∧
      (∀ io ∈ (stageTransfers (newCommands s s1)).head?,
        io.input = some (ShaderResource.renderTexture a.id)) ∧
      List.Chain' (fun x y => y.input = x.output.map ShaderResource.renderTexture)
        (stageTransfers (newCommands s s1)) ∧
      (∀ io ∈ stageTransfers (newCommands s s1),
        io.input ≠ io.output.map ShaderResource.renderTexture) ∧
      s1.m_renderTexPing =
        some (alternate a b ((enabledStages s stageTable).filter swapsAfter).length) ∧
      s1.m_renderTexPong =
        some (alternate b a ((enabledStages s stageTable).filter swapsAfter).length) := by
  obtain ⟨-, -, -, -, -, -, ⟨p, hp⟩, -, ⟨t, ht⟩, -⟩ := Ready_parts s h
  obtain ⟨s3, c, v3, r3, m3, p3, st3, hren⟩ := Render_parts s h hne t ht
  have v3s := v3.1
  obtain ⟨⟨-, -, -, -, -, -, -, -, f9, -⟩, f33, f34⟩ := id v3
  obtain ⟨s4, c4, e4, u4, m4, p4, st4, -, t4⟩ :=
    Pass_Light_spec s3 (ShaderResource.renderTexture t.id) r3 a (f33.trans ha)
  have r4 := Ready_of_sameSetup s3 s4 u4 r3
  have u4s := u4.1
  obtain ⟨⟨-, -, -, -, -, -, -, -, g9, -⟩, g33, g34⟩ := id u4
  obtain ⟨s5, c6, c7, e5, u5, m5, p6, st6, p7, st7, hx, hy⟩ :=
    Pass_PostLight_calls s4 r4 a p b (g33.trans (f33.trans ha)) (g9.trans (f9.trans hp))
      (g34.trans (f34.trans hb))
  rw [enabledStages_of_sameScene s s4 (sameScene_trans s s3 s4 v3s u4s),
    chainTargets_alternate] at hx hy
  rw [enabledStages_of_sameScene s s4 (sameScene_trans s s3 s4 v3s u4s)] at m5
  have hnew : newCommands s s5 = (c ++ c4) ++
      (Command.EventBegin EventName.Pass_PostLight ::
        ([Command.Rectangle_SetBuffer,
          Command.Set_PrimitiveTopology PrimitiveTopology.PrimitiveTopology_TriangleList,
          Command.SetCullMode CullMode.Cull_Back] ++
          (chainCalls s4 p a b (enabledStages s stageTable) ++
            (c6 ++ c7 ++ [Command.EventEnd])))) := by
    apply newCommands_of_append
    rw [m5, m4, m3]
    simp only [List.append_assoc, List.cons_append, List.nil_append]
  have hio : stageTransfers (newCommands s s5) =
      chainedTransfers a.id b.id (enabledStages s stageTable) := by
    have hpre : stageBegins (c ++ c4) = [] := by
      simp only [stageBegins_append, st3, st4]
      rfl
    have hpost : stageBegins (c6 ++ c7 ++ [Command.EventEnd]) = [] := by
      simp only [stageBegins_append, st6, st7]
      rfl
    rw [hnew, stageTransfers_append_of_no_stage _ _ hpre]
    show stageTransfers (chainCalls s4 p a b (enabledStages s stageTable) ++
      (c6 ++ c7 ++ [Command.EventEnd])) = _
    rw [stageTransfers_chainCalls s4 p _ (enabledStages_isStage s),
      ← List.append_nil (c6 ++ c7 ++ [Command.EventEnd]),
      stageTransfers_append_of_no_stage _ _ hpost]
    simp [stageTransfers]
  obtain ⟨k1, k2, k3⟩ := chainedTransfers_enabledStages s a.id b.id
  refine ⟨s5, ?_, hio, ?_, ?_, ?_, ?_, ?_, hx, hy⟩
  · rw [hren, e4]
    exact e5
  · rw [hio]
    exact chainedTransfers_names a.id b.id _
  · intro hlc
    have hlc3 : lightCompiled s3 = true := by
      rw [lightCompiled_of_sameSetup s s3 v3]; exact hlc
    rw [hlc3] at t4 p4
    have hnot : Command.EventBegin EventName.Pass_PostLight ∉ c ++ c4 := by
      intro hm
      have := mem_passBegins _ _ hm rfl
      rw [passBegins_append, p3, p4] at this
      cases castsShadows s <;> simp at this
    rw [hnew, beforeEvent_append _ _ _ hnot]
    show (renderTargetCalls (c ++ c4)).getLast? = _
    rw [renderTargetCalls_append, t4]
    simp
  · rw [hio]; exact k1
  · rw [hio]; exact k2
  · rw [hio]; exact k3 hab

/-- Witness of C23 on a frame with the bloom, FXAA and sharpening flags set, whose
targets `4` and `6` are in `m_renderTexPing` and `m_renderTexPong`. -/
theorem Render_chain_witness :
    Ready chainFrame = true ∧ chainFrame.m_renderables.isEmpty = false ∧
    chainFrame.m_renderTexPing = some (fullTarget 4) ∧
    chainFrame.m_renderTexPong = some (fullTarget 6) ∧
    (fullTarget 4).id ≠ (fullTarget 6).id ∧
    ∃ s1, Render chainFrame = some s1 ∧
      stageTransfers (newCommands chainFrame s1) =
        chainedTransfers (fullTarget 4).id (fullTarget 6).id (enabledStages chainFrame stageTable) ∧
      (stageTransfers (newCommands chainFrame s1)).map (fun io => io.name) =
        enabledStages chainFrame stageTable ∧
      (lightCompiled chainFrame = true →
        lastRenderTarget (beforeEvent EventName.Pass_PostLight (newCommands chainFrame s1)) =
          some (fullTarget 4).id) ∧
      (∀ io ∈ (stageTransfers (newCommands chainFrame s1)).head?,
        io.input = some (ShaderResource.renderTexture (fullTarget 4).id)) ∧
      List.Chain' (fun x y => y.input = x.output.map ShaderResource.renderTexture)
        (stageTransfers (newCommands chainFrame s1)) ∧
      (∀ io ∈ stageTransfers (newCommands chainFrame s1),
        io.input ≠ io.output.map ShaderResource.renderTexture) ∧
      s1.m_renderTexPing =
        some (alternate (fullTarget 4) (fullTarget 6)
          ((enabledStages chainFrame stageTable).filter swapsAfter).length) ∧
      s1.m_renderTexPong =
        some (alternate (fullTarget 6) (fullTarget 4)
          ((enabledStages chainFrame stageTable).filter swapsAfter).length) :=
  ⟨by decide, by decide, by decide, by decide, by decide,
    Render_chain chainFrame (by decide) (by decide) (fullTarget 4) (fullTarget 6)
      (by decide) (by decide) (by decide)⟩

/-! ### Draw calls and their render targets -/

/-- The draw calls of two command lists one after the other. -/
theorem drawStates_append (x y : List Command) :
    ∀ st, drawStates st (x ++ y) = drawStates st x ++ drawStates (x.foldl drawStep st) y := by
  induction x with
  | nil => intro st; rfl
  | cons c x ih =>
    intro st
    show (if isDraw c = true then [st] else []) ++ drawStates (drawStep st c) (x ++ y) = _
    rw [ih]
    simp only [drawStates, List.foldl_cons, List.append_assoc]

/-- The empty command list is clean. -/
theorem Clean_nil : Clean [] := by
  intro st hst
  exact ⟨by simp [drawStates], hst⟩

/-- Clean command lists one after the other are clean. -/
theorem Clean_append (x y : List Command) (hx : Clean x) (hy : Clean y) : Clean (x ++ y) := by
  intro st hst
  obtain ⟨h1, h2⟩ := hx st hst
  obtain ⟨h3, h4⟩ := hy _ h2
  refine ⟨?_, by rw [List.foldl_append]; exact h4⟩
  intro d hd
  rw [drawStates_append, List.mem_append] at hd
  rcases hd with hd | hd
  · exact h1 d hd
  · exact h3 d hd

/-- A command list that begins no full-screen pass is clean. -/
theorem Clean_of_quiet (x : List Command)
    (h : ∀ name, Command.EventBegin name ∈ x → fullScreenPass (some name) = false) :
    Clean x := by
  induction x with
  | nil => exact Clean_nil
  | cons c x ih =>
    intro st hst
    have hx : ∀ name, Command.EventBegin name ∈ x → fullScreenPass (some name) = false :=
      fun name hm => h name (List.mem_cons_of_mem _ hm)
    have hstep : fullScreenPass (drawStep st c).event = false := by
      cases c with
      | EventBegin name => exact h name (List.mem_cons_self _ _)
      | EventEnd => rfl
      | _ => exact hst
    obtain ⟨h1, h2⟩ := ih hx _ hstep
    refine ⟨?_, h2⟩
    intro d hd
    simp only [drawStates, List.mem_append] at hd
    rcases hd with hd | hd
    · intro hf
      split at hd
      · rw [List.mem_singleton] at hd
        rw [hd, hst] at hf
        exact absurd hf (by decide)
      · simp at hd
    · exact h1 d hd

/-- A command list that begins no post-light stage and no light pass is clean. -/
theorem Clean_of_begins (x : List Command) (hs : stageBegins x = [])
    (hl : EventName.Pass_Light ∉ passBegins x) : Clean x := by
  apply Clean_of_quiet
  intro name hm
  cases hf : fullScreenPass (some name) with
  | false => rfl
  | true =>
    exfalso
    by_cases hn : name = EventName.Pass_Light
    · rw [hn] at hm
      exact hl (mem_passBegins _ _ hm rfl)
    · have hst : isStage name = true := by
        cases name <;> first | (exact absurd rfl hn) | (exact hf)
      have : name ∈ stageBegins x := by
        simp only [stageBegins, eventBegins, List.mem_filter, List.mem_filterMap]
        exact ⟨⟨_, hm, rfl⟩, hst⟩
      rw [hs] at this
      simp at this

/-- The calls of one stage are clean if the three targets are different: the bright
pass of the bloom reads `a` and renders into `p`, the horizontal blur reads `p` and
renders into `b`, the vertical blur reads `b` and renders into `p`, the blend reads
`a` and `p` and renders into `b`; every other stage reads `a` and renders into
`b`. -/
theorem Clean_stageCalls (s : Renderer) (a p b : D3D11_RenderTexture) (name : EventName)
    (hab : a.id ≠ b.id) (hap : a.id ≠ p.id) (hpb : p.id ≠ b.id) :
    Clean (stageCalls s a p b name) := by
  have hba : b.id ≠ a.id := fun e => hab e.symm
  have hpa : p.id ≠ a.id := fun e => hap e.symm
  have hbp : b.id ≠ p.id := fun e => hpb e.symm
  intro st hst
  cases name <;>
    first
      | exact Clean_nil st hst
      | simp [stageCalls, Pass_Bloom, Pass_Correction, Pass_FXAA, Pass_ChromaticAberration,
          Pass_Sharpening, fullScreenDraw, SetRenderTarget, drawStates, drawStep, isDraw,
          samplesTarget, fullScreenPass, hab, hap, hpb, hba, hpa, hbp]

/-- The calls of a chain of stages are clean if the three targets are different. -/
theorem Clean_chainCalls (s : Renderer) (p : D3D11_RenderTexture) (names : List EventName) :
    ∀ a b : D3D11_RenderTexture, a.id ≠ b.id → a.id ≠ p.id → p.id ≠ b.id →
      Clean (chainCalls s p a b names) := by
  induction names with
  | nil => intro a b _ _ _; exact Clean_nil
  | cons name names ih =>
    intro a b hab hap hpb
    simp only [chainCalls]
    apply Clean_append _ _ (Clean_stageCalls s a p b name hab hap hpb)
    cases swapsAfter name with
    | true => exact ih b a (fun e => hab e.symm) (fun e => hpb e.symm) (fun e => hap e.symm)
    | false => exact ih a b hab hap hpb

/-- On a ready renderer `Pass_Light`, called as in `Render` with the shadowing target
`t` as input, returns, and its calls are clean if the target `a` it renders into is
none of the targets it reads: the four of the G-buffer, `t`, and `b` in
`m_renderTexPong`. -/
theorem Pass_Light_clean (s : Renderer) (h : Ready s = true) (g : GBuffer)
    (a b t : D3D11_RenderTexture) (hg : s.m_gbuffer = some g)
    (ha : s.m_renderTexPing = some a) (hb : s.m_renderTexPong = some b)
    (h1 : a.id ≠ g.GBuffer_Target_Albedo.id) (h2 : a.id ≠ g.GBuffer_Target_Normal.id)
    (h3 : a.id ≠ g.GBuffer_Target_Depth.id) (h4 : a.id ≠ g.GBuffer_Target_Specular.id)
    (h5 : a.id ≠ t.id) (h6 : a.id ≠ b.id) :
    ∃ s1 c, Pass_Light s (ShaderResource.renderTexture t.id) s.m_renderTexPing = some s1 ∧
      s1.rhi.commands = s.rhi.commands ++ c ∧ Clean c := by
  obtain ⟨hrhi, -, ⟨r, hr⟩, -, ⟨q, hq⟩, -⟩ := Ready_parts s h
  have hcond : (!(s.m_rhi && s.m_quad.isSome)) = false := by simp [hrhi, hq]
  rw [ha]
  cases hl : r.lightShaderCompiled with
  | false =>
    refine ⟨s, [], ?_, by simp, Clean_nil⟩
    simp [Pass_Light, hr, hl]
  | true =>
    apply Exists.intro
    apply Exists.intro
    refine ⟨?h1, ?h2, ?_⟩
    case h1 =>
      simp only [Pass_Light, hr, hl, hg, hb, hcond, Bool.not_true, Bool.false_eq_true, if_false]
      rfl
    case h2 => rfl
    intro st hst
    cases s.m_skybox <;>
      simp [SetRenderTarget, drawStates, drawStep, isDraw, samplesTarget, fullScreenPass,
        h1, h2, h3, h4, h5, h6]

/-- The two targets after a number of exchanges are the two targets, in one order or
the other. -/
theorem alternate_cases {α : Type} (a b : α) (n : Nat) :
    (alternate a b n = a ∧ alternate b a n = b) ∨ (alternate a b n = b ∧ alternate b a n = a) := by
  unfold alternate
  rcases Nat.mod_two_eq_zero_or_one n with h | h
  · left; simp [h]
  · right; simp [h]

/-- One frame on a ready renderer with a non-empty renderable list and different
render textures: `Render` returns, the render textures are different after it, the
members `m_renderTexPing` and `m_renderTexPong` hold what they held, in one order
or the other, and the calls of the frame are clean. -/
theorem Render_clean (u : Renderer) (h : Ready u = true)
    (hne : u.m_renderables.isEmpty = false) (hd : distinctTargets u) :
    ∃ v, Render u = some v ∧ sameScene u v ∧ distinctTargets v ∧
      Clean (newCommands u v) ∧
      ((v.m_renderTexPing = u.m_renderTexPing ∧ v.m_renderTexPong = u.m_renderTexPong) ∨
        (v.m_renderTexPing = u.m_renderTexPong ∧ v.m_renderTexPong = u.m_renderTexPing)) := by
  obtain ⟨-, -, -, ⟨g, hg⟩, -, ⟨a, ha⟩, ⟨p, hp⟩, ⟨b, hb⟩, ⟨t, ht⟩, -⟩ := Ready_parts u h
  have hd0 := hd
  simp only [distinctTargets, targetIDs, renderTargets, hg, ha, hp, hb, ht, List.filterMap_cons,
    List.filterMap_nil, id, List.map_cons, List.map_nil, List.cons_append, List.nil_append,
    List.nodup_cons, List.mem_cons, List.mem_singleton, List.not_mem_nil, or_false, not_or,
    List.nodup_nil, and_true] at hd0
  obtain ⟨-, -, -, -, ⟨hap, hab, hat⟩, ⟨hpb, -⟩, -⟩ := id hd0
  obtain ⟨⟨-, -, -, h1, -⟩, ⟨-, -, h2, -⟩, ⟨-, h4, -⟩, ⟨h3, -⟩, -⟩ := id hd0
  obtain ⟨s3, c, v3, r3, m3, p3, st3, hren⟩ := Render_parts u h hne t ht
  have v3s := v3.1
  obtain ⟨⟨-, -, -, -, -, -, f7, -, f9, -⟩, f33, f34⟩ := id v3
  obtain ⟨s4, c4, e4, u4, m4, p4, st4, -, -⟩ :=
    Pass_Light_spec s3 (ShaderResource.renderTexture t.id) r3 a (f33.trans ha)
  obtain ⟨s4x, c4x, e4x, m4x, cl4⟩ :=
    Pass_Light_clean s3 r3 g a b t (f7.trans hg) (f33.trans ha) (f34.trans hb)
      (fun e => h1 e.symm) (fun e => h2 e.symm) (fun e => h3 e.symm) (fun e => h4 e.symm)
      hat hab
  have hs4 : s4x = s4 := Option.some.inj (e4x.symm.trans e4)
  rw [hs4, m4] at m4x
  have hc4 : c4x = c4 := (List.append_cancel_left m4x).symm
  rw [hc4] at cl4
  have r4 := Ready_of_sameSetup s3 s4 u4 r3
  have u4s := u4.1
  obtain ⟨⟨-, -, -, -, -, -, -, -, g9, -⟩, g33, g34⟩ := id u4
  obtain ⟨s5, c6, c7, e5, u5, m5, p6, st6, p7, st7, hx, hy⟩ :=
    Pass_PostLight_calls s4 r4 a p b (g33.trans (f33.trans ha)) (g9.trans (f9.trans hp))
      (g34.trans (f34.trans hb))
  rw [chainTargets_alternate] at hx hy
  have hsc : sameScene u s5 := sameScene_trans u s4 s5 (sameScene_trans u s3 s4 v3s u4s) u5
  have hnew : newCommands u s5 = c ++ (c4 ++
      ([Command.EventBegin EventName.Pass_PostLight, Command.Rectangle_SetBuffer,
          Command.Set_PrimitiveTopology PrimitiveTopology.PrimitiveTopology_TriangleList,
          Command.SetCullMode CullMode.Cull_Back] ++
        (chainCalls s4 p a b (enabledStages s4 stageTable) ++
          (c6 ++ (c7 ++ [Command.EventEnd]))))) := by
    apply newCommands_of_append
    rw [m5, m4, m3]
    simp only [List.append_assoc, List.cons_append, List.nil_append]
  have hcl : Clean (newCommands u s5) := by
    rw [hnew]
    refine Clean_append _ _ (Clean_of_begins c st3 ?_)
      (Clean_append _ _ cl4
        (Clean_append _ _ (Clean_of_quiet _ ?_)
          (Clean_append _ _ (Clean_chainCalls s4 p _ a b hab hap hpb)
            (Clean_append _ _ (Clean_of_begins c6 st6 ?_)
              (Clean_append _ _ (Clean_of_begins c7 st7 ?_) (Clean_of_quiet _ ?_))))))
    · rw [p3]
      cases castsShadows u <;> simp
    · intro name hm
      simp only [List.mem_cons, List.mem_singleton, List.not_mem_nil, or_false] at hm
      rcases hm with hm | hm | hm | hm
      · injection hm with hm
        rw [hm]
        rfl
      · exact absurd hm (by simp)
      · exact absurd hm (by simp)
      · exact absurd hm (by simp)
    · rw [p6]; simp
    · rw [p7]; simp
    · intro name hm
      simp at hm
  obtain ⟨-, -, -, -, -, -, k7, -, k9, k10, -⟩ := id hsc
  refine ⟨s5, by rw [hren, e4]; exact e5, hsc, ?_, hcl, ?_⟩
  · rcases alternate_cases a b
        ((enabledStages s4 stageTable).filter swapsAfter).length with ⟨q1, q2⟩ | ⟨q1, q2⟩
    · rw [q1] at hx
      rw [q2] at hy
      simp only [distinctTargets, targetIDs, renderTargets, k7, k9, k10, hg, hx, hp, hy, ht]
      simpa only [distinctTargets, targetIDs, renderTargets, hg, ha, hp, hb, ht] using hd
    · rw [q1] at hx
      rw [q2] at hy
      simp only [distinctTargets, targetIDs, renderTargets, k7, k9, k10, hg, hx, hp, hy, ht,
        List.filterMap_cons, List.filterMap_nil, id, List.map_cons, List.map_nil,
        List.cons_append, List.nil_append, List.nodup_cons, List.mem_cons, List.mem_singleton,
        List.not_mem_nil, or_false, not_or, List.nodup_nil, and_true]
      obtain ⟨⟨z1, z2, z3, z4, z5, z6, z7⟩, ⟨y1, y2, y3, y4, y5, y6⟩, ⟨x1, x2, x3, x4, x5⟩,
        ⟨w1, w2, w3, w4⟩, ⟨w5, w6, w7⟩, ⟨w8, w9⟩, w10⟩ := hd0
      exact ⟨⟨z1, z2, z3, z6, z5, z4, z7⟩, ⟨y1, y2, y5, y4, y3, y6⟩, ⟨x1, x4, x3, x2, x5⟩,
        ⟨w3, w2, w1, w4⟩, ⟨fun e => w8 e.symm, fun e => w6 e.symm, w10.1⟩,
        ⟨fun e => w5 e.symm, w9⟩, w7, w10.2⟩
  · rcases alternate_cases a b
        ((enabledStages s4 stageTable).filter swapsAfter).length with ⟨q1, q2⟩ | ⟨q1, q2⟩
    · left
      rw [hx, hy, q1, q2, ha, hb]
      exact ⟨rfl, rfl⟩
    · right
      rw [hx, hy, q1, q2, ha, hb]
      exact ⟨rfl, rfl⟩

/-- A renderer that is ready with the scene grid on is ready with any flags. -/
theorem Ready_of_readyWithAnyFlags (s : Renderer) (h : readyWithAnyFlags s = true)
    (flags : Nat) : Ready { s with m_flags := flags } = true := by
  simp only [readyWithAnyFlags, Ready, Bool.and_eq_true] at h ⊢
  obtain ⟨h1, h2⟩ := h
  refine ⟨h1, ?_⟩
  cases hc : s.m_camera with
  | none => simp [hc] at h2
  | some camera =>
    simp only [hc, RenderFlags_IsSet] at h2 ⊢
    have hg : ((Render_SceneGrid &&& Render_SceneGrid) != 0) = true := by decide
    rw [hg] at h2
    simp only [Bool.not_true, Bool.false_or] at h2
    rw [h2]
    simp

/-- States with the same scene are ready with any flags together, if the ping and
pong targets of the second are there. -/
theorem readyWithAnyFlags_of_sameScene (s t : Renderer) (h : sameScene s t)
    (hp : t.m_renderTexPing.isSome = true) (hq : t.m_renderTexPong.isSome = true)
    (hr : readyWithAnyFlags s = true) : readyWithAnyFlags t = true := by
  obtain ⟨h1, h2, h3, h4, h5, h6, h7, h8, h9, h10, h11, h12, h13, h14, h15, h16, h17⟩ := h
  exact Ready_of_sameScene { s with m_flags := Render_SceneGrid }
    { t with m_flags := Render_SceneGrid }
    ⟨h1, h2, h3, h4, h5, h6, h7, h8, h9, h10, h11, h12, h13, h14, h15, h16, rfl⟩ hp hq hr

/-- The render textures that `RenderTargets_Create` allocates are different
objects. -/
theorem RenderTargets_Create_distinct (s : Renderer) (width height : Int) :
    distinctTargets (RenderTargets_Create s width height) := by
  simp [distinctTargets, targetIDs, renderTargets, RenderTargets_Create, GBuffer.create]

/-- Any number of frames on a renderer that is ready with any flags, has a
non-empty renderable list and different render textures: the frames return, and
leave a renderer of which the same holds, with the same target in
`m_renderTexPing2` and the same two targets in `m_renderTexPing` and
`m_renderTexPong`, in one order or the other. -/
theorem renderWithFlags_inv (flags : List Nat) :
    ∀ s : Renderer, readyWithAnyFlags s = true → s.m_renderables.isEmpty = false →
      distinctTargets s →
      ∃ t, renderWithFlags s flags = some t ∧ readyWithAnyFlags t = true ∧
        t.m_renderables.isEmpty = false ∧ distinctTargets t ∧
        t.m_renderTexPing2 = s.m_renderTexPing2 ∧
        ((t.m_renderTexPing = s.m_renderTexPing ∧ t.m_renderTexPong = s.m_renderTexPong) ∨
          (t.m_renderTexPing = s.m_renderTexPong ∧
            t.m_renderTexPong = s.m_renderTexPing)) := by
  induction flags with
  | nil => intro s h hne hd; exact ⟨s, rfl, h, hne, hd, rfl, Or.inl ⟨rfl, rfl⟩⟩
  | cons flag rest ih =>
    intro s h hne hd
    have hr := Ready_of_readyWithAnyFlags s h flag
    obtain ⟨-, -, -, -, -, ⟨a, ha⟩, -, ⟨b, hb⟩, -⟩ := Ready_parts _ hr
    obtain ⟨v, e, hsc, hdv, -, hsw⟩ := Render_clean { s with m_flags := flag } hr hne hd
    have hsome : v.m_renderTexPing.isSome = true ∧ v.m_renderTexPong.isSome = true := by
      rcases hsw with ⟨q1, q2⟩ | ⟨q1, q2⟩
      · rw [q1, q2, ha, hb]; exact ⟨rfl, rfl⟩
      · rw [q1, q2, ha, hb]; exact ⟨rfl, rfl⟩
    obtain ⟨k1, k2, k3, k4, k5, k6, k7, k8, k9, k10, k11, k12, k13, k14, k15, k16, k17⟩ := id hsc
    have hv : readyWithAnyFlags v = true := by
      have := Ready_of_sameScene { s with m_flags := Render_SceneGrid }
        { v with m_flags := Render_SceneGrid }
        ⟨k1, k2, k3, k4, k5, k6, k7, k8, k9, k10, k11, k12, k13, k14, k15, k16, rfl⟩
        hsome.1 hsome.2 h
      exact this
    obtain ⟨t, et, ht, hnt, hdt, hp2, hst⟩ := ih v hv (by rw [k11]; exact hne) hdv
    refine ⟨t, ?_, ht, hnt, hdt, hp2.trans k9, ?_⟩
    · simp only [renderWithFlags, e, Option.some_bind]
      exact et
    · rcases hst with ⟨z1, z2⟩ | ⟨z1, z2⟩ <;> rcases hsw with ⟨q1, q2⟩ | ⟨q1, q2⟩
      · left; exact ⟨z1.trans q1, z2.trans q2⟩
      · right; exact ⟨z1.trans q1, z2.trans q2⟩
      · right; exact ⟨z1.trans q2, z2.trans q1⟩
      · left; exact ⟨z1.trans q2, z2.trans q1⟩

/-- C28: on a renderer that is set up for rendering with any render flags, has a
non-empty renderable list, and whose eight render textures are different objects,
as `RenderTargets_Create` makes them: after `Render` has been called any number of
times, with any render flags each time, the targets in `m_renderTexPing`,
`m_renderTexPing2` and `m_renderTexPong` are pairwise different, they are the targets
the members held at first, the first and the last in one order or the other, and in
one more call of `Render`, with any render flags, no draw call of the light pass, of
the bloom, or of the correction, FXAA, chromatic-aberration or sharpening stage has
among the textures bound for it the render texture it renders into. -/
theorem targets_stay_distinct (s : Renderer) (h : readyWithAnyFlags s = true)
    (hne : s.m_renderables.isEmpty = false) (hd : distinctTargets s)
    (flags : List Nat) (next : Nat) :
    ∃ t v, renderWithFlags s flags = some t ∧
      (∃ a p b, t.m_renderTexPing = some a ∧ t.m_renderTexPing2 = some p ∧
        t.m_renderTexPong = some b ∧ a.id ≠ p.id ∧ a.id ≠ b.id ∧ p.id ≠ b.id) ∧
      t.m_renderTexPing2 = s.m_renderTexPing2 ∧
      ((t.m_renderTexPing = s.m_renderTexPing ∧ t.m_renderTexPong = s.m_renderTexPong) ∨
        (t.m_renderTexPing = s.m_renderTexPong ∧ t.m_renderTexPong = s.m_renderTexPing)) ∧
      Render { t with m_flags := next } = some v ∧
      ∀ d ∈ fullScreenDraws (newCommands { t with m_flags := next } v),
        samplesTarget d = false := by
  obtain ⟨t, et, ht, hnt, hdt, hp2, hst⟩ := renderWithFlags_inv flags s h hne hd
  have hr := Ready_of_readyWithAnyFlags t ht next
  obtain ⟨-, -, -, ⟨g, hg⟩, -, ⟨a, ha⟩, ⟨p, hp⟩, ⟨b, hb⟩, ⟨x, hx⟩, -⟩ := Ready_parts _ hr
  obtain ⟨v, e, -, -, hcl, -⟩ := Render_clean { t with m_flags := next } hr hnt hdt
  have hd0 := hdt
  simp only [distinctTargets, targetIDs, renderTargets] at hd0
  have hg1 : t.m_gbuffer = some g := hg
  have ha1 : t.m_renderTexPing = some a := ha
  have hp1 : t.m_renderTexPing2 = some p := hp
  have hb1 : t.m_renderTexPong = some b := hb
  have hx1 : t.m_renderTexShadowing = some x := hx
  simp only [hg1, ha1, hp1, hb1, hx1, List.filterMap_cons,
    List.filterMap_nil, id, List.map_cons, List.map_nil, List.cons_append, List.nil_append,
    List.nodup_cons, List.mem_cons, List.mem_singleton, List.not_mem_nil, or_false, not_or,
    List.nodup_nil, and_true] at hd0
  obtain ⟨-, -, -, -, ⟨hap, hab, -⟩, ⟨hpb, -⟩, -⟩ := hd0
  refine ⟨t, v, et, ⟨a, p, b, ha1, hp1, hb1, hap, hab, hpb⟩, hp2, hst, e, ?_⟩
  intro d hd
  simp only [fullScreenDraws, List.mem_filter] at hd
  exact (hcl idleDevice rfl).1 d hd.1 hd.2

/-- A ready renderer whose camera is where the grid has a world matrix is ready with
any flags. -/
theorem readyWithAnyFlags_of_Ready (s : Renderer) (h : Ready s = true)
    (hm : ∀ camera, s.m_camera = some camera →
      (ComputeWorldMatrix camera.position).isSome = true) :
    readyWithAnyFlags s = true := by
  simp only [readyWithAnyFlags, Ready, Bool.and_eq_true] at h ⊢
  obtain ⟨h1, h2⟩ := h
  refine ⟨h1, ?_⟩
  cases hc : s.m_camera with
  | none => simp [hc] at h2
  | some camera =>
    simp only [hc]
    rw [hm camera hc]
    simp

/-- The renderer of `frameWith`, whose camera is at the origin, is ready with any
flags. -/
theorem readyWithAnyFlags_frameWith (flags : Nat) :
    readyWithAnyFlags (frameWith flags) = true := by
  have h0 : Ready (frameWith 0) = true := by decide
  have h1 := readyWithAnyFlags_of_Ready (frameWith 0) h0 (by
    intro camera hc
    have hcam : camera = {} := (Option.some.inj hc).symm
    rw [hcam]
    norm_num [ComputeWorldMatrix, intOfFloat, gridSpacing])
  exact h1

/-- Witness of C28 on the renderer of `frameWith`: two frames, with the bloom flag
and with the sharpening flag, leave the targets `6`, `5`, `4` in `m_renderTexPing`,
`m_renderTexPing2`, `m_renderTexPong`; in a third frame with the bloom and correction
flags the light pass renders into `6`, the four draws of the bloom into `5`, `4`,
`5`, `4`, and the correction into `6`, each reading other targets. -/
theorem targets_stay_distinct_witness :
    readyWithAnyFlags (frameWith 0) = true ∧ (frameWith 0).m_renderables.isEmpty = false ∧
    distinctTargets (frameWith 0) ∧
    (∃ t v, renderWithFlags (frameWith 0) [Render_Bloom, Render_Sharpening] = some t ∧
      (∃ a p b, t.m_renderTexPing = some a ∧ t.m_renderTexPing2 = some p ∧
        t.m_renderTexPong = some b ∧ a.id ≠ p.id ∧ a.id ≠ b.id ∧ p.id ≠ b.id) ∧
      t.m_renderTexPing2 = (frameWith 0).m_renderTexPing2 ∧
      ((t.m_renderTexPing = (frameWith 0).m_renderTexPing ∧
          t.m_renderTexPong = (frameWith 0).m_renderTexPong) ∨
        (t.m_renderTexPing = (frameWith 0).m_renderTexPong ∧
          t.m_renderTexPong = (frameWith 0).m_renderTexPing)) ∧
      Render { t with m_flags := Render_Bloom ||| Render_Correction } = some v ∧
      ∀ d ∈ fullScreenDraws
          (newCommands { t with m_flags := Render_Bloom ||| Render_Correction } v),
        samplesTarget d = false) ∧
    (renderWithFlags (frameWith 0) [Render_Bloom, Render_Sharpening]).map targetIDs =
      some [0, 1, 2, 3, 6, 5, 4, 7] ∧
    (renderWithFlags (frameWith 0) [Render_Bloom, Render_Sharpening]).bind (fun t =>
      (Render { t with m_flags := Render_Bloom ||| Render_Correction }).map (fun v =>
        fullScreenDraws
          (newCommands { t with m_flags := Render_Bloom ||| Render_Correction } v))) =
      some [
        { event := some EventName.Pass_Light, target := some 6,
          textures := [some (ShaderResource.renderTexture 0),
            some (ShaderResource.renderTexture 1), some (ShaderResource.renderTexture 3),
            some (ShaderResource.renderTexture 2), some (ShaderResource.renderTexture 7),
            some (ShaderResource.renderTexture 4), none] },
        { event := some EventName.Pass_Bloom, target := some 5,
          textures := [some (ShaderResource.renderTexture 6)] },
        { event := some EventName.Pass_Bloom, target := some 4,
          textures := [some (ShaderResource.renderTexture 5)] },
        { event := some EventName.Pass_Bloom, target := some 5,
          textures := [some (ShaderResource.renderTexture 4)] },
        { event := some EventName.Pass_Bloom, target := some 4,
          textures := [some (ShaderResource.renderTexture 6),
            some (ShaderResource.renderTexture 5)] },
        { event := some EventName.Pass_Correction, target := some 6,
          textures := [some (ShaderResource.renderTexture 4)] }] :=
  ⟨readyWithAnyFlags_frameWith 0, by decide, by decide,
    targets_stay_distinct (frameWith 0) (readyWithAnyFlags_frameWith 0) (by decide) (by decide)
      [Render_Bloom, Render_Sharpening] (Render_Bloom ||| Render_Correction),
    by decide, by set_option maxRecDepth 4000 in decide⟩

end Directus
